import Mathlib

/-!
# apitrace: argument-size resolver (`glsize.hpp`) and EGL replay engine (`glretrace_egl.cpp`)

A shallow embedding of the two C++ sources and the properties proved about it.

Conventions of the embedding

* `GLenum`, `GLuint`, `unsigned` are naturals; arithmetic on them is reduced modulo `2^32`
  where the C++ expression has that type.
* `GLint`, `GLsizei` are integers; a conversion to `unsigned` or to `size_t` is the
  reduction modulo `2^32`, respectively `2^64` (an LP64 target).
* `size_t` is a natural, reduced modulo `2^64` after every operation.
* Pointers are naturals, `NULL` is `0`; an array argument is a function of the index or a
  list of its elements.
* A signed 32-bit operation wraps (`wrapInt`); theorems about exact results state the
  range in which it does not.
* Lines written through `os::log` are part of the result where a theorem speaks of them
  (`__gl_type_size_log`), and left aside elsewhere.
* What the external collaborators answer (the values `__glGetIntegerv` reads, the bytes of
  the bound buffer, client memory, whether `malloc` succeeds, the pointers `glws` hands out,
  the result of `glws::makeCurrent`) is an explicit input.
-/

namespace Apitrace

/-! ## Enumerated constants -/

/-- Modelled from the spec: the numeric values of the `GL_*` constants (this one and the
    ones below), which `glimports.hpp` (not among the sources) supplies; the spec and the
    code name them, their values are the ones of the OpenGL registry headers. -/
def GL_BYTE : Nat := 0x1400
def GL_UNSIGNED_BYTE : Nat := 0x1401
def GL_SHORT : Nat := 0x1402
def GL_UNSIGNED_SHORT : Nat := 0x1403
def GL_INT : Nat := 0x1404
def GL_UNSIGNED_INT : Nat := 0x1405
def GL_FLOAT : Nat := 0x1406
def GL_2_BYTES : Nat := 0x1407
def GL_3_BYTES : Nat := 0x1408
def GL_4_BYTES : Nat := 0x1409
def GL_DOUBLE : Nat := 0x140A
def GL_HALF_FLOAT : Nat := 0x140B
def GL_FIXED : Nat := 0x140C
def GL_BOOL : Nat := 0x8B56
def GL_BITMAP : Nat := 0x1A00
def GL_UNSIGNED_BYTE_3_3_2 : Nat := 0x8032
def GL_UNSIGNED_SHORT_4_4_4_4 : Nat := 0x8033
def GL_UNSIGNED_SHORT_5_5_5_1 : Nat := 0x8034
def GL_UNSIGNED_INT_8_8_8_8 : Nat := 0x8035
def GL_UNSIGNED_INT_10_10_10_2 : Nat := 0x8036
def GL_UNSIGNED_BYTE_2_3_3_REV : Nat := 0x8362
def GL_UNSIGNED_SHORT_5_6_5 : Nat := 0x8363
def GL_UNSIGNED_SHORT_5_6_5_REV : Nat := 0x8364
def GL_UNSIGNED_SHORT_4_4_4_4_REV : Nat := 0x8365
def GL_UNSIGNED_SHORT_1_5_5_5_REV : Nat := 0x8366
def GL_UNSIGNED_INT_8_8_8_8_REV : Nat := 0x8367
def GL_UNSIGNED_INT_2_10_10_10_REV : Nat := 0x8368
def GL_UNSIGNED_SHORT_8_8_MESA : Nat := 0x85BA
def GL_UNSIGNED_SHORT_8_8_REV_MESA : Nat := 0x85BB
def GL_UNSIGNED_INT_24_8 : Nat := 0x84FA
def GL_UNSIGNED_INT_10F_11F_11F_REV : Nat := 0x8C3B
def GL_UNSIGNED_INT_5_9_9_9_REV : Nat := 0x8C3E
def GL_UNSIGNED_INT_S8_S8_8_8_NV : Nat := 0x86DA
def GL_UNSIGNED_INT_8_8_S8_S8_REV_NV : Nat := 0x86DB
def GL_FLOAT_32_UNSIGNED_INT_24_8_REV : Nat := 0x8DAD

def GL_COLOR_INDEX : Nat := 0x1900
def GL_STENCIL_INDEX : Nat := 0x1901
def GL_DEPTH_COMPONENT : Nat := 0x1902
def GL_RED : Nat := 0x1903
def GL_GREEN : Nat := 0x1904
def GL_BLUE : Nat := 0x1905
def GL_ALPHA : Nat := 0x1906
def GL_RGB : Nat := 0x1907
def GL_RGBA : Nat := 0x1908
def GL_LUMINANCE : Nat := 0x1909
def GL_LUMINANCE_ALPHA : Nat := 0x190A
def GL_INTENSITY : Nat := 0x8049
def GL_DEPTH_STENCIL : Nat := 0x84F9
def GL_RG : Nat := 0x8227
def GL_HILO_NV : Nat := 0x86F4
def GL_DSDT_NV : Nat := 0x86F5
def GL_DSDT_MAG_NV : Nat := 0x86F6
def GL_DSDT_MAG_VIB_NV : Nat := 0x86F7
def GL_BGR : Nat := 0x80E0
def GL_BGRA : Nat := 0x80E1
def GL_ABGR_EXT : Nat := 0x8000
def GL_CMYK_EXT : Nat := 0x800C
def GL_CMYKA_EXT : Nat := 0x800D

/-- Client API tokens, `glretrace_egl.cpp` lines 36-40. -/
def EGL_OPENGL_ES_API : Nat := 0x30A0
def EGL_OPENVG_API : Nat := 0x30A1
def EGL_OPENGL_API : Nat := 0x30A2

/-! ## Machine integers -/

/-- Conversion of a `GLint` to `unsigned` / `GLuint`: reduction modulo `2^32`. -/
def toUnsigned (i : Int) : Nat := (i % (2 ^ 32 : Int)).toNat

/-- Conversion of a `GLint` to `size_t`: reduction modulo `2^64`. -/
def toSizeT (i : Int) : Nat := (i % (2 ^ 64 : Int)).toNat

/-- Result of a `GLint` operation, wrapped into the range of a 32-bit signed integer. -/
def wrapInt (i : Int) : Int := (i + 2 ^ 31) % 2 ^ 32 - 2 ^ 31

/-! ## `glsize.hpp`: type and format metrics -/

/-- Byte width of a scalar type constant, `__gl_type_size` (lines 44-71); the value
    returned, the diagnostic of the default branch left aside. -/
def __gl_type_size (type : Nat) : Nat :=
  if type = GL_BOOL ∨ type = GL_BYTE ∨ type = GL_UNSIGNED_BYTE then 1
  else if type = GL_SHORT ∨ type = GL_UNSIGNED_SHORT ∨ type = GL_2_BYTES
      ∨ type = GL_HALF_FLOAT then 2
  else if type = GL_3_BYTES then 3
  else if type = GL_INT ∨ type = GL_UNSIGNED_INT ∨ type = GL_FLOAT ∨ type = GL_4_BYTES
      ∨ type = GL_FIXED then 4
  else if type = GL_DOUBLE then 8
  else 0

/-- Number of channels of a pixel format, `__gl_format_channels` (lines 535-570); the
    value returned, the diagnostic of the default branch left aside. -/
def __gl_format_channels (format : Nat) : Nat :=
  if format = GL_COLOR_INDEX ∨ format = GL_RED ∨ format = GL_GREEN ∨ format = GL_BLUE
      ∨ format = GL_ALPHA ∨ format = GL_INTENSITY ∨ format = GL_LUMINANCE
      ∨ format = GL_DEPTH_COMPONENT ∨ format = GL_STENCIL_INDEX then 1
  else if format = GL_DEPTH_STENCIL ∨ format = GL_LUMINANCE_ALPHA ∨ format = GL_RG
      ∨ format = GL_HILO_NV ∨ format = GL_DSDT_NV then 2
  else if format = GL_RGB ∨ format = GL_BGR ∨ format = GL_DSDT_MAG_NV then 3
  else if format = GL_RGBA ∨ format = GL_BGRA ∨ format = GL_ABGR_EXT
      ∨ format = GL_CMYK_EXT ∨ format = GL_DSDT_MAG_VIB_NV then 4
  else if format = GL_CMYKA_EXT then 5
  else 0

/-- The test `(x & (x - 1)) == 0` of `_is_pot` (lines 572-576), at type `unsigned`:
    `x - 1` wraps to `2^32 - 1` for `x = 0`. -/
def _is_pot (x : Nat) : Bool := (x &&& ((x + (2 ^ 32 - 1)) % 2 ^ 32)) == 0

/-- The rounding `(x + (y - 1)) & ~(y - 1)` of `_align` (lines 578-582) at `X = size_t`,
    `Y = GLint`: both `y - 1` and `~(y - 1)` are computed as `int` and then converted to
    `size_t`; the sum wraps modulo `2^64`. -/
def _align (x : Nat) (y : Int) : Nat :=
  ((x + toSizeT (wrapInt (y - 1))) % 2 ^ 64) &&& toSizeT (~~~ (wrapInt (y - 1)))

/-! ## `glsize.hpp`: packed-image sizing -/

/-- The unpack state of the context, as `__glGetIntegerv` reads it. -/
structure UnpackState where
  alignment : Int
  row_length : Int
  image_height : Int
  skip_rows : Int
  skip_pixels : Int
  skip_images : Int
deriving DecidableEq, Repr

/-- The `switch (type)` of `__gl_image_size` (lines 588-639): bits per pixel. -/
def bits_per_pixel (format type : Nat) : Nat :=
  let num_channels := __gl_format_channels format
  if type = GL_BITMAP then 1
  else if type = GL_BYTE ∨ type = GL_UNSIGNED_BYTE then (8 * num_channels) % 2 ^ 32
  else if type = GL_SHORT ∨ type = GL_UNSIGNED_SHORT ∨ type = GL_HALF_FLOAT then
    (16 * num_channels) % 2 ^ 32
  else if type = GL_INT ∨ type = GL_UNSIGNED_INT ∨ type = GL_FLOAT then
    (32 * num_channels) % 2 ^ 32
  else if type = GL_UNSIGNED_BYTE_3_3_2 ∨ type = GL_UNSIGNED_BYTE_2_3_3_REV then 8
  else if type = GL_UNSIGNED_SHORT_4_4_4_4 ∨ type = GL_UNSIGNED_SHORT_4_4_4_4_REV
      ∨ type = GL_UNSIGNED_SHORT_5_5_5_1 ∨ type = GL_UNSIGNED_SHORT_1_5_5_5_REV
      ∨ type = GL_UNSIGNED_SHORT_5_6_5 ∨ type = GL_UNSIGNED_SHORT_5_6_5_REV
      ∨ type = GL_UNSIGNED_SHORT_8_8_MESA ∨ type = GL_UNSIGNED_SHORT_8_8_REV_MESA then 16
  else if type = GL_UNSIGNED_INT_8_8_8_8 ∨ type = GL_UNSIGNED_INT_8_8_8_8_REV
      ∨ type = GL_UNSIGNED_INT_10_10_10_2 ∨ type = GL_UNSIGNED_INT_2_10_10_10_REV
      ∨ type = GL_UNSIGNED_INT_24_8 ∨ type = GL_UNSIGNED_INT_10F_11F_11F_REV
      ∨ type = GL_UNSIGNED_INT_5_9_9_9_REV ∨ type = GL_UNSIGNED_INT_S8_S8_8_8_NV
      ∨ type = GL_UNSIGNED_INT_8_8_S8_S8_REV_NV then 32
  else if type = GL_FLOAT_32_UNSIGNED_INT_24_8_REV then 64
  else 0

/-- Row stride of `__gl_image_size` (lines 657-667): the effective row length times the
    bits per pixel, in bytes and rounded up (`unsigned` arithmetic), then aligned when the
    three-part test of lines 663-665 holds. -/
def row_stride (bpp : Nat) (alignment row_length : Int) : Nat :=
  let row_stride := ((toUnsigned row_length * bpp + 7) % 2 ^ 32) / 8
  if (bpp : Int) < wrapInt (alignment * 8) ∧ bpp &&& 7 = 0 ∧ _is_pot bpp = true then
    _align row_stride alignment
  else row_stride

/-- Byte size of a packed image, `__gl_image_size` (lines 584-685). `st` is the unpack
    state of the context: `GL_UNPACK_ALIGNMENT` is always read, the five sub-image
    parameters only when `has_unpack_subimage` is set (they keep their initial `0`
    otherwise). -/
def __gl_image_size (st : UnpackState) (format type : Nat) (width height depth : Int)
    (has_unpack_subimage : Bool) : Nat :=
  let bits_per_pixel := bits_per_pixel format type
  let alignment := st.alignment
  let row_length := if has_unpack_subimage then st.row_length else 0
  let image_height := if has_unpack_subimage then st.image_height else 0
  let skip_rows := if has_unpack_subimage then st.skip_rows else 0
  let skip_pixels := if has_unpack_subimage then st.skip_pixels else 0
  let skip_images := if has_unpack_subimage then st.skip_images else 0
  let row_length := if row_length ≤ 0 then width else row_length
  let row_stride := row_stride bits_per_pixel alignment row_length
  let image_height := if image_height ≤ 0 then height else image_height
  let image_stride := (toSizeT image_height * row_stride) % 2 ^ 64
  let size := (toSizeT depth * image_stride) % 2 ^ 64
  let size := (size + ((toUnsigned skip_pixels * bits_per_pixel + 7) % 2 ^ 32) / 8) % 2 ^ 64
  let size := (size + (toSizeT skip_rows * row_stride) % 2 ^ 64) % 2 ^ 64
  let size := (size + (toSizeT skip_images * image_stride) % 2 ^ 64) % 2 ^ 64
  size

/-- The unpack state of a fresh context: alignment 4, no sub-image parameter set. -/
def defaultUnpack : UnpackState :=
  { alignment := 4, row_length := 0, image_height := 0, skip_rows := 0, skip_pixels := 0,
    skip_images := 0 }

/-! ### Packed-image sizing as the specification words it -/

/-- Bytes needed for `x` bits: `ceil(x / 8)`. -/
def ceilDiv8 (x : Int) : Int := (x + 7) / 8

/-- The next multiple of `a` at or above `x`. -/
def roundUpTo (x a : Int) : Int := ((x + a - 1) / a) * a

/-- A power of two. -/
def IsPowerOfTwo (n : Nat) : Prop := ∃ k, n = 2 ^ k

instance (n : Nat) : Decidable (IsPowerOfTwo n) :=
  decidable_of_iff (∃ k, k < n + 1 ∧ n = 2 ^ k)
    ⟨fun ⟨k, _, h⟩ => ⟨k, h⟩,
     fun ⟨k, h⟩ => ⟨k, h ▸ Nat.lt_succ_of_lt (Nat.lt_two_pow k), h⟩⟩

/-- Effective row length: `UNPACK_ROW_LENGTH` if the flag is set and it is positive, else
    the declared width. -/
def effRowLength (st : UnpackState) (width : Int) (flag : Bool) : Int :=
  if flag = true ∧ 0 < st.row_length then st.row_length else width

/-- Effective image height: `UNPACK_IMAGE_HEIGHT` if the flag is set and it is positive,
    else the declared height. -/
def effImageHeight (st : UnpackState) (height : Int) (flag : Bool) : Int :=
  if flag = true ∧ 0 < st.image_height then st.image_height else height

/-- Row stride as the specification words it: `ceil(L * bpp / 8)`, rounded up to the next
    multiple of the alignment exactly when `bpp` is a power of two, a multiple of 8 and
    strictly less than `8 * alignment`. -/
def specRowStride (bpp : Nat) (alignment L : Int) : Int :=
  if IsPowerOfTwo bpp ∧ 8 ∣ bpp ∧ (bpp : Int) < 8 * alignment then
    roundUpTo (ceilDiv8 (L * bpp)) alignment
  else ceilDiv8 (L * bpp)

/-- Total size as the specification words it, from the skip counts handed in:
    `depth*H*S + skipImages*H*S + skipRows*S + ceil(skipPixels*bpp/8)`. -/
def specTotal (st : UnpackState) (format type : Nat) (width height depth : Int)
    (flag : Bool) (skipImages skipRows skipPixels : Int) : Int :=
  let bpp := bits_per_pixel format type
  let H := effImageHeight st height flag
  let S := specRowStride bpp st.alignment (effRowLength st width flag)
  depth * H * S + skipImages * H * S + skipRows * S + ceilDiv8 (skipPixels * bpp)

/-- The formula with the skip counts in effect: those of the unpack state when the flag is
    set, zero otherwise. -/
def specImageSize (st : UnpackState) (format type : Nat) (width height depth : Int)
    (flag : Bool) : Int :=
  specTotal st format type width height depth flag
    (if flag then st.skip_images else 0) (if flag then st.skip_rows else 0)
    (if flag then st.skip_pixels else 0)

/-- No intermediate value of `__gl_image_size` overflows: the two bit counts fit
    `unsigned` and the total fits `size_t`. -/
def NoOverflow (st : UnpackState) (format type : Nat) (width height depth : Int)
    (flag : Bool) : Prop :=
  effRowLength st width flag * bits_per_pixel format type + 7 < 2 ^ 32 ∧
  (if flag then st.skip_pixels else 0) * bits_per_pixel format type + 7 < 2 ^ 32 ∧
  specImageSize st format type width height depth flag < 2 ^ 64

instance (st : UnpackState) (format type : Nat) (width height depth : Int) (flag : Bool) :
    Decidable (NoOverflow st format type width height depth flag) := by
  unfold NoOverflow; infer_instance

/-- An unpack state with a row length of 5 pixels, one skipped row, two skipped pixels. -/
def subImageUnpack : UnpackState :=
  { alignment := 4, row_length := 5, image_height := 0, skip_rows := 1, skip_pixels := 2,
    skip_images := 0 }

example : __gl_image_size defaultUnpack GL_RGBA GL_UNSIGNED_BYTE 3 2 1 false = 24 := by decide
example : __gl_image_size defaultUnpack GL_RGB GL_UNSIGNED_BYTE 3 2 1 false = 18 := by decide
example : row_stride 32 4 3 = 12 := by decide
example : row_stride 24 4 3 = 9 := by decide
example : row_stride 16 4 3 = 8 := by decide
example : _align 9 4 = 12 := by decide
example : specImageSize defaultUnpack GL_RGBA GL_UNSIGNED_BYTE 3 2 1 false = 24 := by decide
example : NoOverflow defaultUnpack GL_RGBA GL_UNSIGNED_BYTE 3 2 1 false := by decide

/-! ## `glsize.hpp`: indexed-draw max-index scan -/

/-- What the context and the C runtime answer during one call of
    `__glDrawElementsBaseVertex_maxindex`. -/
structure IndexEnv where
  /-- Value of `GL_ELEMENT_ARRAY_BUFFER_BINDING`. -/
  element_array_buffer : Int
  /-- Bytes of the data store of the bound element-array buffer. -/
  buffer : List Nat
  /-- Client memory, byte by byte. -/
  memory : Nat → Nat
  /-- Pointer `malloc` returns for a size, `0` when it fails. -/
  malloc : Nat → Nat

/-- Result of one call: the value returned, the pointer obtained from `malloc` (if any)
    and the argument handed to `free` (if it was called). -/
structure ScanResult where
  ret : Nat
  allocated : Option Nat
  freed : Option Nat
deriving DecidableEq, Repr

/-- The `w` bytes from offset `a` on, read as a little-endian number (the byte order of
    the targets of the tracer). -/
def readBytesLE (bytes : Nat → Nat) : Nat → Nat → Nat
  | 0, _ => 0
  | w + 1, a => bytes a % 256 + 256 * readBytesLE bytes w (a + 1)

/-- Element `p[i]` of an array `p` of `w`-byte unsigned integers that starts at offset 0 of
    `bytes`. -/
def readLE (bytes : Nat → Nat) (w i : Nat) : Nat := readBytesLE bytes w (i * w)

/-- The three scanning loops of lines 344-348, 351-355 and 358-362:
    `for (i = 0; i < count; ++i) if (p[i] > maxindex) maxindex = p[i];` from
    `maxindex = 0`. -/
def scanMax (p : Nat → Nat) (count : Int) : Nat :=
  (List.range count.toNat).foldl (fun maxindex i => if p i > maxindex then p i else maxindex) 0

/-- Lines 340-365: the scan selected by the index type; an unknown type scans nothing
    and leaves `maxindex = 0` (the diagnostic left aside). -/
def scanIndices (type : Nat) (bytes : Nat → Nat) (count : Int) : Nat :=
  if type = GL_UNSIGNED_BYTE then scanMax (readLE bytes 1) count
  else if type = GL_UNSIGNED_SHORT then scanMax (readLE bytes 2) count
  else if type = GL_UNSIGNED_INT then scanMax (readLE bytes 4) count
  else 0

/-- Max-index of an indexed draw, `__glDrawElementsBaseVertex_maxindex` (lines 312-374).
    `indices` is the pointer argument (an offset into the buffer when one is bound).
    The `temp` declared at line 327 shadows the one of line 315, which stays `0` and is
    the one line 368 frees. `__glGetBufferSubData` copies `size` bytes from `offset` when
    the range lies within the buffer and leaves the zeroed `temp` as it is otherwise. -/
def __glDrawElementsBaseVertex_maxindex (env : IndexEnv) (count : Int) (type : Nat)
    (indices : Nat) (basevertex : Int) : ScanResult :=
  let temp : Nat := 0
  if count = 0 then { ret := 0, allocated := none, freed := none }
  else if env.element_array_buffer ≠ 0 then
    let offset := indices
    let size := (toSizeT count * __gl_type_size type) % 2 ^ 64
    let temp1 := env.malloc size
    if temp1 = 0 then { ret := 0, allocated := none, freed := none }
    else
      let data : Nat → Nat := fun j =>
        if offset + size ≤ env.buffer.length then env.buffer.getD (offset + j) 0 else 0
      let maxindex := scanIndices type data count
      { ret := (maxindex + toUnsigned basevertex) % 2 ^ 32, allocated := some temp1,
        freed := some temp }
  else if indices = 0 then { ret := 0, allocated := none, freed := none }
  else
    let maxindex := scanIndices type (fun j => env.memory (indices + j)) count
    { ret := (maxindex + toUnsigned basevertex) % 2 ^ 32, allocated := none, freed := none }

/-! ### The index scan as the specification words it -/

/-- The bytes the indices are read from: the bound buffer from the given offset on when a
    buffer is bound, client memory from the pointer on otherwise. -/
def indexBytes (env : IndexEnv) (indices : Nat) : Nat → Nat :=
  if env.element_array_buffer ≠ 0 then fun j => env.buffer.getD (indices + j) 0
  else fun j => env.memory (indices + j)

/-- The sequence of the `count` indices of the draw call. -/
def indexSeq (env : IndexEnv) (count : Int) (type indices : Nat) : List Nat :=
  (List.range count.toNat).map (readLE (indexBytes env indices) (__gl_type_size type))

/-- The indices can be read: with a buffer bound, the read-back buffer is allocated and
    the `count` indices lie within the data store; without one the pointer is not null. -/
def Readable (env : IndexEnv) (count : Int) (type indices : Nat) : Prop :=
  if env.element_array_buffer ≠ 0 then
    env.malloc (count.toNat * __gl_type_size type) ≠ 0 ∧
      indices + count.toNat * __gl_type_size type ≤ env.buffer.length
  else indices ≠ 0

instance (env : IndexEnv) (count : Int) (type indices : Nat) :
    Decidable (Readable env count type indices) := by
  unfold Readable; infer_instance

/-- Client memory holding the bytes `3 1 4 1 5 9 2 6` at address 64, no buffer bound. -/
def clientEnv : IndexEnv :=
  { element_array_buffer := 0, buffer := [],
    memory := fun a => [3, 1, 4, 1, 5, 9, 2, 6].getD (a - 64) 0,
    malloc := fun _ => 128 }

/-- A bound element-array buffer holding the bytes `3 1 4 1 5 9 2 6`. -/
def bufferEnv : IndexEnv :=
  { element_array_buffer := 1, buffer := [3, 1, 4, 1, 5, 9, 2, 6],
    memory := fun _ => 0, malloc := fun _ => 128 }

set_option maxRecDepth 100000 in
example : (__glDrawElementsBaseVertex_maxindex clientEnv 8 GL_UNSIGNED_BYTE 64 0).ret = 9 := by
  decide
set_option maxRecDepth 100000 in
example : (__glDrawElementsBaseVertex_maxindex bufferEnv 8 GL_UNSIGNED_BYTE 0 10).ret = 19 := by
  decide
example : (__glDrawElementsBaseVertex_maxindex bufferEnv 4 GL_UNSIGNED_SHORT 0 (-1)).ret
    = 9 * 256 + 5 - 1 := by
  rfl
example : indexSeq bufferEnv 4 GL_UNSIGNED_SHORT 0 = [259, 260, 2309, 1538] := by rfl

/-! ## `glretrace_egl.cpp`: object identity maps -/

/-- A `std::map<unsigned long long, T *>` (`DrawableMap`, `ContextMap`, lines 46-47): its
    entries (recorded handle, live pointer), every key at most once. -/
abbrev PtrMap := List (Nat × Nat)

/-- Lookup `m.find(k)`: the pointer stored under `k`, `none` for `m.end()`. -/
def mapFind : PtrMap → Nat → Option Nat
  | [], _ => none
  | (k1, v1) :: m, k => if k1 = k then some v1 else mapFind m k

/-- Assignment `m[k] = v`: overwrites the entry of `k` or inserts one. -/
def mapSet : PtrMap → Nat → Nat → PtrMap
  | [], k, v => [(k, v)]
  | (k1, v1) :: m, k, v => if k1 = k then (k, v) :: m else (k1, v1) :: mapSet m k v

/-- Removal `m.erase(m.find(k))` of the entry of `k`. -/
def mapErase : PtrMap → Nat → PtrMap
  | [], _ => []
  | (k1, v1) :: m, k => if k1 = k then m else (k1, v1) :: mapErase m k

/-- Every key occurs once, as in any `std::map`. -/
def MapWF (m : PtrMap) : Prop := (m.map Prod.fst).Nodup

instance (m : PtrMap) : Decidable (MapWF m) := by unfold MapWF; infer_instance

/-- The pointer `p` is the value of some entry of the map. -/
def InMap (m : PtrMap) (p : Nat) : Prop := ∃ k, mapFind m k = some p

/-! ## `glretrace_egl.cpp`: replay state and handlers -/

/-- The globals the handlers read and write: the two maps and `current_api` of this file,
    and `drawable`, `context`, `double_buffer` of namespace `glretrace`; with them the part
    of the free store the handlers act on, `live_drawables`: the `glws::Drawable` objects
    that `glws::createDrawable` has returned (line 80) and no `delete` (line 91) has freed.
    A pointer to any other address is null or dangling. -/
structure State where
  drawable_map : PtrMap
  context_map : PtrMap
  current_api : Nat
  drawable : Nat
  context : Nat
  double_buffer : Bool
  live_drawables : List Nat
deriving DecidableEq, Repr

/-- The free store after `delete p`: no object lives at address `p` any more. -/
def heapDelete (heap : List Nat) (p : Nat) : List Nat :=
  heap.filter (fun q => decide (q ≠ p))

/-- Modelled from the spec: the initial values of `glretrace::drawable` and
    `glretrace::context`, whose definitions are not among the sources ("all initially
    null/unset"); `double_buffer` is a setting of the run. The maps start empty and
    `current_api` is `EGL_OPENGL_ES_API` (line 51); no drawable has been created. -/
def initial (double_buffer : Bool) : State :=
  { drawable_map := [], context_map := [], current_api := EGL_OPENGL_ES_API,
    drawable := 0, context := 0, double_buffer := double_buffer, live_drawables := [] }

/-- The recorded calls the table `egl_callbacks` (lines 163-198) has a handler for, with
    the arguments and return value the handlers read; `ignored` stands for the entries
    bound to `retrace::ignore`. -/
inductive Call where
  | eglCreateWindowSurface (ret : Nat)
  | eglDestroySurface (surface : Nat)
  | eglBindAPI (api : Nat)
  | eglCreateContext (share_context ret : Nat)
  | eglDestroyContext (ctx : Nat)
  | eglMakeCurrent (draw ctx : Nat)
  | eglSwapBuffers
  | ignored
deriving DecidableEq, Repr

/-- What the windowing collaborator answers while one call is processed: the pointer
    `glws::createDrawable` / `glws::createContext` returns and the result of
    `glws::makeCurrent`. -/
structure Reply where
  ptr : Nat
  result : Bool
deriving DecidableEq, Repr

/-- The actions a handler performs on its collaborators, in order. -/
inductive Effect where
  | createDrawable (result : Nat)
  | createContext (share_context result : Nat)
  | deleteDrawable (p : Nat)
  | deleteContext (p : Nat)
  | glFlush
  | frame_complete
  | makeCurrent (drawable context : Nat)
  | swapBuffers (drawable : Nat)
  | warning
  | abort
deriving DecidableEq, Repr

/-- How the processing of a call ends: normally, in `os::abort()`, or in the dereference
    of a null pointer. -/
inductive Outcome where
  | ok
  | aborted
  | fault
deriving DecidableEq, Repr

/-- Result of processing a call: the state left, the actions performed, the outcome. -/
structure Step where
  state : State
  effects : List Effect
  outcome : Outcome
deriving DecidableEq, Repr

/-- Lookup `getDrawable` (lines 53-63). -/
def getDrawable (s : State) (surface_ptr : Nat) : Nat :=
  if surface_ptr = 0 then 0
  else
    match mapFind s.drawable_map surface_ptr with
    | some p => p
    | none => 0

/-- Lookup `getContext` (lines 65-75). -/
def getContext (s : State) (context_ptr : Nat) : Nat :=
  if context_ptr = 0 then 0
  else
    match mapFind s.context_map context_ptr with
    | some p => p
    | none => 0

/-- Handler `retrace_eglCreateWindowSurface` (lines 77-82). -/
def retrace_eglCreateWindowSurface (s : State) (orig_surface : Nat) (w : Reply) : Step :=
  let drawable := w.ptr
  { state := { s with drawable_map := mapSet s.drawable_map orig_surface drawable,
                      live_drawables := drawable :: s.live_drawables },
    effects := [Effect.createDrawable drawable], outcome := Outcome.ok }

/-- Handler `retrace_eglDestroySurface` (lines 84-94). -/
def retrace_eglDestroySurface (s : State) (orig_surface : Nat) : Step :=
  match mapFind s.drawable_map orig_surface with
  | some p =>
    { state := { s with drawable_map := mapErase s.drawable_map orig_surface,
                        live_drawables := heapDelete s.live_drawables p },
      effects := [Effect.deleteDrawable p], outcome := Outcome.ok }
  | none => { state := s, effects := [], outcome := Outcome.ok }

/-- Handler `retrace_eglBindAPI` (lines 96-98). -/
def retrace_eglBindAPI (s : State) (api : Nat) : Step :=
  { state := { s with current_api := api }, effects := [], outcome := Outcome.ok }

/-- Handler `retrace_eglCreateContext` (lines 100-112). -/
def retrace_eglCreateContext (s : State) (share orig_context : Nat) (w : Reply) : Step :=
  if s.current_api ≠ EGL_OPENGL_API then
    { state := s, effects := [Effect.warning, Effect.abort], outcome := Outcome.aborted }
  else
    let share_context := getContext s share
    let context := w.ptr
    { state := { s with context_map := mapSet s.context_map orig_context context },
      effects := [Effect.createContext share_context context], outcome := Outcome.ok }

/-- Handler `retrace_eglDestroyContext` (lines 114-124). -/
def retrace_eglDestroyContext (s : State) (orig_context : Nat) : Step :=
  match mapFind s.context_map orig_context with
  | some p =>
    { state := { s with context_map := mapErase s.context_map orig_context },
      effects := [Effect.deleteContext p], outcome := Outcome.ok }
  | none => { state := s, effects := [], outcome := Outcome.ok }

/-- Handler `retrace_eglMakeCurrent` (lines 126-150). -/
def retrace_eglMakeCurrent (s : State) (draw ctx : Nat) (w : Reply) : Step :=
  let new_drawable := getDrawable s draw
  let new_context := getContext s ctx
  if new_drawable = s.drawable ∧ new_context = s.context then
    { state := s, effects := [], outcome := Outcome.ok }
  else
    let before :=
      if s.drawable ≠ 0 ∧ s.context ≠ 0 then
        Effect.glFlush :: (if ¬ s.double_buffer then [Effect.frame_complete] else [])
      else []
    let result := w.result
    if new_drawable ≠ 0 ∧ new_context ≠ 0 ∧ result = true then
      { state := { s with drawable := new_drawable, context := new_context },
        effects := before ++ [Effect.makeCurrent new_drawable new_context],
        outcome := Outcome.ok }
    else
      { state := { s with drawable := 0, context := 0 },
        effects := before ++ [Effect.makeCurrent new_drawable new_context],
        outcome := Outcome.ok }

/-- Handler `retrace_eglSwapBuffers` (lines 153-161). The call `drawable->swapBuffers()`
    is recorded with the pointer it is made through; made through a null pointer, or
    through a pointer at which no drawable lives (the object was deleted, line 91), it is
    the faulting step. -/
def retrace_eglSwapBuffers (s : State) : Step :=
  if s.double_buffer then
    { state := s, effects := [Effect.frame_complete, Effect.swapBuffers s.drawable],
      outcome := if s.drawable = 0 ∨ s.drawable ∉ s.live_drawables then Outcome.fault
        else Outcome.ok }
  else
    { state := s, effects := [Effect.frame_complete, Effect.glFlush], outcome := Outcome.ok }

/-- Dispatch of one recorded call through `egl_callbacks`. -/
def retrace (s : State) (c : Call) (w : Reply) : Step :=
  match c with
  | Call.eglCreateWindowSurface ret => retrace_eglCreateWindowSurface s ret w
  | Call.eglDestroySurface surface => retrace_eglDestroySurface s surface
  | Call.eglBindAPI api => retrace_eglBindAPI s api
  | Call.eglCreateContext share ret => retrace_eglCreateContext s share ret w
  | Call.eglDestroyContext ctx => retrace_eglDestroyContext s ctx
  | Call.eglMakeCurrent draw ctx => retrace_eglMakeCurrent s draw ctx w
  | Call.eglSwapBuffers => retrace_eglSwapBuffers s
  | Call.ignored => { state := s, effects := [], outcome := Outcome.ok }

/-- Replay of a sequence of recorded calls, one at a time in trace order; the process
    ends with the first call that does not end normally. -/
def replay (s : State) : List (Call × Reply) → Step
  | [] => { state := s, effects := [], outcome := Outcome.ok }
  | (c, w) :: rest =>
    let r := retrace s c w
    if r.outcome = Outcome.ok then
      let r1 := replay r.state rest
      { state := r1.state, effects := r.effects ++ r1.effects, outcome := r1.outcome }
    else r

/-! ### Replay properties as the specification words them -/

/-- The current drawable, if non-null, is the value of some entry of the drawable map, and
    the current context, if non-null, the value of some entry of the context map. -/
def BindingInv (s : State) : Prop :=
  (s.drawable ≠ 0 → InMap s.drawable_map s.drawable) ∧
  (s.context ≠ 0 → InMap s.context_map s.context)

/-- The call, processed in state `s`, destroys or re-binds the handle whose map entry
    holds the current drawable (for a surface call) or the current context (for a context
    call). -/
def Retires (s : State) : Call → Prop
  | Call.eglDestroySurface h => s.drawable ≠ 0 ∧ mapFind s.drawable_map h = some s.drawable
  | Call.eglCreateWindowSurface h =>
    s.drawable ≠ 0 ∧ mapFind s.drawable_map h = some s.drawable
  | Call.eglDestroyContext h => s.context ≠ 0 ∧ mapFind s.context_map h = some s.context
  | Call.eglCreateContext _ h => s.context ≠ 0 ∧ mapFind s.context_map h = some s.context
  | _ => False

instance (s : State) (c : Call) : Decidable (Retires s c) := by
  cases c <;> unfold Retires <;> infer_instance

/-- No call of the sequence, processed in turn from `s`, retires the handle of a current
    resource. -/
def KeepsCurrent : State → List (Call × Reply) → Prop
  | _, [] => True
  | s, (c, w) :: rest => ¬ Retires s c ∧ KeepsCurrent (retrace s c w).state rest

instance decKeepsCurrent : (s : State) → (calls : List (Call × Reply)) →
    Decidable (KeepsCurrent s calls)
  | _, [] => isTrue trivial
  | s, (c, w) :: rest =>
    have := decKeepsCurrent (retrace s c w).state rest
    by unfold KeepsCurrent; infer_instance

/-- Token of the most recent Bind API call of the sequence, `dflt` when it has none. -/
def lastBindAPI : List (Call × Reply) → Nat → Nat
  | [], dflt => dflt
  | (Call.eglBindAPI api, _) :: rest, _ => lastBindAPI rest api
  | _ :: rest, dflt => lastBindAPI rest dflt

/-- A reply for calls that ask the windowing collaborator nothing. -/
def noReply : Reply := { ptr := 0, result := false }

/-- A replay that binds the desktop-GL API, creates surface 1 (live pointer 100) and
    context 2 (live pointer 200) and makes them current. -/
def setupCalls : List (Call × Reply) :=
  [(Call.eglBindAPI EGL_OPENGL_API, noReply),
   (Call.eglCreateWindowSurface 1, { ptr := 100, result := false }),
   (Call.eglCreateContext 0 2, { ptr := 200, result := false }),
   (Call.eglMakeCurrent 1 2, { ptr := 0, result := true })]

/-- The state `setupCalls` leads to, on a double-buffered or single-buffered surface. -/
def boundState (double_buffer : Bool) : State :=
  { drawable_map := [(1, 100)], context_map := [(2, 200)], current_api := EGL_OPENGL_API,
    drawable := 100, context := 200, double_buffer := double_buffer,
    live_drawables := [100] }

example : (replay (initial true) setupCalls).state = boundState true := by decide
example : (replay (initial true) setupCalls).effects
    = [Effect.createDrawable 100, Effect.createContext 0 200, Effect.makeCurrent 100 200] := by
  decide
example : (replay (initial true) (setupCalls ++ [(Call.eglDestroySurface 1, noReply)])).state
    = { boundState true with drawable_map := [], live_drawables := [] } := by decide
example : (replay (initial true) (setupCalls ++ [(Call.eglDestroySurface 1, noReply),
    (Call.eglSwapBuffers, noReply)])).outcome = Outcome.fault := by decide
example : (replay (initial true) (setupCalls ++ [(Call.eglSwapBuffers, noReply)])).outcome
    = Outcome.ok := by decide
example : KeepsCurrent (initial true) (setupCalls ++ [(Call.eglDestroySurface 7, noReply)]) := by
  decide
example : ¬ KeepsCurrent (initial true) (setupCalls ++ [(Call.eglDestroySurface 1, noReply)]) := by
  decide

/-- The state after surface 1 (live pointer 100) and context 2 (live pointer 200) were
    created under the desktop-GL API and a make-current of them failed: nothing current. -/
def unboundState (double_buffer : Bool) : State :=
  { drawable_map := [(1, 100)], context_map := [(2, 200)], current_api := EGL_OPENGL_API,
    drawable := 0, context := 0, double_buffer := double_buffer, live_drawables := [100] }

example : (replay (initial false) (setupCalls.take 3
    ++ [(Call.eglMakeCurrent 1 2, { ptr := 0, result := false })])).state
    = unboundState false := by decide

/-! ## `glsize.hpp`: strided arrays and draw-call max-index -/

/-- Byte size of a vertex-array argument, `__glArrayPointer_size` (lines 279-287).
    `size * __gl_type_size(type)` is a `size_t` product; `(GLsizei)elementSize` truncates
    it to 32 bits; `stride*maxIndex` is a `GLsizei` product, converted to `size_t` for the
    final sum. -/
def __glArrayPointer_size (size : Int) (type : Nat) (stride maxIndex : Int) : Nat :=
  let elementSize : Nat := (toSizeT size * __gl_type_size type) % 2 ^ 64
  let stride : Int := if stride = 0 then wrapInt (elementSize : Int) else stride
  (toSizeT (wrapInt (stride * maxIndex)) + elementSize) % 2 ^ 64

/-- Max-index of a non-indexed draw, `__glDrawArrays_maxindex` (lines 301-308): the
    `GLint` value `first + count - 1` returned as a `GLuint`. -/
def __glDrawArrays_maxindex (first count : Int) : Nat :=
  if count = 0 then 0
  else toUnsigned (wrapInt (wrapInt (first + count) - 1))

/-- The value `std::max(a, b)` returns: `(a < b) ? b : a`. -/
def stdMax (a b : Nat) : Nat := if a < b then b else a

/-- The loop shared by the three multi-draw resolvers (lines 412-417, 422-427, 432-437):
    `maxindex = std::max(maxindex, maxindex_prim)` for `prim` from 0 below `primcount`,
    starting from 0. -/
def multiMax (maxindex_prim : Nat → Nat) (primcount : Int) : Nat :=
  (List.range primcount.toNat).foldl (fun maxindex prim => stdMax maxindex (maxindex_prim prim)) 0

/-- Batched non-indexed draw, `__glMultiDrawArrays_maxindex` (lines 410-418); `first` and
    `count` are the two arrays. -/
def __glMultiDrawArrays_maxindex (first count : Nat → Int) (primcount : Int) : Nat :=
  multiMax (fun prim => __glDrawArrays_maxindex (first prim) (count prim)) primcount

/-- Batched indexed draw, `__glMultiDrawElements_maxindex` (lines 420-428); each primitive
    goes through `__glDrawElements_maxindex`, that is the base-vertex resolver with
    `basevertex = 0` (line 378). -/
def __glMultiDrawElements_maxindex (env : IndexEnv) (count : Nat → Int) (type : Nat)
    (indices : Nat → Nat) (primcount : Int) : Nat :=
  multiMax (fun prim =>
    (__glDrawElementsBaseVertex_maxindex env (count prim) type (indices prim) 0).ret) primcount

/-- Batched indexed draw with base vertices, `__glMultiDrawElementsBaseVertex_maxindex`
    (lines 430-438). -/
def __glMultiDrawElementsBaseVertex_maxindex (env : IndexEnv) (count : Nat → Int)
    (type : Nat) (indices : Nat → Nat) (primcount : Int) (basevertex : Nat → Int) : Nat :=
  multiMax (fun prim =>
    (__glDrawElementsBaseVertex_maxindex env (count prim) type (indices prim)
      (basevertex prim)).ret) primcount

example : __glArrayPointer_size 3 GL_FLOAT 0 9 = 120 := by decide
example : __glArrayPointer_size 3 GL_FLOAT 12 9 = 120 := by decide
example : __glArrayPointer_size 3 GL_FLOAT 16 9 = 156 := by decide
example : __glArrayPointer_size 1 GL_UNSIGNED_BYTE 65536 65536 = 1 := by decide
example : __glDrawArrays_maxindex 5 3 = 7 := by decide
example : __glDrawArrays_maxindex 5 0 = 0 := by decide
example : __glDrawArrays_maxindex (-5) 2 = 2 ^ 32 - 4 := by decide
example : __glMultiDrawArrays_maxindex (fun i => [0, 10, 4].getD i 0) (fun i => [3, 0, 5].getD i 0) 3
    = 8 := by decide

/-! ### Strided-array sizing as the specification words it -/

/-- The size `s*maxIndex + e` with `e = size * elementByteWidth(type)` and `s = stride` if
    `stride` is non-zero, else `e`, over the integers. -/
def specArrayPointerSize (size : Int) (type : Nat) (stride maxIndex : Int) : Int :=
  let e := size * (__gl_type_size type : Int)
  let s := if stride = 0 then e else stride
  s * maxIndex + e

/-- A value a `GLint` / `GLsizei` can hold. -/
def FitsInt (x : Int) : Prop := -2 ^ 31 ≤ x ∧ x < 2 ^ 31

instance (x : Int) : Decidable (FitsInt x) := by unfold FitsInt; infer_instance

/-! ## `glsize.hpp`: attribute lists -/

/-- Outcome of the scan of an attribute list: the size returned, `none` when the loop
    reads past the end of the array (where the code has no defined result), and the
    indices of the elements read, in order. -/
structure AttribScan where
  size : Option Nat
  reads : List Nat
deriving DecidableEq, Repr

/-- The loop `do { ++size; } while (*pAttribList++);` of lines 756-758; the first
    argument is what the array holds from the element about to be read on, the second the
    index of that element (the value of `size` before `++size`). -/
def attribLoop : List Int → Nat → AttribScan
  | [], i => { size := none, reads := [i] }
  | v :: rest, i =>
    if v ≠ 0 then
      let r := attribLoop rest (i + 1)
      { size := r.size, reads := i :: r.reads }
    else { size := some (i + 1), reads := [i] }

/-- Size of a 0-terminated attribute list, `__AttribList_size(const T *)` (lines 746-762);
    `none` is the null pointer. -/
def __AttribList_size (pAttribList : Option (List Int)) : AttribScan :=
  match pAttribList with
  | none => { size := some 0, reads := [] }
  | some l => attribLoop l 0

/-- The loop `while (pAttribList[size] != terminator) size += 2;` followed by `size++`
    (lines 775-778); the first list is what the array holds from index `size` on. -/
def attribPairLoop (terminator : Int) : List Int → Nat → AttribScan
  | [], size => { size := none, reads := [size] }
  | [v], size =>
    if v ≠ terminator then { size := none, reads := [size, size + 2] }
    else { size := some (size + 1), reads := [size] }
  | v :: _ :: rest, size =>
    if v ≠ terminator then
      let r := attribPairLoop terminator rest (size + 2)
      { size := r.size, reads := size :: r.reads }
    else { size := some (size + 1), reads := [size] }

/-- Size of a (key, value) attribute list ended by `terminator`, the overload
    `__AttribList_size(const T *, T)` (lines 765-782); `none` is the null pointer. -/
def __AttribList_size2 (pAttribList : Option (List Int)) (terminator : Int) : AttribScan :=
  match pAttribList with
  | none => { size := some 0, reads := [] }
  | some l => attribPairLoop terminator l 0

example : __AttribList_size (some [4, 7, 0, 9]) = { size := some 3, reads := [0, 1, 2] } := by
  decide
example : __AttribList_size2 (some [4, 0, 6, 1, 0, 5]) 0
    = { size := some 5, reads := [0, 2, 4] } := by decide
example : __AttribList_size2 (some [4, 0, 6, 0]) 0
    = { size := none, reads := [0, 2, 4] } := by decide
example : __AttribList_size2 none 0 = { size := some 0, reads := [] } := by decide

/-! ## `glsize.hpp`: evaluator maps -/

/-- Modelled from the spec: the numeric values of the evaluator-map targets (this one and
    the seventeen below), which `glimports.hpp` (not among the sources) supplies; the code
    names them, their values are the ones of the OpenGL registry headers. -/
def GL_MAP1_COLOR_4 : Nat := 0x0D90
def GL_MAP1_INDEX : Nat := 0x0D91
def GL_MAP1_NORMAL : Nat := 0x0D92
def GL_MAP1_TEXTURE_COORD_1 : Nat := 0x0D93
def GL_MAP1_TEXTURE_COORD_2 : Nat := 0x0D94
def GL_MAP1_TEXTURE_COORD_3 : Nat := 0x0D95
def GL_MAP1_TEXTURE_COORD_4 : Nat := 0x0D96
def GL_MAP1_VERTEX_3 : Nat := 0x0D97
def GL_MAP1_VERTEX_4 : Nat := 0x0D98
def GL_MAP2_COLOR_4 : Nat := 0x0DB0
def GL_MAP2_INDEX : Nat := 0x0DB1
def GL_MAP2_NORMAL : Nat := 0x0DB2
def GL_MAP2_TEXTURE_COORD_1 : Nat := 0x0DB3
def GL_MAP2_TEXTURE_COORD_2 : Nat := 0x0DB4
def GL_MAP2_TEXTURE_COORD_3 : Nat := 0x0DB5
def GL_MAP2_TEXTURE_COORD_4 : Nat := 0x0DB6
def GL_MAP2_VERTEX_3 : Nat := 0x0DB7
def GL_MAP2_VERTEX_4 : Nat := 0x0DB8

/-- The `switch (target)` of `__glMap1d_size` (lines 461-482): the channel count, `none`
    for the default branch (which logs and returns 0). -/
def map1Channels (target : Nat) : Option Int :=
  if target = GL_MAP1_INDEX ∨ target = GL_MAP1_TEXTURE_COORD_1 then some 1
  else if target = GL_MAP1_TEXTURE_COORD_2 then some 2
  else if target = GL_MAP1_NORMAL ∨ target = GL_MAP1_TEXTURE_COORD_3
      ∨ target = GL_MAP1_VERTEX_3 then some 3
  else if target = GL_MAP1_COLOR_4 ∨ target = GL_MAP1_TEXTURE_COORD_4
      ∨ target = GL_MAP1_VERTEX_4 then some 4
  else none

/-- Size of a 1-D evaluator map, `__glMap1d_size` (lines 453-489); the sum is computed
    as `GLint` and returned as `size_t`. -/
def __glMap1d_size (target : Nat) (stride order : Int) : Nat :=
  if order < 1 then 0
  else
    match map1Channels target with
    | none => 0
    | some channels =>
      if stride < channels then 0
      else toSizeT (wrapInt (channels + wrapInt (stride * wrapInt (order - 1))))

/-- The `switch (target)` of `__glMap2d_size` (lines 501-522). -/
def map2Channels (target : Nat) : Option Int :=
  if target = GL_MAP2_INDEX ∨ target = GL_MAP2_TEXTURE_COORD_1 then some 1
  else if target = GL_MAP2_TEXTURE_COORD_2 then some 2
  else if target = GL_MAP2_NORMAL ∨ target = GL_MAP2_TEXTURE_COORD_3
      ∨ target = GL_MAP2_VERTEX_3 then some 3
  else if target = GL_MAP2_COLOR_4 ∨ target = GL_MAP2_TEXTURE_COORD_4
      ∨ target = GL_MAP2_VERTEX_4 then some 4
  else none

/-- Size of a 2-D evaluator map, `__glMap2d_size` (lines 493-531). -/
def __glMap2d_size (target : Nat) (ustride uorder vstride vorder : Int) : Nat :=
  if uorder < 1 ∨ vorder < 1 then 0
  else
    match map2Channels target with
    | none => 0
    | some channels =>
      if ustride < channels ∨ vstride < channels then 0
      else toSizeT (wrapInt (wrapInt (channels + wrapInt (ustride * wrapInt (uorder - 1)))
        + wrapInt (vstride * wrapInt (vorder - 1))))

example : __glMap1d_size GL_MAP1_VERTEX_3 3 4 = 12 := by decide
example : __glMap1d_size GL_MAP1_VERTEX_3 2 4 = 0 := by decide
example : __glMap1d_size GL_MAP1_VERTEX_3 65536 65537 = 3 := by decide
example : __glMap2d_size GL_MAP2_VERTEX_4 4 3 12 2 = 24 := by decide

/-- The recognised 1-D map targets. -/
def map1Targets : List Nat :=
  [GL_MAP1_INDEX, GL_MAP1_TEXTURE_COORD_1, GL_MAP1_TEXTURE_COORD_2, GL_MAP1_NORMAL,
   GL_MAP1_TEXTURE_COORD_3, GL_MAP1_VERTEX_3, GL_MAP1_COLOR_4, GL_MAP1_TEXTURE_COORD_4,
   GL_MAP1_VERTEX_4]

/-- The recognised 2-D map targets. -/
def map2Targets : List Nat :=
  [GL_MAP2_INDEX, GL_MAP2_TEXTURE_COORD_1, GL_MAP2_TEXTURE_COORD_2, GL_MAP2_NORMAL,
   GL_MAP2_TEXTURE_COORD_3, GL_MAP2_VERTEX_3, GL_MAP2_COLOR_4, GL_MAP2_TEXTURE_COORD_4,
   GL_MAP2_VERTEX_4]

/-! ## `glsize.hpp`: diagnostics -/

/-- The functions that write a line through `os::log`. -/
inductive LogSite where
  | gl_type_size
  | gl_uniform_size
  | gl_format_channels
  | gl_image_size
deriving DecidableEq, Repr

/-- One line written through `os::log`: the function it names (`__FUNCTION__`) and the
    enum value it prints in hexadecimal. -/
structure Diagnostic where
  site : LogSite
  value : Nat
deriving DecidableEq, Repr

/-- The whole of `__gl_type_size` (lines 44-71): the value returned and the lines logged;
    the default branch logs one line and returns 0. -/
def __gl_type_size_log (type : Nat) : Nat × List Diagnostic :=
  if type = GL_BOOL ∨ type = GL_BYTE ∨ type = GL_UNSIGNED_BYTE then (1, [])
  else if type = GL_SHORT ∨ type = GL_UNSIGNED_SHORT ∨ type = GL_2_BYTES
      ∨ type = GL_HALF_FLOAT then (2, [])
  else if type = GL_3_BYTES then (3, [])
  else if type = GL_INT ∨ type = GL_UNSIGNED_INT ∨ type = GL_FLOAT ∨ type = GL_4_BYTES
      ∨ type = GL_FIXED then (4, [])
  else if type = GL_DOUBLE then (8, [])
  else (0, [{ site := LogSite.gl_type_size, value := type }])

/-- The scalar type constants `__gl_type_size` has a case for. -/
def scalarTypes : List Nat :=
  [GL_BOOL, GL_BYTE, GL_UNSIGNED_BYTE, GL_SHORT, GL_UNSIGNED_SHORT, GL_2_BYTES,
   GL_HALF_FLOAT, GL_3_BYTES, GL_INT, GL_UNSIGNED_INT, GL_FLOAT, GL_4_BYTES, GL_FIXED,
   GL_DOUBLE]

/-- The pixel format constants `__gl_format_channels` has a case for. -/
def pixelFormats : List Nat :=
  [GL_COLOR_INDEX, GL_RED, GL_GREEN, GL_BLUE, GL_ALPHA, GL_INTENSITY, GL_LUMINANCE,
   GL_DEPTH_COMPONENT, GL_STENCIL_INDEX, GL_DEPTH_STENCIL, GL_LUMINANCE_ALPHA, GL_RG,
   GL_HILO_NV, GL_DSDT_NV, GL_RGB, GL_BGR, GL_DSDT_MAG_NV, GL_RGBA, GL_BGRA, GL_ABGR_EXT,
   GL_CMYK_EXT, GL_DSDT_MAG_VIB_NV, GL_CMYKA_EXT]

example : scalarTypes.Nodup := by decide
example : pixelFormats.Nodup := by decide
example : __gl_type_size_log 0x1234 = (0, [{ site := LogSite.gl_type_size, value := 0x1234 }]) := by
  decide

/-- The component types of `__gl_image_size`: the bits per pixel are 8, 16 or 32 times the
    channel count of the format. -/
def componentTypes : List Nat :=
  [GL_BYTE, GL_UNSIGNED_BYTE, GL_SHORT, GL_UNSIGNED_SHORT, GL_HALF_FLOAT, GL_INT,
   GL_UNSIGNED_INT, GL_FLOAT]

/-- The bitmap type and the packed pixel types of `__gl_image_size`: the bits per pixel
    are a constant of the type. -/
def packedTypes : List Nat :=
  [GL_BITMAP, GL_UNSIGNED_BYTE_3_3_2, GL_UNSIGNED_BYTE_2_3_3_REV, GL_UNSIGNED_SHORT_4_4_4_4,
   GL_UNSIGNED_SHORT_4_4_4_4_REV, GL_UNSIGNED_SHORT_5_5_5_1, GL_UNSIGNED_SHORT_1_5_5_5_REV,
   GL_UNSIGNED_SHORT_5_6_5, GL_UNSIGNED_SHORT_5_6_5_REV, GL_UNSIGNED_SHORT_8_8_MESA,
   GL_UNSIGNED_SHORT_8_8_REV_MESA, GL_UNSIGNED_INT_8_8_8_8, GL_UNSIGNED_INT_8_8_8_8_REV,
   GL_UNSIGNED_INT_10_10_10_2, GL_UNSIGNED_INT_2_10_10_10_REV, GL_UNSIGNED_INT_24_8,
   GL_UNSIGNED_INT_10F_11F_11F_REV, GL_UNSIGNED_INT_5_9_9_9_REV,
   GL_UNSIGNED_INT_S8_S8_8_8_NV, GL_UNSIGNED_INT_8_8_S8_S8_REV_NV,
   GL_FLOAT_32_UNSIGNED_INT_24_8_REV]

/-- The pixel type constants the `switch (type)` of `__gl_image_size` has a case for. -/
def imageTypes : List Nat := componentTypes ++ packedTypes

example : imageTypes.Nodup := by decide
example : __gl_image_size defaultUnpack 0x1234 GL_UNSIGNED_SHORT_5_6_5 1 1 1 false = 4 := by
  decide
example : __gl_image_size defaultUnpack 0x1234 GL_BITMAP 32 32 1 false = 128 := by decide
example : __gl_image_size defaultUnpack 0x1234 GL_UNSIGNED_BYTE 32 32 1 false = 0 := by decide
example : __gl_image_size defaultUnpack GL_RGBA 0x1234 32 32 1 false = 0 := by decide

/-! ## `glsize.hpp`: shader-uniform types -/

/-- Modelled from the spec: the numeric values of the shader-uniform type constants (this
    one and the ones below, down to `GL_UNSIGNED_INT_SAMPLER_2D_RECT`), which
    `glimports.hpp` (not among the sources) supplies; the code names them, their values are
    the ones of the OpenGL registry headers. -/
def GL_NONE : Nat := 0
def GL_FLOAT_VEC2 : Nat := 0x8B50
def GL_FLOAT_VEC3 : Nat := 0x8B51
def GL_FLOAT_VEC4 : Nat := 0x8B52
def GL_INT_VEC2 : Nat := 0x8B53
def GL_INT_VEC3 : Nat := 0x8B54
def GL_INT_VEC4 : Nat := 0x8B55
def GL_BOOL_VEC2 : Nat := 0x8B57
def GL_BOOL_VEC3 : Nat := 0x8B58
def GL_BOOL_VEC4 : Nat := 0x8B59
def GL_FLOAT_MAT2 : Nat := 0x8B5A
def GL_FLOAT_MAT3 : Nat := 0x8B5B
def GL_FLOAT_MAT4 : Nat := 0x8B5C
def GL_FLOAT_MAT2x3 : Nat := 0x8B65
def GL_FLOAT_MAT2x4 : Nat := 0x8B66
def GL_FLOAT_MAT3x2 : Nat := 0x8B67
def GL_FLOAT_MAT3x4 : Nat := 0x8B68
def GL_FLOAT_MAT4x2 : Nat := 0x8B69
def GL_FLOAT_MAT4x3 : Nat := 0x8B6A
def GL_DOUBLE_VEC2 : Nat := 0x8FFC
def GL_DOUBLE_VEC3 : Nat := 0x8FFD
def GL_DOUBLE_VEC4 : Nat := 0x8FFE
def GL_DOUBLE_MAT2 : Nat := 0x8F46
def GL_DOUBLE_MAT3 : Nat := 0x8F47
def GL_DOUBLE_MAT4 : Nat := 0x8F48
def GL_DOUBLE_MAT2x3 : Nat := 0x8F49
def GL_DOUBLE_MAT2x4 : Nat := 0x8F4A
def GL_DOUBLE_MAT3x2 : Nat := 0x8F4B
def GL_DOUBLE_MAT3x4 : Nat := 0x8F4C
def GL_DOUBLE_MAT4x2 : Nat := 0x8F4D
def GL_DOUBLE_MAT4x3 : Nat := 0x8F4E
def GL_UNSIGNED_INT_VEC2 : Nat := 0x8DC6
def GL_UNSIGNED_INT_VEC3 : Nat := 0x8DC7
def GL_UNSIGNED_INT_VEC4 : Nat := 0x8DC8
def GL_SAMPLER_1D : Nat := 0x8B5D
def GL_SAMPLER_2D : Nat := 0x8B5E
def GL_SAMPLER_3D : Nat := 0x8B5F
def GL_SAMPLER_CUBE : Nat := 0x8B60
def GL_SAMPLER_1D_SHADOW : Nat := 0x8B61
def GL_SAMPLER_2D_SHADOW : Nat := 0x8B62
def GL_SAMPLER_2D_RECT : Nat := 0x8B63
def GL_SAMPLER_2D_RECT_SHADOW : Nat := 0x8B64
def GL_SAMPLER_1D_ARRAY : Nat := 0x8DC0
def GL_SAMPLER_2D_ARRAY : Nat := 0x8DC1
def GL_SAMPLER_BUFFER : Nat := 0x8DC2
def GL_SAMPLER_1D_ARRAY_SHADOW : Nat := 0x8DC3
def GL_SAMPLER_2D_ARRAY_SHADOW : Nat := 0x8DC4
def GL_SAMPLER_CUBE_SHADOW : Nat := 0x8DC5
def GL_SAMPLER_CUBE_MAP_ARRAY : Nat := 0x900C
def GL_SAMPLER_CUBE_MAP_ARRAY_SHADOW : Nat := 0x900D
def GL_SAMPLER_2D_MULTISAMPLE : Nat := 0x9108
def GL_SAMPLER_2D_MULTISAMPLE_ARRAY : Nat := 0x910B
def GL_INT_SAMPLER_1D : Nat := 0x8DC9
def GL_INT_SAMPLER_2D : Nat := 0x8DCA
def GL_INT_SAMPLER_3D : Nat := 0x8DCB
def GL_INT_SAMPLER_CUBE : Nat := 0x8DCC
def GL_INT_SAMPLER_2D_RECT : Nat := 0x8DCD
def GL_INT_SAMPLER_1D_ARRAY : Nat := 0x8DCE
def GL_INT_SAMPLER_2D_ARRAY : Nat := 0x8DCF
def GL_INT_SAMPLER_BUFFER : Nat := 0x8DD0
def GL_INT_SAMPLER_CUBE_MAP_ARRAY : Nat := 0x900E
def GL_INT_SAMPLER_2D_MULTISAMPLE : Nat := 0x9109
def GL_INT_SAMPLER_2D_MULTISAMPLE_ARRAY : Nat := 0x910C
def GL_UNSIGNED_INT_SAMPLER_1D : Nat := 0x8DD1
def GL_UNSIGNED_INT_SAMPLER_2D : Nat := 0x8DD2
def GL_UNSIGNED_INT_SAMPLER_3D : Nat := 0x8DD3
def GL_UNSIGNED_INT_SAMPLER_CUBE : Nat := 0x8DD4
def GL_UNSIGNED_INT_SAMPLER_2D_RECT : Nat := 0x8DD5
def GL_UNSIGNED_INT_SAMPLER_1D_ARRAY : Nat := 0x8DD6
def GL_UNSIGNED_INT_SAMPLER_2D_ARRAY : Nat := 0x8DD7
def GL_UNSIGNED_INT_SAMPLER_BUFFER : Nat := 0x8DD8
def GL_UNSIGNED_INT_SAMPLER_CUBE_MAP_ARRAY : Nat := 0x900F
def GL_UNSIGNED_INT_SAMPLER_2D_MULTISAMPLE : Nat := 0x910A
def GL_UNSIGNED_INT_SAMPLER_2D_MULTISAMPLE_ARRAY : Nat := 0x910D

/-- The case labels of lines 228-267 of `__gl_uniform_size`, which share one body: the
    sampler types. -/
def samplerTypes : List Nat :=
  [GL_SAMPLER_1D, GL_SAMPLER_2D, GL_SAMPLER_3D, GL_SAMPLER_CUBE, GL_SAMPLER_1D_SHADOW,
   GL_SAMPLER_2D_SHADOW, GL_SAMPLER_1D_ARRAY, GL_SAMPLER_2D_ARRAY, GL_SAMPLER_CUBE_MAP_ARRAY,
   GL_SAMPLER_1D_ARRAY_SHADOW, GL_SAMPLER_2D_ARRAY_SHADOW, GL_SAMPLER_2D_MULTISAMPLE,
   GL_SAMPLER_2D_MULTISAMPLE_ARRAY, GL_SAMPLER_CUBE_SHADOW, GL_SAMPLER_CUBE_MAP_ARRAY_SHADOW,
   GL_SAMPLER_BUFFER, GL_SAMPLER_2D_RECT, GL_SAMPLER_2D_RECT_SHADOW,
   GL_INT_SAMPLER_1D, GL_INT_SAMPLER_2D, GL_INT_SAMPLER_3D, GL_INT_SAMPLER_CUBE,
   GL_INT_SAMPLER_1D_ARRAY, GL_INT_SAMPLER_2D_ARRAY, GL_INT_SAMPLER_CUBE_MAP_ARRAY,
   GL_INT_SAMPLER_2D_MULTISAMPLE, GL_INT_SAMPLER_2D_MULTISAMPLE_ARRAY, GL_INT_SAMPLER_BUFFER,
   GL_INT_SAMPLER_2D_RECT,
   GL_UNSIGNED_INT_SAMPLER_1D, GL_UNSIGNED_INT_SAMPLER_2D, GL_UNSIGNED_INT_SAMPLER_3D,
   GL_UNSIGNED_INT_SAMPLER_CUBE, GL_UNSIGNED_INT_SAMPLER_1D_ARRAY,
   GL_UNSIGNED_INT_SAMPLER_2D_ARRAY, GL_UNSIGNED_INT_SAMPLER_CUBE_MAP_ARRAY,
   GL_UNSIGNED_INT_SAMPLER_2D_MULTISAMPLE, GL_UNSIGNED_INT_SAMPLER_2D_MULTISAMPLE_ARRAY,
   GL_UNSIGNED_INT_SAMPLER_BUFFER, GL_UNSIGNED_INT_SAMPLER_2D_RECT]

/-- Decomposition of a shader-uniform type, `__gl_uniform_size` (lines 73-277): the values
    written to the out-parameters `elemType` and `numElems` (the diagnostic of the default
    branch left aside). -/
def __gl_uniform_size (type : Nat) : Nat × Int :=
  if type = GL_FLOAT then (GL_FLOAT, 1)
  else if type = GL_FLOAT_VEC2 then (GL_FLOAT, 2)
  else if type = GL_FLOAT_VEC3 then (GL_FLOAT, 3)
  else if type = GL_FLOAT_VEC4 then (GL_FLOAT, 4)
  else if type = GL_DOUBLE then (GL_DOUBLE, 1)
  else if type = GL_DOUBLE_VEC2 then (GL_DOUBLE, 2)
  else if type = GL_DOUBLE_VEC3 then (GL_DOUBLE, 3)
  else if type = GL_DOUBLE_VEC4 then (GL_DOUBLE, 4)
  else if type = GL_INT then (GL_INT, 1)
  else if type = GL_INT_VEC2 then (GL_INT, 2)
  else if type = GL_INT_VEC3 then (GL_INT, 3)
  else if type = GL_INT_VEC4 then (GL_INT, 4)
  else if type = GL_UNSIGNED_INT then (GL_UNSIGNED_INT, 1)
  else if type = GL_UNSIGNED_INT_VEC2 then (GL_UNSIGNED_INT, 2)
  else if type = GL_UNSIGNED_INT_VEC3 then (GL_UNSIGNED_INT, 3)
  else if type = GL_UNSIGNED_INT_VEC4 then (GL_UNSIGNED_INT, 4)
  else if type = GL_BOOL then (GL_BOOL, 1)
  else if type = GL_BOOL_VEC2 then (GL_BOOL, 2)
  else if type = GL_BOOL_VEC3 then (GL_BOOL, 3)
  else if type = GL_BOOL_VEC4 then (GL_BOOL, 4)
  else if type = GL_FLOAT_MAT2 then (GL_FLOAT, 2 * 2)
  else if type = GL_FLOAT_MAT3 then (GL_FLOAT, 3 * 3)
  else if type = GL_FLOAT_MAT4 then (GL_FLOAT, 4 * 4)
  else if type = GL_FLOAT_MAT2x3 then (GL_FLOAT, 2 * 3)
  else if type = GL_FLOAT_MAT2x4 then (GL_FLOAT, 2 * 4)
  else if type = GL_FLOAT_MAT3x2 then (GL_FLOAT, 3 * 2)
  else if type = GL_FLOAT_MAT3x4 then (GL_FLOAT, 3 * 4)
  else if type = GL_FLOAT_MAT4x2 then (GL_FLOAT, 4 * 2)
  else if type = GL_FLOAT_MAT4x3 then (GL_FLOAT, 4 * 3)
  else if type = GL_DOUBLE_MAT2 then (GL_DOUBLE, 2 * 2)
  else if type = GL_DOUBLE_MAT3 then (GL_DOUBLE, 3 * 3)
  else if type = GL_DOUBLE_MAT4 then (GL_DOUBLE, 4 * 4)
  else if type = GL_DOUBLE_MAT2x3 then (GL_DOUBLE, 2 * 3)
  else if type = GL_DOUBLE_MAT2x4 then (GL_DOUBLE, 2 * 4)
  else if type = GL_DOUBLE_MAT3x2 then (GL_DOUBLE, 3 * 2)
  else if type = GL_DOUBLE_MAT3x4 then (GL_DOUBLE, 3 * 4)
  else if type = GL_DOUBLE_MAT4x2 then (GL_DOUBLE, 4 * 2)
  else if type = GL_DOUBLE_MAT4x3 then (GL_DOUBLE, 4 * 3)
  else if type ∈ samplerTypes then (GL_INT, 1)
  else (GL_NONE, 0)

/-! ### The uniform shape table as the specification words it -/

/-- The scalar uniform types. -/
def scalarUniforms : List Nat := [GL_FLOAT, GL_DOUBLE, GL_INT, GL_UNSIGNED_INT, GL_BOOL]

/-- The vector uniform types: (type, scalar type, number of components). -/
def vectorUniforms : List (Nat × Nat × Int) :=
  [(GL_FLOAT_VEC2, GL_FLOAT, 2), (GL_FLOAT_VEC3, GL_FLOAT, 3), (GL_FLOAT_VEC4, GL_FLOAT, 4),
   (GL_DOUBLE_VEC2, GL_DOUBLE, 2), (GL_DOUBLE_VEC3, GL_DOUBLE, 3),
   (GL_DOUBLE_VEC4, GL_DOUBLE, 4),
   (GL_INT_VEC2, GL_INT, 2), (GL_INT_VEC3, GL_INT, 3), (GL_INT_VEC4, GL_INT, 4),
   (GL_UNSIGNED_INT_VEC2, GL_UNSIGNED_INT, 2), (GL_UNSIGNED_INT_VEC3, GL_UNSIGNED_INT, 3),
   (GL_UNSIGNED_INT_VEC4, GL_UNSIGNED_INT, 4),
   (GL_BOOL_VEC2, GL_BOOL, 2), (GL_BOOL_VEC3, GL_BOOL, 3), (GL_BOOL_VEC4, GL_BOOL, 4)]

/-- The matrix uniform types `MATc` / `MATcxr`: (type, scalar type, c, r). -/
def matrixUniforms : List (Nat × Nat × Int × Int) :=
  [(GL_FLOAT_MAT2, GL_FLOAT, 2, 2), (GL_FLOAT_MAT3, GL_FLOAT, 3, 3),
   (GL_FLOAT_MAT4, GL_FLOAT, 4, 4), (GL_FLOAT_MAT2x3, GL_FLOAT, 2, 3),
   (GL_FLOAT_MAT2x4, GL_FLOAT, 2, 4), (GL_FLOAT_MAT3x2, GL_FLOAT, 3, 2),
   (GL_FLOAT_MAT3x4, GL_FLOAT, 3, 4), (GL_FLOAT_MAT4x2, GL_FLOAT, 4, 2),
   (GL_FLOAT_MAT4x3, GL_FLOAT, 4, 3),
   (GL_DOUBLE_MAT2, GL_DOUBLE, 2, 2), (GL_DOUBLE_MAT3, GL_DOUBLE, 3, 3),
   (GL_DOUBLE_MAT4, GL_DOUBLE, 4, 4), (GL_DOUBLE_MAT2x3, GL_DOUBLE, 2, 3),
   (GL_DOUBLE_MAT2x4, GL_DOUBLE, 2, 4), (GL_DOUBLE_MAT3x2, GL_DOUBLE, 3, 2),
   (GL_DOUBLE_MAT3x4, GL_DOUBLE, 3, 4), (GL_DOUBLE_MAT4x2, GL_DOUBLE, 4, 2),
   (GL_DOUBLE_MAT4x3, GL_DOUBLE, 4, 3)]

/-- Every uniform type constant `__gl_uniform_size` has a case for. -/
def uniformTypes : List Nat :=
  scalarUniforms ++ vectorUniforms.map Prod.fst ++ matrixUniforms.map Prod.fst ++ samplerTypes

example : uniformTypes.length = 78 := by decide
example : __gl_uniform_size GL_FLOAT_MAT3x4 = (GL_FLOAT, 12) := by decide
example : __gl_uniform_size GL_UNSIGNED_INT_SAMPLER_2D_RECT = (GL_INT, 1) := by decide
example : __gl_uniform_size 0x1234 = (GL_NONE, 0) := by decide

/-! ## Replay vocabulary for resource release, frame signals and swaps -/

/-- The live drawables that the create-window-surface calls of a sequence bind under the
    recorded handle `h`, in trace order. -/
def drawablesBoundUnder (h : Nat) : List (Call × Reply) → List Nat
  | [] => []
  | (Call.eglCreateWindowSurface ret, w) :: rest =>
    if ret = h then w.ptr :: drawablesBoundUnder h rest else drawablesBoundUnder h rest
  | _ :: rest => drawablesBoundUnder h rest

/-- The live contexts that the create-context calls of a sequence bind under the recorded
    handle `h`, in trace order. -/
def contextsBoundUnder (h : Nat) : List (Call × Reply) → List Nat
  | [] => []
  | (Call.eglCreateContext _ ret, w) :: rest =>
    if ret = h then w.ptr :: contextsBoundUnder h rest else contextsBoundUnder h rest
  | _ :: rest => contextsBoundUnder h rest

/-- The create call, processed in state `s`, returns a handle that has no map entry. -/
def FreshHandle (s : State) : Call → Prop
  | Call.eglCreateWindowSurface ret => mapFind s.drawable_map ret = none
  | Call.eglCreateContext _ ret => mapFind s.context_map ret = none
  | _ => True

instance (s : State) (c : Call) : Decidable (FreshHandle s c) := by
  cases c <;> unfold FreshHandle <;> infer_instance

/-- Handles and live resources correspond 1:1 along the sequence: every create call,
    processed in turn from `s`, returns a handle that has no map entry at that point. -/
def FreshCreates : State → List (Call × Reply) → Prop
  | _, [] => True
  | s, (c, w) :: rest => FreshHandle s c ∧ FreshCreates (retrace s c w).state rest

instance decFreshCreates : (s : State) → (calls : List (Call × Reply)) →
    Decidable (FreshCreates s calls)
  | _, [] => isTrue trivial
  | s, (c, w) :: rest =>
    have := decFreshCreates (retrace s c w).state rest
    by unfold FreshCreates; infer_instance

/-- A trace that creates two surfaces under the same handle 1 (live pointers 100 and 101)
    and then destroys surface 1. -/
def reboundCalls : List (Call × Reply) :=
  [(Call.eglCreateWindowSurface 1, { ptr := 100, result := false }),
   (Call.eglCreateWindowSurface 1, { ptr := 101, result := false }),
   (Call.eglDestroySurface 1, noReply)]

example : (replay (initial true) reboundCalls).effects
    = [Effect.createDrawable 100, Effect.createDrawable 101, Effect.deleteDrawable 101] := by
  decide
example : drawablesBoundUnder 1 (reboundCalls.take 2) = [100, 101] := by decide
example : ¬ FreshCreates (initial true) reboundCalls := by decide
example : FreshCreates (initial true) (setupCalls ++ [(Call.eglDestroySurface 1, noReply)]) := by
  decide

/-- The recorded call is a swap-buffers call. -/
def isSwap : Call → Bool
  | Call.eglSwapBuffers => true
  | _ => false

/-- The calls of the sequence that the replay from `s` processes: all of them up to and
    including the first one that does not end normally. -/
def processedCalls : State → List (Call × Reply) → List (Call × Reply)
  | _, [] => []
  | s, (c, w) :: rest =>
    (c, w) :: (if (retrace s c w).outcome = Outcome.ok
      then processedCalls (retrace s c w).state rest else [])

/-- Number of swap-buffers calls the replay from `s` processes. -/
def swapsProcessed (s : State) (calls : List (Call × Reply)) : Nat :=
  (processedCalls s calls).countP (fun e => isSwap e.1)

/-- Number of frame-complete signals in an effect trace. -/
def frameSignals (effects : List Effect) : Nat :=
  effects.count Effect.frame_complete

example : frameSignals (replay (initial true)
    (setupCalls ++ [(Call.eglSwapBuffers, noReply), (Call.eglSwapBuffers, noReply)])).effects
    = 2 := by decide
example : swapsProcessed (initial true)
    [(Call.eglSwapBuffers, noReply), (Call.eglSwapBuffers, noReply)] = 1 := by decide

/-- The call is a make-current that, processed in state `s`, succeeds: both handles resolve
    to live resources and the windowing collaborator reports success. -/
def Succeeds (s : State) (c : Call) (w : Reply) : Prop :=
  match c with
  | Call.eglMakeCurrent draw ctx =>
    getDrawable s draw ≠ 0 ∧ getContext s ctx ≠ 0 ∧ w.result = true
  | _ => False

instance (s : State) (c : Call) (w : Reply) : Decidable (Succeeds s c w) := by
  cases c <;> unfold Succeeds <;> infer_instance

/-- No make-current of the sequence, processed in turn from `s`, succeeds. -/
def NoneSucceeds : State → List (Call × Reply) → Prop
  | _, [] => True
  | s, (c, w) :: rest => ¬ Succeeds s c w ∧ NoneSucceeds (retrace s c w).state rest

instance decNoneSucceeds : (s : State) → (calls : List (Call × Reply)) →
    Decidable (NoneSucceeds s calls)
  | _, [] => isTrue trivial
  | s, (c, w) :: rest =>
    have := decNoneSucceeds (retrace s c w).state rest
    by unfold NoneSucceeds; infer_instance

example : NoneSucceeds (initial true) (setupCalls.take 3) := by decide
example : ¬ NoneSucceeds (initial true) setupCalls := by decide

/-- The two points at which the specification lets a call signal frame-complete: a
    swap-buffers call, and a make-current that switches (the resolved pair differs from the
    current one) away from a fully bound pair on a single-buffered surface. -/
def SignalsFrame (s : State) : Call → Prop
  | Call.eglSwapBuffers => True
  | Call.eglMakeCurrent draw ctx =>
    ¬ (getDrawable s draw = s.drawable ∧ getContext s ctx = s.context) ∧
      s.drawable ≠ 0 ∧ s.context ≠ 0 ∧ s.double_buffer = false
  | _ => False

instance (s : State) (c : Call) : Decidable (SignalsFrame s c) := by
  cases c <;> unfold SignalsFrame <;> infer_instance

example : SignalsFrame (boundState false) (Call.eglMakeCurrent 0 0) := by decide
example : ¬ SignalsFrame (boundState true) (Call.eglMakeCurrent 0 0) := by decide
example : ¬ SignalsFrame (boundState false) (Call.eglMakeCurrent 1 2) := by decide

/-! ## Theorems: packed-image sizing -/

theorem and_mask (y k : Nat) (hy : y < 2 ^ 64) (hk : k ≤ 64) :
    y &&& (2 ^ 64 - 2 ^ k) = y / 2 ^ k * 2 ^ k := by
  have h1 : 2 ^ 64 - 2 ^ k = 2 ^ k * (2 ^ (64 - k) - 1) := by
    rw [Nat.mul_sub, ← pow_add, Nat.add_sub_cancel' hk, mul_one]
  apply Nat.eq_of_testBit_eq
  intro i
  rw [Nat.testBit_and, h1, Nat.mul_comm (y / 2 ^ k), Nat.testBit_mul_pow_two,
    Nat.testBit_mul_pow_two, Nat.testBit_two_pow_sub_one, ← Nat.shiftRight_eq_div_pow,
    Nat.testBit_shiftRight]
  by_cases hik : i ≥ k
  · have e : k + (i - k) = i := by omega
    rw [e]
    by_cases hi : i < 64
    · have : i - k < 64 - k := by omega
      simp [hik, this]
    · have h2 : y < 2 ^ i := lt_of_lt_of_le hy (Nat.pow_le_pow_right (by norm_num) (by omega))
      simp [Nat.testBit_lt_two_pow h2]
  · simp [hik]

/-- For an alignment of 1, 2, 4 or 8 `_align` is the rounding up to the next multiple. -/
theorem align_eq (x : Nat) (a : Int) (ha : a = 1 ∨ a = 2 ∨ a = 4 ∨ a = 8)
    (hx : x < 2 ^ 63) : (_align x a : Int) = roundUpTo x a := by
  have m0 : toSizeT (~~~ (wrapInt ((1 : Int) - 1))) = 2 ^ 64 - 2 ^ 0 := by decide
  have m1 : toSizeT (~~~ (wrapInt ((2 : Int) - 1))) = 2 ^ 64 - 2 ^ 1 := by decide
  have m2 : toSizeT (~~~ (wrapInt ((4 : Int) - 1))) = 2 ^ 64 - 2 ^ 2 := by decide
  have m3 : toSizeT (~~~ (wrapInt ((8 : Int) - 1))) = 2 ^ 64 - 2 ^ 3 := by decide
  have c0 : toSizeT (wrapInt ((1 : Int) - 1)) = 0 := by decide
  have c1 : toSizeT (wrapInt ((2 : Int) - 1)) = 1 := by decide
  have c2 : toSizeT (wrapInt ((4 : Int) - 1)) = 3 := by decide
  have c3 : toSizeT (wrapInt ((8 : Int) - 1)) = 7 := by decide
  unfold _align roundUpTo
  rcases ha with rfl | rfl | rfl | rfl
  · rw [m0, c0, Nat.mod_eq_of_lt (by omega), and_mask _ 0 (by omega) (by omega)]
    push_cast; omega
  · rw [m1, c1, Nat.mod_eq_of_lt (by omega), and_mask _ 1 (by omega) (by omega)]
    push_cast; omega
  · rw [m2, c2, Nat.mod_eq_of_lt (by omega), and_mask _ 2 (by omega) (by omega)]
    push_cast; omega
  · rw [m3, c3, Nat.mod_eq_of_lt (by omega), and_mask _ 3 (by omega) (by omega)]
    push_cast; omega

theorem toUnsigned_natCast (l : Nat) : toUnsigned (l : Int) = l % 2 ^ 32 := by
  unfold toUnsigned
  have h : ((l : Int) % 2 ^ 32) = ((l % 2 ^ 32 : Nat) : Int) := by push_cast; rfl
  rw [h, Int.toNat_natCast]

theorem toSizeT_natCast (l : Nat) : toSizeT (l : Int) = l % 2 ^ 64 := by
  unfold toSizeT
  have h : ((l : Int) % 2 ^ 64) = ((l % 2 ^ 64 : Nat) : Int) := by push_cast; rfl
  rw [h, Int.toNat_natCast]

theorem format_channels_le (format : Nat) : __gl_format_channels format ≤ 5 := by
  unfold __gl_format_channels
  split_ifs <;> omega

/-- The values `bits_per_pixel` can take. -/
theorem bits_per_pixel_cases (format type : Nat) :
    bits_per_pixel format type = 0 ∨ bits_per_pixel format type = 1 ∨
    bits_per_pixel format type = 8 ∨ bits_per_pixel format type = 16 ∨
    bits_per_pixel format type = 24 ∨ bits_per_pixel format type = 32 ∨
    bits_per_pixel format type = 40 ∨ bits_per_pixel format type = 48 ∨
    bits_per_pixel format type = 64 ∨ bits_per_pixel format type = 80 ∨
    bits_per_pixel format type = 96 ∨ bits_per_pixel format type = 128 ∨
    bits_per_pixel format type = 160 := by
  have hc := format_channels_le format
  unfold bits_per_pixel
  generalize __gl_format_channels format = c at hc
  simp only []
  split_ifs <;> interval_cases c <;> simp

set_option maxRecDepth 8000 in
/-- The row stride of the code is the row stride of the specification. -/
theorem row_stride_eq (bpp : Nat)
    (hb : bpp = 0 ∨ bpp = 1 ∨ bpp = 8 ∨ bpp = 16 ∨ bpp = 24 ∨ bpp = 32 ∨ bpp = 40 ∨
      bpp = 48 ∨ bpp = 64 ∨ bpp = 80 ∨ bpp = 96 ∨ bpp = 128 ∨ bpp = 160)
    (a : Int) (ha : a = 1 ∨ a = 2 ∨ a = 4 ∨ a = 8) (l : Nat)
    (hl : l * bpp + 7 < 2 ^ 32) :
    (row_stride bpp a (l : Int) : Int) = specRowStride bpp a l := by
  unfold row_stride specRowStride
  rw [toUnsigned_natCast]
  rcases hb with rfl | rfl | rfl | rfl | rfl | rfl | rfl | rfl | rfl | rfl | rfl | rfl | rfl <;>
  rcases ha with rfl | rfl | rfl | rfl <;>
  simp only [] <;>
  (first | rw [if_pos (by decide)] | rw [if_neg (by decide)]) <;>
  (first | rw [if_pos (by decide)] | rw [if_neg (by decide)]) <;>
  (try rw [align_eq _ _ (by decide) (by omega)]) <;>
  (try unfold roundUpTo) <;>
  unfold ceilDiv8 <;>
  (try rw [Nat.mod_eq_of_lt (by omega : l < 2 ^ 32)]) <;>
  (try rw [Nat.mod_eq_of_lt (by omega)]) <;>
  push_cast <;> omega

set_option linter.unnecessarySeqFocus false

theorem code_row_length (st : UnpackState) (width : Int) (flag : Bool) :
    (if (if flag = true then st.row_length else 0) ≤ 0 then width
      else (if flag = true then st.row_length else 0)) = effRowLength st width flag := by
  unfold effRowLength
  cases flag <;> simp <;> split_ifs <;> omega

theorem code_image_height (st : UnpackState) (height : Int) (flag : Bool) :
    (if (if flag = true then st.image_height else 0) ≤ 0 then height
      else (if flag = true then st.image_height else 0)) = effImageHeight st height flag := by
  unfold effImageHeight
  cases flag <;> simp <;> split_ifs <;> omega

theorem effRowLength_nonneg (st : UnpackState) (width : Int) (flag : Bool)
    (hw : 0 ≤ width) : 0 ≤ effRowLength st width flag := by
  unfold effRowLength
  split_ifs <;> omega

theorem effImageHeight_nonneg (st : UnpackState) (height : Int) (flag : Bool)
    (hh : 0 ≤ height) : 0 ≤ effImageHeight st height flag := by
  unfold effImageHeight
  split_ifs <;> omega

theorem unsigned_bits (n bpp : Nat) (h : n * bpp + 7 < 2 ^ 32) :
    (n % 2 ^ 32 * bpp + 7) % 2 ^ 32 / 8 = (n * bpp + 7) / 8 := by
  rcases Nat.eq_zero_or_pos bpp with rfl | hpos
  · simp
  · have h1 : n ≤ n * bpp := Nat.le_mul_of_pos_right n hpos
    rw [Nat.mod_eq_of_lt (by omega : n < 2 ^ 32), Nat.mod_eq_of_lt h]

/-- The size computed on naturals: the wrapped sum of the code is the exact sum when the
    exact sum fits `size_t`. -/
theorem size_sum_exact (d h S px sr si : Nat)
    (hfit : d * h * S + si * h * S + sr * S + px < 2 ^ 64) :
    ((((d % 2 ^ 64 * ((h % 2 ^ 64 * S) % 2 ^ 64)) % 2 ^ 64 + px) % 2 ^ 64
        + (sr % 2 ^ 64 * S) % 2 ^ 64) % 2 ^ 64
        + (si % 2 ^ 64 * ((h % 2 ^ 64 * S) % 2 ^ 64)) % 2 ^ 64) % 2 ^ 64
      = d * h * S + si * h * S + sr * S + px := by
  simp only [Nat.add_mod_mod, Nat.mod_add_mod, Nat.mul_mod_mod, Nat.mod_mul_mod]
  have e : d * (h * S) + px + sr * S + si * (h * S)
      = d * h * S + si * h * S + sr * S + px := by ring
  rw [e, Nat.mod_eq_of_lt hfit]

/-- The exact-arithmetic core of `__gl_image_size`: with the effective values handed in as
    naturals, the size is the formula of the specification. -/
theorem image_size_core (st : UnpackState) (format type : Nat)
    (l h d sr sp si : Nat)
    (ha : st.alignment = 1 ∨ st.alignment = 2 ∨ st.alignment = 4 ∨ st.alignment = 8)
    (h1 : l * bits_per_pixel format type + 7 < 2 ^ 32)
    (h2 : sp * bits_per_pixel format type + 7 < 2 ^ 32)
    (h3 : (d : Int) * h * specRowStride (bits_per_pixel format type) st.alignment l
        + si * h * specRowStride (bits_per_pixel format type) st.alignment l
        + sr * specRowStride (bits_per_pixel format type) st.alignment l
        + ceilDiv8 (sp * bits_per_pixel format type) < 2 ^ 64) :
    ((((((toSizeT d * ((toSizeT h * row_stride (bits_per_pixel format type) st.alignment l)
          % 2 ^ 64)) % 2 ^ 64
        + ((toUnsigned sp * bits_per_pixel format type + 7) % 2 ^ 32) / 8) % 2 ^ 64
        + (toSizeT sr * row_stride (bits_per_pixel format type) st.alignment l) % 2 ^ 64)
          % 2 ^ 64
        + (toSizeT si * ((toSizeT h * row_stride (bits_per_pixel format type) st.alignment l)
          % 2 ^ 64)) % 2 ^ 64) % 2 ^ 64 : Nat) : Int)
      = (d : Int) * h * specRowStride (bits_per_pixel format type) st.alignment l
        + si * h * specRowStride (bits_per_pixel format type) st.alignment l
        + sr * specRowStride (bits_per_pixel format type) st.alignment l
        + ceilDiv8 (sp * bits_per_pixel format type) := by
  have hS := row_stride_eq _ (bits_per_pixel_cases format type) _ ha l h1
  rw [← hS] at h3 ⊢
  generalize row_stride (bits_per_pixel format type) st.alignment l = S at h3 ⊢
  generalize bits_per_pixel format type = bpp at h2 h3 ⊢
  have hpx : ceilDiv8 ((sp : Int) * bpp) = (((sp * bpp + 7) / 8 : Nat) : Int) := by
    unfold ceilDiv8; push_cast; rfl
  rw [hpx] at h3 ⊢
  rw [toSizeT_natCast, toSizeT_natCast, toSizeT_natCast, toSizeT_natCast,
    toUnsigned_natCast, unsigned_bits _ _ h2]
  have h3n : d * h * S + si * h * S + sr * S + (sp * bpp + 7) / 8 < 2 ^ 64 := by
    exact_mod_cast h3
  rw [size_sum_exact _ _ _ _ _ _ h3n]
  push_cast; rfl

/-- C1: for every format, type, non-negative width, height and depth,
    capability flag and unpack state with alignment 1, 2, 4 or 8 and non-negative skip
    counts, without integer overflow, `__gl_image_size` returns
    `depth*H*S + skipImages*H*S + skipRows*S + ceil(skipPixels*bpp/8)`, where `L` and `H`
    are the row length and image height in effect, `S` is `ceil(L*bpp/8)` rounded up to the
    alignment exactly when `bpp` is a power of two, a multiple of 8 and below
    `8*alignment`, and the three skip counts are the ones in effect (those of the unpack
    state when the flag is set; without the flag the sub-image parameters resolve as zero).
    In particular RGBA / unsigned byte, 3 x 2 x 1,
    alignment 4, no sub-image parameter: row stride 12, size 24. -/
theorem gl_image_size_formula (st : UnpackState) (format type : Nat)
    (width height depth : Int) (flag : Bool)
    (hw : 0 ≤ width) (hh : 0 ≤ height) (hd : 0 ≤ depth)
    (ha : st.alignment = 1 ∨ st.alignment = 2 ∨ st.alignment = 4 ∨ st.alignment = 8)
    (hsr : 0 ≤ st.skip_rows) (hsp : 0 ≤ st.skip_pixels) (hsi : 0 ≤ st.skip_images)
    (hfit : NoOverflow st format type width height depth flag) :
    (__gl_image_size st format type width height depth flag : Int)
        = specImageSize st format type width height depth flag ∧
      row_stride (bits_per_pixel GL_RGBA GL_UNSIGNED_BYTE) 4 3 = 12 ∧
      __gl_image_size defaultUnpack GL_RGBA GL_UNSIGNED_BYTE 3 2 1 false = 24 := by
  refine ⟨?_, by decide, by decide⟩
  obtain ⟨h1, h2, h3⟩ := hfit
  unfold specImageSize specTotal at h3 ⊢
  unfold __gl_image_size
  simp only [] at h3 ⊢
  rw [code_row_length, code_image_height]
  obtain ⟨l, hl⟩ := Int.eq_ofNat_of_zero_le (effRowLength_nonneg st width flag hw)
  obtain ⟨h, hh'⟩ := Int.eq_ofNat_of_zero_le (effImageHeight_nonneg st height flag hh)
  obtain ⟨d, rfl⟩ := Int.eq_ofNat_of_zero_le hd
  have e1 : 0 ≤ (if flag = true then st.skip_rows else 0) := by split_ifs <;> omega
  have e2 : 0 ≤ (if flag = true then st.skip_pixels else 0) := by split_ifs <;> omega
  have e3 : 0 ≤ (if flag = true then st.skip_images else 0) := by split_ifs <;> omega
  obtain ⟨sr, hsr'⟩ := Int.eq_ofNat_of_zero_le e1
  obtain ⟨sp, hsp'⟩ := Int.eq_ofNat_of_zero_le e2
  obtain ⟨si, hsi'⟩ := Int.eq_ofNat_of_zero_le e3
  rw [hl] at h1
  rw [hsp'] at h2
  rw [hl, hh', hsr', hsp', hsi'] at h3 ⊢
  exact image_size_core st format type l h d sr sp si ha (by exact_mod_cast h1)
    (by exact_mod_cast h2) h3

/-- Witness of C1: a 16-bit luminance image of 3 x 2 x 1 under a row length of 5, one
    skipped row and two skipped pixels is 40 bytes (rows of 10 bytes aligned to 12). -/
theorem gl_image_size_formula_witness :
    NoOverflow subImageUnpack GL_LUMINANCE GL_UNSIGNED_SHORT 3 2 1 true ∧
    specImageSize subImageUnpack GL_LUMINANCE GL_UNSIGNED_SHORT 3 2 1 true = 40 ∧
    (__gl_image_size subImageUnpack GL_LUMINANCE GL_UNSIGNED_SHORT 3 2 1 true : Int)
      = specImageSize subImageUnpack GL_LUMINANCE GL_UNSIGNED_SHORT 3 2 1 true :=
  ⟨by decide, by decide,
    (gl_image_size_formula subImageUnpack GL_LUMINANCE GL_UNSIGNED_SHORT 3 2 1 true
      (by decide) (by decide) (by decide) (by decide) (by decide) (by decide) (by decide)
      (by decide)).1⟩

/-- C2 (as amended): an RGB / unsigned byte image (24 bits per pixel, not a power of two)
    of width 3 at unpack alignment 4 keeps its row stride of 9, which is not rounded up, so
    `__gl_image_size(GL_RGB, GL_UNSIGNED_BYTE, 3, h, 1, false)` is `9*h` for every height
    `0 ≤ h < 2^31`. -/
theorem gl_image_size_rgb_width3 (st : UnpackState) (h : Int) (ha : st.alignment = 4)
    (h0 : 0 ≤ h) (h1 : h < 2 ^ 31) :
    row_stride (bits_per_pixel GL_RGB GL_UNSIGNED_BYTE) st.alignment 3 = 9 ∧
    (__gl_image_size st GL_RGB GL_UNSIGNED_BYTE 3 h 1 false : Int) = 9 * h := by
  have hb : bits_per_pixel GL_RGB GL_UNSIGNED_BYTE = 24 := by decide
  have hr : row_stride 24 4 3 = 9 := by decide
  obtain ⟨n, rfl⟩ := Int.eq_ofNat_of_zero_le h0
  have hn : n < 2 ^ 31 := by exact_mod_cast h1
  have e1 : toSizeT (1 : Int) = 1 := by decide
  have e0 : toSizeT (0 : Int) = 0 := by decide
  have u0 : toUnsigned (0 : Int) = 0 := by decide
  unfold __gl_image_size
  simp only [hb, ha, hr, Bool.false_eq_true, if_false, le_refl, if_true, e1, e0, u0,
    toSizeT_natCast]
  refine ⟨trivial, ?_⟩
  norm_num
  omega

/-- Witness of C2 (as amended): height 2 under the default unpack state gives 18 bytes. -/
theorem gl_image_size_rgb_width3_witness :
    (__gl_image_size defaultUnpack GL_RGB GL_UNSIGNED_BYTE 3 2 1 false : Int) = 9 * 2 :=
  (gl_image_size_rgb_width3 defaultUnpack 2 rfl (by decide) (by decide)).2

/-- Counterexample to C2 as worded: at alignment 4 the row stride of an RGB / unsigned byte
    row of 3 pixels is 9, not 12, and the size for height 2 is 18, not `12 * 2`. -/
theorem gl_image_size_rgb_not_rounded :
    defaultUnpack.alignment = 4 ∧
    row_stride (bits_per_pixel GL_RGB GL_UNSIGNED_BYTE) 4 3 = 9 ∧
    __gl_image_size defaultUnpack GL_RGB GL_UNSIGNED_BYTE 3 2 1 false = 18 ∧
    __gl_image_size defaultUnpack GL_RGB GL_UNSIGNED_BYTE 3 2 1 false ≠ 12 * 2 := by
  decide

/-! ## Theorems: indexed-draw max-index scan -/

/-- The scanning loop returns an upper bound of the values scanned, and one of them when
    there is at least one. -/
theorem scan_fold_spec (p : Nat → Nat) (n : Nat) :
    (∀ i, i < n → p i ≤ (List.range n).foldl
        (fun maxindex i => if p i > maxindex then p i else maxindex) 0) ∧
    (0 < n → ∃ i, i < n ∧ p i = (List.range n).foldl
        (fun maxindex i => if p i > maxindex then p i else maxindex) 0) := by
  induction n with
  | zero => exact ⟨fun i hi => absurd hi (Nat.not_lt_zero i), fun h => absurd h (lt_irrefl 0)⟩
  | succ n ih =>
    obtain ⟨ihb, iha⟩ := ih
    rw [List.range_succ, List.foldl_append]
    simp only [List.foldl_cons, List.foldl_nil]
    generalize hm : (List.range n).foldl
      (fun maxindex i => if p i > maxindex then p i else maxindex) 0 = m at ihb iha
    constructor
    · intro i hi
      rcases Nat.lt_succ_iff_lt_or_eq.mp hi with h | rfl
      · have := ihb i h
        split_ifs <;> omega
      · split_ifs <;> omega
    · intro _
      by_cases hgt : p n > m
      · exact ⟨n, Nat.lt_succ_self n, by rw [if_pos hgt]⟩
      · rw [if_neg hgt]
        rcases Nat.eq_zero_or_pos n with rfl | hpos
        · have hm0 : m = 0 := by simpa using hm.symm
          exact ⟨0, Nat.zero_lt_one, by omega⟩
        · obtain ⟨i, hi, e⟩ := iha hpos
          exact ⟨i, Nat.lt_succ_of_lt hi, e⟩

theorem scanIndices_known (type : Nat)
    (ht : type = GL_UNSIGNED_BYTE ∨ type = GL_UNSIGNED_SHORT ∨ type = GL_UNSIGNED_INT)
    (bytes : Nat → Nat) (count : Int) :
    scanIndices type bytes count = scanMax (readLE bytes (__gl_type_size type)) count := by
  rcases ht with rfl | rfl | rfl
  · have e : __gl_type_size GL_UNSIGNED_BYTE = 1 := by decide
    rw [e]; unfold scanIndices; rw [if_pos rfl]
  · have e : __gl_type_size GL_UNSIGNED_SHORT = 2 := by decide
    rw [e]; unfold scanIndices; rw [if_neg (by decide), if_pos rfl]
  · have e : __gl_type_size GL_UNSIGNED_INT = 4 := by decide
    rw [e]; unfold scanIndices; rw [if_neg (by decide), if_neg (by decide), if_pos rfl]

theorem type_size_le (type : Nat) : __gl_type_size type ≤ 8 := by
  unfold __gl_type_size
  split_ifs <;> omega

theorem toSizeT_of_nonneg (c : Int) (h0 : 0 ≤ c) (h1 : c < 2 ^ 64) :
    toSizeT c = c.toNat := by
  unfold toSizeT
  rw [Int.emod_eq_of_lt h0 h1]

/-- Adding a `GLint` to a `GLuint`: the sum modulo `2^32`. -/
theorem unsigned_add_int (m : Nat) (b : Int) :
    (((m + toUnsigned b) % 2 ^ 32 : Nat) : Int) = ((m : Int) + b) % 2 ^ 32 := by
  unfold toUnsigned
  have h : (((b % 4294967296).toNat : Nat) : Int) = b % 4294967296 :=
    Int.toNat_of_nonneg (Int.emod_nonneg b (by norm_num))
  push_cast
  rw [h]
  omega

/-- Under the hypotheses of a readable draw call the value returned is the scanned
    maximum plus `basevertex`, modulo `2^32`. -/
theorem maxindex_ret (env : IndexEnv) (count : Int) (type indices : Nat) (basevertex : Int)
    (hc : 0 < count) (hc1 : count < 2 ^ 31)
    (ht : type = GL_UNSIGNED_BYTE ∨ type = GL_UNSIGNED_SHORT ∨ type = GL_UNSIGNED_INT)
    (hr : Readable env count type indices) :
    (__glDrawElementsBaseVertex_maxindex env count type indices basevertex).ret
      = (scanMax (readLE (indexBytes env indices) (__gl_type_size type)) count
          + toUnsigned basevertex) % 2 ^ 32 := by
  have hc0 : count ≠ 0 := by omega
  have hts := type_size_le type
  have hsz : (toSizeT count * __gl_type_size type) % 2 ^ 64
      = count.toNat * __gl_type_size type := by
    rw [toSizeT_of_nonneg count (by omega) (by omega)]
    have : count.toNat < 2 ^ 31 := by omega
    apply Nat.mod_eq_of_lt
    calc count.toNat * __gl_type_size type ≤ 2 ^ 31 * 8 :=
          Nat.mul_le_mul (by omega) hts
      _ < 2 ^ 64 := by norm_num
  unfold __glDrawElementsBaseVertex_maxindex Readable indexBytes at *
  simp only [hsz]
  rw [if_neg hc0]
  by_cases hb : env.element_array_buffer ≠ 0
  · rw [if_pos hb] at hr ⊢
    rw [if_pos hb]
    obtain ⟨hm, hlen⟩ := hr
    rw [if_neg hm]
    simp only [if_pos hlen]
    rw [scanIndices_known type ht]
  · rw [if_neg hb] at hr ⊢
    rw [if_neg hb, if_neg hr]
    simp only []
    rw [scanIndices_known type ht]

set_option maxRecDepth 100000 in
/-- C3: for `count > 0`, an index type among unsigned byte, unsigned short and unsigned
    int, and a readable sequence of `count` indices (those of the bound element-array
    buffer at the given offset when a buffer is bound, else those of client memory at the
    non-null pointer), `__glDrawElementsBaseVertex_maxindex` returns the maximum of the
    `count` indices plus `basevertex`, modulo `2^32`; it returns 0 when `count` is 0; for
    the unsigned-byte indices 3 1 4 1 5 9 2 6 it returns 9 with `basevertex` 0 and 19 with
    `basevertex` 10, from client memory as from a bound buffer. -/
theorem maxindex_is_max_plus_basevertex (env : IndexEnv) (count : Int) (type indices : Nat)
    (basevertex : Int) (hc : 0 < count) (hc1 : count < 2 ^ 31)
    (ht : type = GL_UNSIGNED_BYTE ∨ type = GL_UNSIGNED_SHORT ∨ type = GL_UNSIGNED_INT)
    (hr : Readable env count type indices) :
    (∃ m, m ∈ indexSeq env count type indices ∧
      (∀ x, x ∈ indexSeq env count type indices → x ≤ m) ∧
      ((__glDrawElementsBaseVertex_maxindex env count type indices basevertex).ret : Int)
        = ((m : Int) + basevertex) % 2 ^ 32) ∧
    (∀ (e : IndexEnv) (t i : Nat) (b : Int),
      (__glDrawElementsBaseVertex_maxindex e 0 t i b).ret = 0) ∧
    (__glDrawElementsBaseVertex_maxindex clientEnv 8 GL_UNSIGNED_BYTE 64 0).ret = 9 ∧
    (__glDrawElementsBaseVertex_maxindex clientEnv 8 GL_UNSIGNED_BYTE 64 10).ret = 19 ∧
    (__glDrawElementsBaseVertex_maxindex bufferEnv 8 GL_UNSIGNED_BYTE 0 0).ret = 9 ∧
    (__glDrawElementsBaseVertex_maxindex bufferEnv 8 GL_UNSIGNED_BYTE 0 10).ret = 19 := by
  refine ⟨?_, ?_, by decide, by decide, by decide, by decide⟩
  · obtain ⟨hb, ha⟩ := scan_fold_spec
      (readLE (indexBytes env indices) (__gl_type_size type)) count.toNat
    obtain ⟨i, hi, hmax⟩ := ha (by omega)
    refine ⟨scanMax (readLE (indexBytes env indices) (__gl_type_size type)) count, ?_, ?_, ?_⟩
    · unfold indexSeq scanMax
      exact List.mem_map.mpr ⟨i, List.mem_range.mpr hi, hmax⟩
    · intro x hx
      unfold indexSeq at hx
      obtain ⟨j, hj, rfl⟩ := List.mem_map.mp hx
      exact hb j (List.mem_range.mp hj)
    · rw [maxindex_ret env count type indices basevertex hc hc1 ht hr]
      exact unsigned_add_int _ _
  · intro e t i b
    unfold __glDrawElementsBaseVertex_maxindex
    simp

set_option maxRecDepth 100000 in
/-- Witness of C3: eight unsigned-byte indices read back from a bound buffer, with
    `basevertex` 10. -/
theorem maxindex_is_max_plus_basevertex_witness :
    Readable bufferEnv 8 GL_UNSIGNED_BYTE 0 ∧
    ∃ m, m ∈ indexSeq bufferEnv 8 GL_UNSIGNED_BYTE 0 ∧
      (∀ x, x ∈ indexSeq bufferEnv 8 GL_UNSIGNED_BYTE 0 → x ≤ m) ∧
      ((__glDrawElementsBaseVertex_maxindex bufferEnv 8 GL_UNSIGNED_BYTE 0 10).ret : Int)
        = ((m : Int) + 10) % 2 ^ 32 :=
  ⟨by decide, (maxindex_is_max_plus_basevertex bufferEnv 8 GL_UNSIGNED_BYTE 0 10 (by decide)
    (by decide) (Or.inl rfl) (by decide)).1⟩

/-! ## Theorems: object identity maps -/

theorem mapFind_mapSet_self (m : PtrMap) (k v : Nat) : mapFind (mapSet m k v) k = some v := by
  induction m with
  | nil => simp [mapSet, mapFind]
  | cons e m ih =>
    obtain ⟨k1, v1⟩ := e
    by_cases h : k1 = k
    · simp [mapSet, mapFind, h]
    · simp [mapSet, mapFind, h, ih]

theorem mapFind_mapSet_ne (m : PtrMap) (k v k2 : Nat) (hne : k2 ≠ k) :
    mapFind (mapSet m k v) k2 = mapFind m k2 := by
  induction m with
  | nil => simp [mapSet, mapFind, Ne.symm hne]
  | cons e m ih =>
    obtain ⟨k1, v1⟩ := e
    by_cases h : k1 = k
    · subst h
      simp [mapSet, mapFind, Ne.symm hne]
    · by_cases h2 : k1 = k2
      · subst h2
        simp [mapSet, mapFind, h]
      · simp [mapSet, mapFind, h, h2, ih]

theorem mapFind_mapErase_ne (m : PtrMap) (k k2 : Nat) (hne : k2 ≠ k) :
    mapFind (mapErase m k) k2 = mapFind m k2 := by
  induction m with
  | nil => simp [mapErase, mapFind]
  | cons e m ih =>
    obtain ⟨k1, v1⟩ := e
    by_cases h : k1 = k
    · subst h
      simp [mapErase, mapFind, Ne.symm hne]
    · by_cases h2 : k1 = k2
      · subst h2
        simp [mapErase, mapFind, h]
      · simp [mapErase, mapFind, h, h2, ih]

theorem mapFind_none_of_not_key (m : PtrMap) (k : Nat) (h : k ∉ m.map Prod.fst) :
    mapFind m k = none := by
  induction m with
  | nil => rfl
  | cons e m ih =>
    obtain ⟨k1, v1⟩ := e
    simp only [List.map_cons, List.mem_cons, not_or] at h
    simp [mapFind, Ne.symm h.1, ih h.2]

theorem mapErase_of_not_found (m : PtrMap) (k : Nat) (h : mapFind m k = none) :
    mapErase m k = m := by
  induction m with
  | nil => rfl
  | cons e m ih =>
    obtain ⟨k1, v1⟩ := e
    by_cases h1 : k1 = k
    · simp [mapFind, h1] at h
    · simp only [mapFind, if_neg h1] at h
      simp [mapErase, h1, ih h]

theorem mapFind_mapErase_self (m : PtrMap) (k : Nat) (hwf : MapWF m) :
    mapFind (mapErase m k) k = none := by
  induction m with
  | nil => rfl
  | cons e m ih =>
    obtain ⟨k1, v1⟩ := e
    unfold MapWF at hwf ih
    simp only [List.map_cons, List.nodup_cons] at hwf
    by_cases h1 : k1 = k
    · subst h1
      simp only [mapErase, if_true]
      exact mapFind_none_of_not_key m k1 hwf.1
    · simp [mapErase, mapFind, h1, ih hwf.2]

theorem length_mapErase (m : PtrMap) (k p : Nat) (h : mapFind m k = some p) :
    (mapErase m k).length + 1 = m.length := by
  induction m with
  | nil => simp [mapFind] at h
  | cons e m ih =>
    obtain ⟨k1, v1⟩ := e
    by_cases h1 : k1 = k
    · simp [mapErase, h1]
    · simp only [mapFind, if_neg h1] at h
      simp [mapErase, h1, ih h]

theorem keys_mapErase_subset (m : PtrMap) (k x : Nat)
    (hx : x ∈ (mapErase m k).map Prod.fst) : x ∈ m.map Prod.fst := by
  induction m with
  | nil => simp [mapErase] at hx
  | cons e m ih =>
    obtain ⟨k1, v1⟩ := e
    by_cases h1 : k1 = k
    · simp only [mapErase, if_pos h1] at hx
      exact List.mem_cons_of_mem _ hx
    · simp only [mapErase, if_neg h1, List.map_cons, List.mem_cons] at hx ⊢
      rcases hx with hx | hx
      · exact Or.inl hx
      · exact Or.inr (ih hx)

theorem mapWF_mapErase (m : PtrMap) (k : Nat) (hwf : MapWF m) : MapWF (mapErase m k) := by
  induction m with
  | nil => exact hwf
  | cons e m ih =>
    obtain ⟨k1, v1⟩ := e
    unfold MapWF at hwf ih ⊢
    simp only [List.map_cons, List.nodup_cons] at hwf
    by_cases h1 : k1 = k
    · simp only [mapErase, if_pos h1]
      exact hwf.2
    · simp only [mapErase, if_neg h1, List.map_cons, List.nodup_cons]
      exact ⟨fun hx => hwf.1 (keys_mapErase_subset m k k1 hx), ih hwf.2⟩

theorem keys_mapSet (m : PtrMap) (k v x : Nat) (hx : x ∈ (mapSet m k v).map Prod.fst) :
    x = k ∨ x ∈ m.map Prod.fst := by
  induction m with
  | nil => simp [mapSet] at hx; exact Or.inl hx
  | cons e m ih =>
    obtain ⟨k1, v1⟩ := e
    by_cases h1 : k1 = k
    · simp only [mapSet, if_pos h1, List.map_cons, List.mem_cons] at hx ⊢
      rcases hx with hx | hx
      · exact Or.inl hx
      · exact Or.inr (Or.inr hx)
    · simp only [mapSet, if_neg h1, List.map_cons, List.mem_cons] at hx ⊢
      rcases hx with hx | hx
      · exact Or.inr (Or.inl hx)
      · rcases ih hx with h | h
        · exact Or.inl h
        · exact Or.inr (Or.inr h)

theorem mapWF_mapSet (m : PtrMap) (k v : Nat) (hwf : MapWF m) : MapWF (mapSet m k v) := by
  induction m with
  | nil => simp [MapWF, mapSet]
  | cons e m ih =>
    obtain ⟨k1, v1⟩ := e
    unfold MapWF at hwf ih ⊢
    simp only [List.map_cons, List.nodup_cons] at hwf
    by_cases h1 : k1 = k
    · subst h1
      simp only [mapSet, if_true, List.map_cons, List.nodup_cons]
      exact hwf
    · simp only [mapSet, if_neg h1, List.map_cons, List.nodup_cons]
      refine ⟨fun hx => ?_, ih hwf.2⟩
      rcases keys_mapSet m k v k1 hx with h | h
      · exact h1 h
      · exact hwf.1 h

/-! ## Theorems: replay engine -/

theorem getDrawable_inMap (s : State) (h : Nat) (hne : getDrawable s h ≠ 0) :
    InMap s.drawable_map (getDrawable s h) := by
  unfold getDrawable at hne ⊢
  by_cases h0 : h = 0
  · simp [h0] at hne
  · rw [if_neg h0] at hne ⊢
    cases hf : mapFind s.drawable_map h with
    | none => simp [hf] at hne
    | some p => exact ⟨h, by simp [hf]⟩

theorem getContext_inMap (s : State) (h : Nat) (hne : getContext s h ≠ 0) :
    InMap s.context_map (getContext s h) := by
  unfold getContext at hne ⊢
  by_cases h0 : h = 0
  · simp [h0] at hne
  · rw [if_neg h0] at hne ⊢
    cases hf : mapFind s.context_map h with
    | none => simp [hf] at hne
    | some p => exact ⟨h, by simp [hf]⟩

theorem inMap_mapSet (m : PtrMap) (h v p : Nat) (hin : InMap m p)
    (hne : mapFind m h ≠ some p) : InMap (mapSet m h v) p := by
  obtain ⟨k, hk⟩ := hin
  have hkh : k ≠ h := fun e => hne (e ▸ hk)
  exact ⟨k, by rw [mapFind_mapSet_ne m h v k hkh, hk]⟩

theorem inMap_mapErase (m : PtrMap) (h p : Nat) (hin : InMap m p)
    (hne : mapFind m h ≠ some p) : InMap (mapErase m h) p := by
  obtain ⟨k, hk⟩ := hin
  have hkh : k ≠ h := fun e => hne (e ▸ hk)
  exact ⟨k, by rw [mapFind_mapErase_ne m h k hkh, hk]⟩

/-- The state `retrace_eglMakeCurrent` leaves. -/
theorem makeCurrent_state (s : State) (draw ctx : Nat) (w : Reply) :
    (retrace_eglMakeCurrent s draw ctx w).state
      = if getDrawable s draw = s.drawable ∧ getContext s ctx = s.context then s
        else if getDrawable s draw ≠ 0 ∧ getContext s ctx ≠ 0 ∧ w.result = true then
          { s with drawable := getDrawable s draw, context := getContext s ctx }
        else { s with drawable := 0, context := 0 } := by
  unfold retrace_eglMakeCurrent
  simp only []
  split_ifs <;> rfl

/-- A call that does not retire the handle of a current resource keeps the current pair
    within the maps. -/
theorem retrace_bindingInv (s : State) (c : Call) (w : Reply) (hinv : BindingInv s)
    (hnr : ¬ Retires s c) : BindingInv (retrace s c w).state := by
  obtain ⟨hd, hc⟩ := hinv
  cases c with
  | eglCreateWindowSurface h =>
    simp only [Retires, not_and] at hnr
    exact ⟨fun h0 => inMap_mapSet _ _ _ _ (hd h0) (hnr h0), hc⟩
  | eglDestroySurface h =>
    simp only [Retires, not_and] at hnr
    cases hf : mapFind s.drawable_map h with
    | none =>
      simp only [retrace, retrace_eglDestroySurface, hf]
      exact ⟨hd, hc⟩
    | some p =>
      simp only [retrace, retrace_eglDestroySurface, hf]
      exact ⟨fun h0 => inMap_mapErase _ _ _ (hd h0) (hnr h0), hc⟩
  | eglBindAPI api => exact ⟨hd, hc⟩
  | eglCreateContext share h =>
    simp only [Retires, not_and] at hnr
    simp only [retrace, retrace_eglCreateContext]
    split_ifs
    · exact ⟨hd, hc⟩
    · exact ⟨hd, fun h0 => inMap_mapSet _ _ _ _ (hc h0) (hnr h0)⟩
  | eglDestroyContext h =>
    simp only [Retires, not_and] at hnr
    cases hf : mapFind s.context_map h with
    | none =>
      simp only [retrace, retrace_eglDestroyContext, hf]
      exact ⟨hd, hc⟩
    | some p =>
      simp only [retrace, retrace_eglDestroyContext, hf]
      exact ⟨hd, fun h0 => inMap_mapErase _ _ _ (hc h0) (hnr h0)⟩
  | eglMakeCurrent draw ctx =>
    simp only [retrace]
    rw [makeCurrent_state]
    split_ifs with h1 h2
    · exact ⟨hd, hc⟩
    · exact ⟨fun _ => getDrawable_inMap s draw h2.1, fun _ => getContext_inMap s ctx h2.2.1⟩
    · exact ⟨fun h0 => absurd rfl h0, fun h0 => absurd rfl h0⟩
  | eglSwapBuffers =>
    simp only [retrace, retrace_eglSwapBuffers]
    split_ifs <;> exact ⟨hd, hc⟩
  | ignored => exact ⟨hd, hc⟩

theorem replay_bindingInv (calls : List (Call × Reply)) :
    ∀ s : State, BindingInv s → KeepsCurrent s calls → BindingInv (replay s calls).state := by
  induction calls with
  | nil => intro s hinv _; exact hinv
  | cons e rest ih =>
    obtain ⟨c, w⟩ := e
    intro s hinv hk
    obtain ⟨hnr, hrest⟩ := hk
    have hstep := retrace_bindingInv s c w hinv hnr
    simp only [replay]
    split_ifs
    · exact ih _ hstep hrest
    · exact hstep

theorem bindingInv_initial (double_buffer : Bool) : BindingInv (initial double_buffer) :=
  ⟨fun h => absurd rfl h, fun h => absurd rfl h⟩

/-- C4 (as amended): in every state reachable from the initial state by a sequence of
    recorded calls none of which destroys, or re-binds by a create, the handle whose map
    entry holds the then-current drawable or context, the current drawable, if non-null, is
    the value of some entry of the drawable map and the current context, if non-null, the
    value of some entry of the context map. -/
theorem current_pair_in_maps (double_buffer : Bool) (calls : List (Call × Reply))
    (hk : KeepsCurrent (initial double_buffer) calls) :
    BindingInv (replay (initial double_buffer) calls).state :=
  replay_bindingInv calls _ (bindingInv_initial double_buffer) hk

/-- Witness of C4 (as amended): surface 1 and context 2 made current, a swap, the destroy
    of an unknown surface and of a context that is not current. -/
theorem current_pair_in_maps_witness :
    KeepsCurrent (initial true)
      (setupCalls ++ [(Call.eglSwapBuffers, noReply), (Call.eglDestroySurface 7, noReply),
        (Call.eglCreateContext 2 3, { ptr := 300, result := false }),
        (Call.eglDestroyContext 3, noReply)]) ∧
    BindingInv (replay (initial true)
      (setupCalls ++ [(Call.eglSwapBuffers, noReply), (Call.eglDestroySurface 7, noReply),
        (Call.eglCreateContext 2 3, { ptr := 300, result := false }),
        (Call.eglDestroyContext 3, noReply)])).state :=
  ⟨by decide, current_pair_in_maps true _ (by decide)⟩

/-- Counterexample to C4 as worded: after surface 1 (live pointer 100) and context 2 are
    made current, the destroy of surface 1 leaves the current drawable 100 while the
    drawable map is empty. -/
theorem current_drawable_outlives_entry :
    (replay (initial true) (setupCalls ++ [(Call.eglDestroySurface 1, noReply)])).outcome
      = Outcome.ok ∧
    (replay (initial true) (setupCalls ++ [(Call.eglDestroySurface 1, noReply)])).state.drawable
      = 100 ∧
    (replay (initial true)
      (setupCalls ++ [(Call.eglDestroySurface 1, noReply)])).state.drawable_map = [] ∧
    ¬ BindingInv (replay (initial true)
      (setupCalls ++ [(Call.eglDestroySurface 1, noReply)])).state := by
  have hs : (replay (initial true) (setupCalls ++ [(Call.eglDestroySurface 1, noReply)])).state
      = { boundState true with drawable_map := [], live_drawables := [] } := by decide
  refine ⟨by decide, by decide, by decide, ?_⟩
  rw [hs]
  rintro ⟨hd, _⟩
  obtain ⟨k, hk⟩ := hd (by decide)
  simp [mapFind] at hk

/-- A property every handler preserves holds after any replay. -/
theorem replay_invariant (P : State → Prop)
    (hstep : ∀ (s : State) (c : Call) (w : Reply), P s → P (retrace s c w).state)
    (calls : List (Call × Reply)) : ∀ s : State, P s → P (replay s calls).state := by
  induction calls with
  | nil => intro s h; exact h
  | cons e rest ih =>
    obtain ⟨c, w⟩ := e
    intro s h
    simp only [replay]
    split_ifs
    · exact ih _ (hstep s c w h)
    · exact hstep s c w h

/-- Only make-current writes the current pair. -/
theorem retrace_pair_unchanged (s : State) (c : Call) (w : Reply)
    (hc : ∀ draw ctx, c ≠ Call.eglMakeCurrent draw ctx) :
    (retrace s c w).state.drawable = s.drawable ∧
    (retrace s c w).state.context = s.context := by
  cases c with
  | eglCreateWindowSurface h => exact ⟨rfl, rfl⟩
  | eglDestroySurface h =>
    simp only [retrace, retrace_eglDestroySurface]
    cases mapFind s.drawable_map h <;> exact ⟨rfl, rfl⟩
  | eglBindAPI api => exact ⟨rfl, rfl⟩
  | eglCreateContext share h =>
    simp only [retrace, retrace_eglCreateContext]
    split_ifs <;> exact ⟨rfl, rfl⟩
  | eglDestroyContext h =>
    simp only [retrace, retrace_eglDestroyContext]
    cases mapFind s.context_map h <;> exact ⟨rfl, rfl⟩
  | eglMakeCurrent draw ctx => exact absurd rfl (hc draw ctx)
  | eglSwapBuffers =>
    simp only [retrace, retrace_eglSwapBuffers]
    split_ifs <;> exact ⟨rfl, rfl⟩
  | ignored => exact ⟨rfl, rfl⟩

theorem retrace_pair_iff (s : State) (c : Call) (w : Reply)
    (h : s.drawable = 0 ↔ s.context = 0) :
    (retrace s c w).state.drawable = 0 ↔ (retrace s c w).state.context = 0 := by
  by_cases hc : ∃ draw ctx, c = Call.eglMakeCurrent draw ctx
  · obtain ⟨draw, ctx, rfl⟩ := hc
    simp only [retrace]
    rw [makeCurrent_state]
    split_ifs with h1 h2
    · exact h
    · exact ⟨fun e => absurd e h2.1, fun e => absurd e h2.2.1⟩
    · exact ⟨fun _ => rfl, fun _ => rfl⟩
  · have hc1 : ∀ draw ctx, c ≠ Call.eglMakeCurrent draw ctx :=
      fun draw ctx e => hc ⟨draw, ctx, e⟩
    obtain ⟨e1, e2⟩ := retrace_pair_unchanged s c w hc1
    rw [e1, e2]
    exact h

/-- C5: after a make-current call whose resolved pair differs from the current pair, the
    current pair is the resolved pair if both resources are non-null and the live
    make-current succeeded, and (null, null) otherwise; in every reachable state the
    current drawable is null if and only if the current context is null. -/
theorem current_pair_never_half_valid :
    (∀ (s : State) (draw ctx : Nat) (w : Reply),
      ¬ (getDrawable s draw = s.drawable ∧ getContext s ctx = s.context) →
      ((getDrawable s draw ≠ 0 ∧ getContext s ctx ≠ 0 ∧ w.result = true) →
        (retrace s (Call.eglMakeCurrent draw ctx) w).state.drawable = getDrawable s draw ∧
        (retrace s (Call.eglMakeCurrent draw ctx) w).state.context = getContext s ctx) ∧
      (¬ (getDrawable s draw ≠ 0 ∧ getContext s ctx ≠ 0 ∧ w.result = true) →
        (retrace s (Call.eglMakeCurrent draw ctx) w).state.drawable = 0 ∧
        (retrace s (Call.eglMakeCurrent draw ctx) w).state.context = 0)) ∧
    (∀ (double_buffer : Bool) (calls : List (Call × Reply)),
      (replay (initial double_buffer) calls).state.drawable = 0 ↔
      (replay (initial double_buffer) calls).state.context = 0) := by
  constructor
  · intro s draw ctx w hdiff
    simp only [retrace]
    rw [makeCurrent_state, if_neg hdiff]
    constructor
    · intro h
      rw [if_pos h]
      exact ⟨rfl, rfl⟩
    · intro h
      rw [if_neg h]
      exact ⟨rfl, rfl⟩
  · intro double_buffer calls
    exact replay_invariant (fun s => s.drawable = 0 ↔ s.context = 0) retrace_pair_iff calls
      (initial double_buffer) ⟨fun _ => rfl, fun _ => rfl⟩

/-- Witness of C5: from the initial state with surface 1 and context 2 created, a
    successful make-current installs the pair (100, 200), a failing one (null, null). -/
theorem current_pair_never_half_valid_witness :
    ((retrace (replay (initial true) (setupCalls.take 3)).state (Call.eglMakeCurrent 1 2)
        { ptr := 0, result := true }).state.drawable = 100 ∧
      (retrace (replay (initial true) (setupCalls.take 3)).state (Call.eglMakeCurrent 1 2)
        { ptr := 0, result := true }).state.context = 200) ∧
    ((retrace (boundState true) (Call.eglMakeCurrent 1 7)
        { ptr := 0, result := true }).state.drawable = 0 ∧
      (retrace (boundState true) (Call.eglMakeCurrent 1 7)
        { ptr := 0, result := true }).state.context = 0) :=
  ⟨(current_pair_never_half_valid.1 (replay (initial true) (setupCalls.take 3)).state 1 2
      { ptr := 0, result := true } (by decide)).1 (by decide),
   (current_pair_never_half_valid.1 (boundState true) 1 7
      { ptr := 0, result := true } (by decide)).2 (by decide)⟩

/-- Make-current leaves the maps, the API and the buffering mode as they are. -/
theorem makeCurrent_lookup (s : State) (draw ctx : Nat) (w : Reply) (d c : Nat) :
    getDrawable (retrace_eglMakeCurrent s draw ctx w).state d = getDrawable s d ∧
    getContext (retrace_eglMakeCurrent s draw ctx w).state c = getContext s c := by
  rw [makeCurrent_state]
  split_ifs <;> exact ⟨rfl, rfl⟩

/-- A make-current whose resolved pair is the current pair does nothing. -/
theorem makeCurrent_same_pair (s : State) (draw ctx : Nat) (w : Reply)
    (h : getDrawable s draw = s.drawable ∧ getContext s ctx = s.context) :
    retrace_eglMakeCurrent s draw ctx w = { state := s, effects := [], outcome := Outcome.ok } := by
  unfold retrace_eglMakeCurrent
  simp only []
  rw [if_pos h]

/-- C6 (as amended): a make-current whose resolved pair is identical to the current pair
    is a no-op (no action at all, state unchanged). Of two make-current calls in a row
    with the same handles the second emits no flush and no frame-complete signal, and it
    is a no-op whenever the first left the resolved pair current, in particular when the
    first succeeded with both resources non-null. -/
theorem make_current_same_pair_is_noop :
    (∀ (s : State) (draw ctx : Nat) (w : Reply),
      getDrawable s draw = s.drawable ∧ getContext s ctx = s.context →
      retrace s (Call.eglMakeCurrent draw ctx) w
        = { state := s, effects := [], outcome := Outcome.ok }) ∧
    (∀ (s : State) (draw ctx : Nat) (w1 w2 : Reply),
      Effect.glFlush ∉ (retrace (retrace s (Call.eglMakeCurrent draw ctx) w1).state
        (Call.eglMakeCurrent draw ctx) w2).effects ∧
      Effect.frame_complete ∉ (retrace (retrace s (Call.eglMakeCurrent draw ctx) w1).state
        (Call.eglMakeCurrent draw ctx) w2).effects) ∧
    (∀ (s : State) (draw ctx : Nat) (w1 w2 : Reply),
      ((retrace s (Call.eglMakeCurrent draw ctx) w1).state.drawable = getDrawable s draw ∧
        (retrace s (Call.eglMakeCurrent draw ctx) w1).state.context = getContext s ctx) →
      retrace (retrace s (Call.eglMakeCurrent draw ctx) w1).state
          (Call.eglMakeCurrent draw ctx) w2
        = { state := (retrace s (Call.eglMakeCurrent draw ctx) w1).state, effects := [],
            outcome := Outcome.ok }) ∧
    (∀ (s : State) (draw ctx : Nat) (w1 w2 : Reply),
      getDrawable s draw ≠ 0 ∧ getContext s ctx ≠ 0 ∧ w1.result = true →
      retrace (retrace s (Call.eglMakeCurrent draw ctx) w1).state
          (Call.eglMakeCurrent draw ctx) w2
        = { state := (retrace s (Call.eglMakeCurrent draw ctx) w1).state, effects := [],
            outcome := Outcome.ok }) := by
  have hnoop : ∀ (s : State) (draw ctx : Nat) (w1 w2 : Reply),
      ((retrace s (Call.eglMakeCurrent draw ctx) w1).state.drawable = getDrawable s draw ∧
        (retrace s (Call.eglMakeCurrent draw ctx) w1).state.context = getContext s ctx) →
      retrace (retrace s (Call.eglMakeCurrent draw ctx) w1).state
          (Call.eglMakeCurrent draw ctx) w2
        = { state := (retrace s (Call.eglMakeCurrent draw ctx) w1).state, effects := [],
            outcome := Outcome.ok } := by
    intro s draw ctx w1 w2 h
    simp only [retrace] at h ⊢
    apply makeCurrent_same_pair
    obtain ⟨l1, l2⟩ := makeCurrent_lookup s draw ctx w1 draw ctx
    rw [l1, l2]
    exact ⟨h.1.symm, h.2.symm⟩
  refine ⟨?_, ?_, hnoop, ?_⟩
  · intro s draw ctx w h
    simp only [retrace]
    exact makeCurrent_same_pair s draw ctx w h
  · intro s draw ctx w1 w2
    by_cases hsame : (retrace s (Call.eglMakeCurrent draw ctx) w1).state.drawable
        = getDrawable s draw ∧
        (retrace s (Call.eglMakeCurrent draw ctx) w1).state.context = getContext s ctx
    · rw [hnoop s draw ctx w1 w2 hsame]
      simp
    · have hnull : (retrace s (Call.eglMakeCurrent draw ctx) w1).state.drawable = 0 := by
        simp only [retrace] at hsame ⊢
        rw [makeCurrent_state] at hsame ⊢
        split_ifs at hsame ⊢ with h1 h2
        · exact absurd ⟨h1.1.symm, h1.2.symm⟩ hsame
        · exact absurd ⟨rfl, rfl⟩ hsame
        · rfl
      generalize (retrace s (Call.eglMakeCurrent draw ctx) w1).state = s1 at hnull
      have hb : ¬ (s1.drawable ≠ 0 ∧ s1.context ≠ 0) := fun h => h.1 hnull
      simp only [retrace, retrace_eglMakeCurrent, if_neg hb]
      split_ifs <;> simp
  · intro s draw ctx w1 w2 h
    apply hnoop
    simp only [retrace]
    rw [makeCurrent_state]
    split_ifs with h1
    · exact ⟨h1.1.symm, h1.2.symm⟩
    · exact ⟨rfl, rfl⟩

/-- Witness of C6 (as amended): a second make-current of surface 1 and context 2, right
    after a successful one, does nothing. -/
theorem make_current_same_pair_is_noop_witness :
    retrace (retrace (unboundState false) (Call.eglMakeCurrent 1 2)
        { ptr := 0, result := true }).state (Call.eglMakeCurrent 1 2)
        { ptr := 0, result := true }
      = { state := (retrace (unboundState false) (Call.eglMakeCurrent 1 2)
            { ptr := 0, result := true }).state, effects := [], outcome := Outcome.ok } :=
  make_current_same_pair_is_noop.2.2.2 (unboundState false) 1 2 { ptr := 0, result := true }
    { ptr := 0, result := true } (by decide)

/-- Counterexample to C6 as worded: when the live make-current of the first call fails,
    the second call with the same handles is not a no-op; it invokes the live make-current
    again and, when that succeeds, changes the current pair. -/
theorem make_current_retried_after_failure :
    (retrace (unboundState false) (Call.eglMakeCurrent 1 2) { ptr := 0, result := false }).state
      = unboundState false ∧
    (retrace (retrace (unboundState false) (Call.eglMakeCurrent 1 2)
        { ptr := 0, result := false }).state (Call.eglMakeCurrent 1 2)
        { ptr := 0, result := true }).effects = [Effect.makeCurrent 100 200] ∧
    (retrace (retrace (unboundState false) (Call.eglMakeCurrent 1 2)
        { ptr := 0, result := false }).state (Call.eglMakeCurrent 1 2)
        { ptr := 0, result := true }).state
      ≠ (retrace (unboundState false) (Call.eglMakeCurrent 1 2)
        { ptr := 0, result := false }).state := by
  decide

/-- C7: swap-buffers emits the frame-complete signal first and then exactly one further
    action, the live buffer swap through the current drawable on a double-buffered
    surface, a flush on a single-buffered one, where the live swap is never invoked; the
    current pair, both maps and the rest of the state are unchanged. -/
theorem swap_buffers_actions (s : State) (w : Reply) :
    (retrace s Call.eglSwapBuffers w).state = s ∧
    (∃ a, (retrace s Call.eglSwapBuffers w).effects = [Effect.frame_complete, a] ∧
      a ≠ Effect.frame_complete) ∧
    (s.double_buffer = true →
      (retrace s Call.eglSwapBuffers w).effects
        = [Effect.frame_complete, Effect.swapBuffers s.drawable]) ∧
    (s.double_buffer = false →
      (retrace s Call.eglSwapBuffers w).effects = [Effect.frame_complete, Effect.glFlush] ∧
      ∀ d, Effect.swapBuffers d ∉ (retrace s Call.eglSwapBuffers w).effects) := by
  simp only [retrace, retrace_eglSwapBuffers]
  cases hdb : s.double_buffer <;> simp

/-- Witness of C7: in single-buffered mode a swap with surface 1 and context 2 current
    is a frame-complete signal followed by a flush; in double-buffered mode it is followed
    by the swap of drawable 100. -/
theorem swap_buffers_actions_witness :
    ((retrace (boundState false) Call.eglSwapBuffers noReply).effects
        = [Effect.frame_complete, Effect.glFlush] ∧
      ∀ d, Effect.swapBuffers d ∉ (retrace (boundState false) Call.eglSwapBuffers noReply).effects) ∧
    (retrace (boundState true) Call.eglSwapBuffers noReply).effects
      = [Effect.frame_complete, Effect.swapBuffers 100] :=
  ⟨(swap_buffers_actions (boundState false) noReply).2.2.2 rfl,
   (swap_buffers_actions (boundState true) noReply).2.2.1 rfl⟩

/-- The API token each handler leaves. -/
theorem retrace_current_api (s : State) (c : Call) (w : Reply) :
    (retrace s c w).state.current_api
      = match c with
        | Call.eglBindAPI api => api
        | _ => s.current_api := by
  cases c with
  | eglCreateWindowSurface h => rfl
  | eglDestroySurface h =>
    simp only [retrace, retrace_eglDestroySurface]
    cases mapFind s.drawable_map h <;> rfl
  | eglBindAPI api => rfl
  | eglCreateContext share h =>
    simp only [retrace, retrace_eglCreateContext]
    split_ifs <;> rfl
  | eglDestroyContext h =>
    simp only [retrace, retrace_eglDestroyContext]
    cases mapFind s.context_map h <;> rfl
  | eglMakeCurrent draw ctx =>
    simp only [retrace]
    rw [makeCurrent_state]
    split_ifs <;> rfl
  | eglSwapBuffers =>
    simp only [retrace, retrace_eglSwapBuffers]
    split_ifs <;> rfl
  | ignored => rfl

/-- After a replay that ended normally `current_api` is the token of the most recent Bind
    API call, or the value it had at the start when there was none. -/
theorem replay_current_api (calls : List (Call × Reply)) :
    ∀ s : State, (replay s calls).outcome = Outcome.ok →
      (replay s calls).state.current_api = lastBindAPI calls s.current_api := by
  induction calls with
  | nil => intro s _; rfl
  | cons e rest ih =>
    obtain ⟨c, w⟩ := e
    intro s hok
    simp only [replay] at hok ⊢
    split_ifs at hok ⊢ with h1
    · have h2 := ih (retrace s c w).state hok
      rw [retrace_current_api] at h2
      cases c <;> exact h2
    · exact absurd hok h1

/-- C8: create-context fails fatally if and only if `current_api` is not
    `EGL_OPENGL_API` (0x30A2), where `current_api` is the token of the most recent Bind
    API call, or its initial value when no Bind API call preceded; when it fails, no
    live context is created and the state, hence the context map, is unchanged; processed
    from the initial state, before any Bind API call, it fails fatally. -/
theorem create_context_aborts_unless_opengl :
    EGL_OPENGL_API = 0x30A2 ∧
    (∀ (s : State) (share ret : Nat) (w : Reply),
      ((retrace s (Call.eglCreateContext share ret) w).outcome = Outcome.aborted ↔
        s.current_api ≠ EGL_OPENGL_API) ∧
      ((retrace s (Call.eglCreateContext share ret) w).outcome = Outcome.ok ↔
        s.current_api = EGL_OPENGL_API) ∧
      (s.current_api ≠ EGL_OPENGL_API →
        (retrace s (Call.eglCreateContext share ret) w).state = s ∧
        (retrace s (Call.eglCreateContext share ret) w).effects
          = [Effect.warning, Effect.abort])) ∧
    (∀ (s : State) (api : Nat) (w : Reply),
      (retrace s (Call.eglBindAPI api) w).state.current_api = api) ∧
    (∀ (double_buffer : Bool) (calls : List (Call × Reply)) (share ret : Nat) (w : Reply),
      (replay (initial double_buffer) calls).outcome = Outcome.ok →
      ((retrace (replay (initial double_buffer) calls).state
          (Call.eglCreateContext share ret) w).outcome = Outcome.aborted ↔
        lastBindAPI calls EGL_OPENGL_ES_API ≠ EGL_OPENGL_API)) ∧
    (∀ (double_buffer : Bool) (share ret : Nat) (w : Reply),
      retrace (initial double_buffer) (Call.eglCreateContext share ret) w
        = { state := initial double_buffer, effects := [Effect.warning, Effect.abort],
            outcome := Outcome.aborted }) := by
  have hstep : ∀ (s : State) (share ret : Nat) (w : Reply),
      ((retrace s (Call.eglCreateContext share ret) w).outcome = Outcome.aborted ↔
        s.current_api ≠ EGL_OPENGL_API) := by
    intro s share ret w
    simp only [retrace, retrace_eglCreateContext]
    by_cases h : s.current_api = EGL_OPENGL_API <;> simp [h]
  refine ⟨rfl, ?_, fun _ _ _ => rfl, ?_, ?_⟩
  · intro s share ret w
    refine ⟨hstep s share ret w, ?_, ?_⟩
    · simp only [retrace, retrace_eglCreateContext]
      by_cases h : s.current_api = EGL_OPENGL_API <;> simp [h]
    · intro h
      simp [retrace, retrace_eglCreateContext, h]
  · intro double_buffer calls share ret w hok
    rw [hstep, replay_current_api calls (initial double_buffer) hok]
    rfl
  · intro double_buffer share ret w
    rfl

/-- Witness of C8: after a replay that binds the OpenGL ES API and then the desktop-GL API
    a create-context does not abort; after one that binds desktop GL and then ES it does. -/
theorem create_context_aborts_unless_opengl_witness :
    (retrace (replay (initial true)
        [(Call.eglBindAPI EGL_OPENGL_ES_API, noReply), (Call.eglBindAPI EGL_OPENGL_API, noReply)]).state
        (Call.eglCreateContext 0 2) { ptr := 200, result := false }).outcome ≠ Outcome.aborted ∧
    (retrace (replay (initial true)
        [(Call.eglBindAPI EGL_OPENGL_API, noReply), (Call.eglBindAPI EGL_OPENGL_ES_API, noReply)]).state
        (Call.eglCreateContext 0 2) { ptr := 200, result := false }).outcome = Outcome.aborted :=
  ⟨fun h => ((create_context_aborts_unless_opengl.2.2.2.1 true _ 0 2 _ (by decide)).mp h)
      (by decide),
   (create_context_aborts_unless_opengl.2.2.2.1 true _ 0 2 _ (by decide)).mpr (by decide)⟩

/-- C9: destroy-surface / destroy-context for a recorded handle without a map entry is a
    no-op (no error, nothing destroyed, state and so the map and its size unchanged); for a
    handle with an entry it destroys exactly that entry's live resource and removes exactly
    that entry (the handle has no entry afterwards, every other handle keeps its entry, the
    size drops by one, the deleted drawable is no live object any more, nothing else
    changes); processing the same destroy twice leaves the
    state that processing it once leaves, the second being a no-op. -/
theorem destroy_retires_exactly_one_entry (s : State) (h : Nat) (w w2 : Reply)
    (hd : MapWF s.drawable_map) (hc : MapWF s.context_map) :
    (mapFind s.drawable_map h = none →
      retrace s (Call.eglDestroySurface h) w
        = { state := s, effects := [], outcome := Outcome.ok }) ∧
    (∀ p, mapFind s.drawable_map h = some p →
      (retrace s (Call.eglDestroySurface h) w).effects = [Effect.deleteDrawable p] ∧
      (retrace s (Call.eglDestroySurface h) w).outcome = Outcome.ok ∧
      (retrace s (Call.eglDestroySurface h) w).state
        = { s with drawable_map := mapErase s.drawable_map h,
                   live_drawables := heapDelete s.live_drawables p } ∧
      mapFind (retrace s (Call.eglDestroySurface h) w).state.drawable_map h = none ∧
      (∀ k, k ≠ h → mapFind (retrace s (Call.eglDestroySurface h) w).state.drawable_map k
        = mapFind s.drawable_map k) ∧
      (retrace s (Call.eglDestroySurface h) w).state.drawable_map.length + 1
        = s.drawable_map.length) ∧
    retrace (retrace s (Call.eglDestroySurface h) w).state (Call.eglDestroySurface h) w2
      = { state := (retrace s (Call.eglDestroySurface h) w).state, effects := [],
          outcome := Outcome.ok } ∧
    (mapFind s.context_map h = none →
      retrace s (Call.eglDestroyContext h) w
        = { state := s, effects := [], outcome := Outcome.ok }) ∧
    (∀ p, mapFind s.context_map h = some p →
      (retrace s (Call.eglDestroyContext h) w).effects = [Effect.deleteContext p] ∧
      (retrace s (Call.eglDestroyContext h) w).outcome = Outcome.ok ∧
      (retrace s (Call.eglDestroyContext h) w).state
        = { s with context_map := mapErase s.context_map h } ∧
      mapFind (retrace s (Call.eglDestroyContext h) w).state.context_map h = none ∧
      (∀ k, k ≠ h → mapFind (retrace s (Call.eglDestroyContext h) w).state.context_map k
        = mapFind s.context_map k) ∧
      (retrace s (Call.eglDestroyContext h) w).state.context_map.length + 1
        = s.context_map.length) ∧
    retrace (retrace s (Call.eglDestroyContext h) w).state (Call.eglDestroyContext h) w2
      = { state := (retrace s (Call.eglDestroyContext h) w).state, effects := [],
          outcome := Outcome.ok } := by
  have s1 : mapFind s.drawable_map h = none →
      retrace s (Call.eglDestroySurface h) w
        = { state := s, effects := [], outcome := Outcome.ok } := by
    intro hf
    simp only [retrace, retrace_eglDestroySurface, hf]
  have c1 : mapFind s.context_map h = none →
      retrace s (Call.eglDestroyContext h) w
        = { state := s, effects := [], outcome := Outcome.ok } := by
    intro hf
    simp only [retrace, retrace_eglDestroyContext, hf]
  refine ⟨s1, ?_, ?_, c1, ?_, ?_⟩
  · intro p hf
    simp only [retrace, retrace_eglDestroySurface, hf]
    exact ⟨trivial, trivial, trivial, mapFind_mapErase_self _ _ hd,
      fun k hk => mapFind_mapErase_ne _ _ _ hk, length_mapErase _ _ _ hf⟩
  · cases hf : mapFind s.drawable_map h with
    | none =>
      rw [s1 hf]
      simp only [retrace, retrace_eglDestroySurface, hf]
    | some p =>
      have e := mapFind_mapErase_self s.drawable_map h hd
      simp only [retrace, retrace_eglDestroySurface, hf, e]
  · intro p hf
    simp only [retrace, retrace_eglDestroyContext, hf]
    exact ⟨trivial, trivial, trivial, mapFind_mapErase_self _ _ hc,
      fun k hk => mapFind_mapErase_ne _ _ _ hk, length_mapErase _ _ _ hf⟩
  · cases hf : mapFind s.context_map h with
    | none =>
      rw [c1 hf]
      simp only [retrace, retrace_eglDestroyContext, hf]
    | some p =>
      have e := mapFind_mapErase_self s.context_map h hc
      simp only [retrace, retrace_eglDestroyContext, hf, e]

/-- Every replay leaves maps in which each key occurs once. -/
theorem replay_mapWF (calls : List (Call × Reply)) (s : State)
    (h : MapWF s.drawable_map ∧ MapWF s.context_map) :
    MapWF (replay s calls).state.drawable_map ∧ MapWF (replay s calls).state.context_map := by
  refine replay_invariant (fun s => MapWF s.drawable_map ∧ MapWF s.context_map) ?_ calls s h
  intro s c w hs
  obtain ⟨hd, hc⟩ := hs
  cases c with
  | eglCreateWindowSurface h => exact ⟨mapWF_mapSet _ _ _ hd, hc⟩
  | eglDestroySurface h =>
    simp only [retrace, retrace_eglDestroySurface]
    cases mapFind s.drawable_map h with
    | none => exact ⟨hd, hc⟩
    | some p => exact ⟨mapWF_mapErase _ _ hd, hc⟩
  | eglBindAPI api => exact ⟨hd, hc⟩
  | eglCreateContext share h =>
    simp only [retrace, retrace_eglCreateContext]
    split_ifs
    · exact ⟨hd, hc⟩
    · exact ⟨hd, mapWF_mapSet _ _ _ hc⟩
  | eglDestroyContext h =>
    simp only [retrace, retrace_eglDestroyContext]
    cases mapFind s.context_map h with
    | none => exact ⟨hd, hc⟩
    | some p => exact ⟨hd, mapWF_mapErase _ _ hc⟩
  | eglMakeCurrent draw ctx =>
    simp only [retrace]
    rw [makeCurrent_state]
    split_ifs <;> exact ⟨hd, hc⟩
  | eglSwapBuffers =>
    simp only [retrace, retrace_eglSwapBuffers]
    split_ifs <;> exact ⟨hd, hc⟩
  | ignored => exact ⟨hd, hc⟩

/-- Witness of C9: with surface 1 and context 2 bound, the destroy of surface 1 deletes
    drawable 100 and empties the drawable map, and the destroy of the unknown context 1
    does nothing. -/
theorem destroy_retires_exactly_one_entry_witness :
    MapWF (boundState true).drawable_map ∧ MapWF (boundState true).context_map ∧
    ((retrace (boundState true) (Call.eglDestroySurface 1) noReply).effects
        = [Effect.deleteDrawable 100] ∧
      (retrace (boundState true) (Call.eglDestroySurface 1) noReply).state.drawable_map = []) ∧
    retrace (boundState true) (Call.eglDestroyContext 1) noReply
      = { state := boundState true, effects := [], outcome := Outcome.ok } :=
  ⟨by decide, by decide,
    ⟨((destroy_retires_exactly_one_entry (boundState true) 1 noReply noReply (by decide)
        (by decide)).2.1 100 (by decide)).1, by decide⟩,
    (destroy_retires_exactly_one_entry (boundState true) 1 noReply noReply (by decide)
      (by decide)).2.2.2.1 (by decide)⟩

theorem getDrawable_mapSet_self (s : State) (h v : Nat) (h0 : h ≠ 0) :
    getDrawable { s with drawable_map := mapSet s.drawable_map h v } h = v := by
  unfold getDrawable
  simp only [if_neg h0, mapFind_mapSet_self]

theorem getDrawable_mapSet_ne (s : State) (h v k : Nat) (hk : k ≠ h) :
    getDrawable { s with drawable_map := mapSet s.drawable_map h v } k = getDrawable s k := by
  unfold getDrawable
  simp only [mapFind_mapSet_ne _ _ _ _ hk]

theorem getContext_mapSet_self (s : State) (h v : Nat) (h0 : h ≠ 0) :
    getContext { s with context_map := mapSet s.context_map h v } h = v := by
  unfold getContext
  simp only [if_neg h0, mapFind_mapSet_self]

theorem getContext_mapSet_ne (s : State) (h v k : Nat) (hk : k ≠ h) :
    getContext { s with context_map := mapSet s.context_map h v } k = getContext s k := by
  unfold getContext
  simp only [mapFind_mapSet_ne _ _ _ _ hk]

/-- C10: after a create-window-surface call (or a create-context call under the desktop-GL
    API) whose recorded return handle is `h`, looking up `h` yields the newly created live
    resource when `h` is non-zero, whatever was bound under `h` before, and the lookup of
    every other handle is unchanged; looking up handle 0 yields none (the null pointer) in
    every state, even directly after a create call whose recorded return handle was 0,
    which does store an entry under 0. -/
theorem create_binds_returned_handle (s : State) (h share : Nat) (w : Reply) :
    (retrace s (Call.eglCreateWindowSurface h) w).effects = [Effect.createDrawable w.ptr] ∧
    (h ≠ 0 → getDrawable (retrace s (Call.eglCreateWindowSurface h) w).state h = w.ptr) ∧
    (∀ k, k ≠ h →
      getDrawable (retrace s (Call.eglCreateWindowSurface h) w).state k = getDrawable s k) ∧
    (∀ k, getContext (retrace s (Call.eglCreateWindowSurface h) w).state k = getContext s k) ∧
    (s.current_api = EGL_OPENGL_API →
      (retrace s (Call.eglCreateContext share h) w).effects
        = [Effect.createContext (getContext s share) w.ptr] ∧
      (h ≠ 0 → getContext (retrace s (Call.eglCreateContext share h) w).state h = w.ptr) ∧
      (∀ k, k ≠ h →
        getContext (retrace s (Call.eglCreateContext share h) w).state k = getContext s k) ∧
      (∀ k, getDrawable (retrace s (Call.eglCreateContext share h) w).state k
        = getDrawable s k)) ∧
    getDrawable s 0 = 0 ∧ getContext s 0 = 0 ∧
    (mapFind (retrace s (Call.eglCreateWindowSurface 0) w).state.drawable_map 0 = some w.ptr ∧
      getDrawable (retrace s (Call.eglCreateWindowSurface 0) w).state 0 = 0) ∧
    (s.current_api = EGL_OPENGL_API →
      mapFind (retrace s (Call.eglCreateContext share 0) w).state.context_map 0 = some w.ptr ∧
      getContext (retrace s (Call.eglCreateContext share 0) w).state 0 = 0) := by
  refine ⟨rfl, fun h0 => getDrawable_mapSet_self s h w.ptr h0,
    fun k hk => getDrawable_mapSet_ne s h w.ptr k hk, fun _ => rfl, ?_, ?_, ?_, ?_, ?_⟩
  · intro hapi
    have hn : ¬ s.current_api ≠ EGL_OPENGL_API := fun hne => hne hapi
    simp only [retrace, retrace_eglCreateContext, if_neg hn]
    exact ⟨trivial, fun h0 => getContext_mapSet_self s h w.ptr h0,
      fun k hk => getContext_mapSet_ne s h w.ptr k hk, fun _ => rfl⟩
  · simp [getDrawable]
  · simp [getContext]
  · exact ⟨mapFind_mapSet_self _ _ _, by simp [getDrawable]⟩
  · intro hapi
    have hn : ¬ s.current_api ≠ EGL_OPENGL_API := fun hne => hne hapi
    simp only [retrace, retrace_eglCreateContext, if_neg hn]
    exact ⟨mapFind_mapSet_self _ _ _, by simp [getContext]⟩

/-- Witness of C10: with surface 1 and context 2 bound under the desktop-GL API, a create
    call returning handle 2 re-binds context 2 to the new live context 300 and a create
    call returning surface handle 5 binds the new drawable, leaving handle 1 as it was. -/
theorem create_binds_returned_handle_witness :
    getContext (retrace (boundState true) (Call.eglCreateContext 0 2)
      { ptr := 300, result := false }).state 2 = 300 ∧
    getDrawable (retrace (boundState true) (Call.eglCreateWindowSurface 5)
      { ptr := 300, result := false }).state 5 = 300 ∧
    getDrawable (retrace (boundState true) (Call.eglCreateWindowSurface 5)
      { ptr := 300, result := false }).state 1 = 100 :=
  ⟨((create_binds_returned_handle (boundState true) 2 0 { ptr := 300, result := false }).2.2.2.2.1
      (by decide)).2.1 (by decide),
   (create_binds_returned_handle (boundState true) 5 0 { ptr := 300, result := false }).2.1
      (by decide),
   ((create_binds_returned_handle (boundState true) 5 0 { ptr := 300, result := false }).2.2.1 1
      (by decide)).trans (by decide)⟩

/-! ## Theorems: strided arrays and draw-call max-index -/

theorem toSizeT_cast (x : Int) : ((toSizeT x : Nat) : Int) = x % 2 ^ 64 := by
  unfold toSizeT
  exact Int.toNat_of_nonneg (Int.emod_nonneg x (by norm_num))

theorem toUnsigned_cast (x : Int) : ((toUnsigned x : Nat) : Int) = x % 2 ^ 32 := by
  unfold toUnsigned
  exact Int.toNat_of_nonneg (Int.emod_nonneg x (by norm_num))

/-- The `size_t` product `size * __gl_type_size(type)`, as an integer. -/
theorem elementSize_cast (size : Int) (ts : Nat) :
    (((toSizeT size * ts) % 2 ^ 64 : Nat) : Int) = (size * ts) % 2 ^ 64 := by
  have h : ∀ n : Int, (size % n * ts) % n = (size * ts) % n := fun n => by
    rw [Int.mul_emod, Int.emod_emod, ← Int.mul_emod]
  have h2 := h (2 ^ 64)
  push_cast
  rw [toSizeT_cast]
  norm_num at h2 ⊢
  exact h2

theorem wrapInt_of_fits (x : Int) (h : FitsInt x) : wrapInt x = x := by
  unfold FitsInt at h
  unfold wrapInt
  omega

theorem wrapInt_emod (x : Int) : wrapInt (x % 2 ^ 64) = wrapInt x := by
  unfold wrapInt
  omega

/-- Resolving with stride 0 is resolving with the element size as stride, for all
    arguments. -/
theorem arrayPointer_stride_zero (size : Int) (type : Nat) (n : Int) :
    __glArrayPointer_size size type 0 n
      = __glArrayPointer_size size type (wrapInt (size * (__gl_type_size type : Int))) n := by
  unfold __glArrayPointer_size
  simp only [if_true]
  have e : wrapInt (((toSizeT size * __gl_type_size type) % 2 ^ 64 : Nat) : Int)
      = wrapInt (size * (__gl_type_size type : Int)) := by
    rw [elementSize_cast, wrapInt_emod]
  by_cases h : wrapInt (size * (__gl_type_size type : Int)) = 0
  · rw [if_pos h]
  · rw [if_neg h, e]

/-- C11 (as amended): when `e = size * elementByteWidth(type)` and the product
    `s * maxIndex` fit a 32-bit signed integer, where `s = stride` if `stride` is non-zero,
    else `e`, `__glArrayPointer_size(size, type, stride, maxIndex)` is `s*maxIndex + e`
    modulo `2^64`, hence exactly `s*maxIndex + e` when that is not negative, and resolving
    with stride 0 gives what resolving with stride `e` gives; for all arguments
    whatsoever resolving with stride 0 gives what resolving with the stride
    `(GLsizei)(size * elementByteWidth(type))` gives. -/
theorem array_pointer_size_formula (size : Int) (type : Nat) (stride maxIndex : Int)
    (he : FitsInt (size * (__gl_type_size type : Int)))
    (hp : FitsInt ((if stride = 0 then size * (__gl_type_size type : Int) else stride)
      * maxIndex)) :
    ((__glArrayPointer_size size type stride maxIndex : Nat) : Int)
      = specArrayPointerSize size type stride maxIndex % 2 ^ 64 ∧
    (0 ≤ specArrayPointerSize size type stride maxIndex →
      ((__glArrayPointer_size size type stride maxIndex : Nat) : Int)
        = specArrayPointerSize size type stride maxIndex) ∧
    (∀ n : Int, __glArrayPointer_size size type 0 n
      = __glArrayPointer_size size type (size * (__gl_type_size type : Int)) n) ∧
    (∀ (sz : Int) (ty : Nat) (n : Int), __glArrayPointer_size sz ty 0 n
      = __glArrayPointer_size sz ty (wrapInt (sz * (__gl_type_size ty : Int))) n) := by
  have hmain : ((__glArrayPointer_size size type stride maxIndex : Nat) : Int)
      = specArrayPointerSize size type stride maxIndex % 2 ^ 64 := by
    unfold __glArrayPointer_size specArrayPointerSize
    simp only []
    have hs : (if stride = 0 then
          wrapInt (((toSizeT size * __gl_type_size type) % 2 ^ 64 : Nat) : Int) else stride)
        = (if stride = 0 then size * (__gl_type_size type : Int) else stride) := by
      split_ifs
      · rw [elementSize_cast, wrapInt_emod, wrapInt_of_fits _ he]
      · rfl
    rw [hs, wrapInt_of_fits _ hp]
    have hc := elementSize_cast size (__gl_type_size type)
    generalize (toSizeT size * __gl_type_size type) % 2 ^ 64 = E at hc ⊢
    generalize (if stride = 0 then size * (__gl_type_size type : Int) else stride)
      * maxIndex = P
    generalize size * (__gl_type_size type : Int) = X at hc
    have ht := toSizeT_cast P
    generalize toSizeT P = T at ht
    push_cast
    omega
  refine ⟨hmain, ?_, ?_, arrayPointer_stride_zero⟩
  · intro h0
    rw [hmain]
    apply Int.emod_eq_of_lt h0
    unfold specArrayPointerSize
    unfold FitsInt at he hp
    simp only []
    generalize (if stride = 0 then size * (__gl_type_size type : Int) else stride)
      * maxIndex = P at hp
    omega
  · intro n
    rw [arrayPointer_stride_zero, wrapInt_of_fits _ he]

/-- Witness of C11 (as amended): three floats per vertex, ten vertices, tightly packed
    (stride 0) or with the explicit stride 12: 120 bytes. -/
theorem array_pointer_size_formula_witness :
    FitsInt (3 * (__gl_type_size GL_FLOAT : Int)) ∧
    ((__glArrayPointer_size 3 GL_FLOAT 0 9 : Nat) : Int) = 120 ∧
    __glArrayPointer_size 3 GL_FLOAT 0 9
      = __glArrayPointer_size 3 GL_FLOAT (3 * (__gl_type_size GL_FLOAT : Int)) 9 :=
  ⟨by decide,
   ((array_pointer_size_formula 3 GL_FLOAT 0 9 (by decide) (by decide)).2.1
      (by decide)).trans (by decide),
   (array_pointer_size_formula 3 GL_FLOAT 0 9 (by decide) (by decide)).2.2.1 9⟩

/-- Counterexample to C11 as worded: with one unsigned byte per element, stride 65536 and
    max-index 65536 the formula gives 4294967297 (which a `size_t` holds) while the code,
    multiplying as `GLsizei`, returns 1. -/
theorem array_pointer_size_product_wraps :
    specArrayPointerSize 1 GL_UNSIGNED_BYTE 65536 65536 = 4294967297 ∧
    __glArrayPointer_size 1 GL_UNSIGNED_BYTE 65536 65536 = 1 ∧
    ((__glArrayPointer_size 1 GL_UNSIGNED_BYTE 65536 65536 : Nat) : Int)
      ≠ specArrayPointerSize 1 GL_UNSIGNED_BYTE 65536 65536 % 2 ^ 64 := by
  decide

/-- The batch loop: 0 for an empty batch, otherwise an upper bound of the per-primitive
    values that is one of them. -/
theorem multiMax_spec (p : Nat → Nat) (primcount : Int) :
    (primcount ≤ 0 → multiMax p primcount = 0) ∧
    (0 < primcount →
      (∀ prim : Nat, (prim : Int) < primcount → p prim ≤ multiMax p primcount) ∧
      ∃ prim : Nat, (prim : Int) < primcount ∧ multiMax p primcount = p prim) ∧
    ((∀ prim, p prim < 2 ^ 32) → multiMax p primcount < 2 ^ 32) := by
  have hfold : multiMax p primcount = (List.range primcount.toNat).foldl
      (fun maxindex i => if p i > maxindex then p i else maxindex) 0 := rfl
  obtain ⟨hb, ha⟩ := scan_fold_spec p primcount.toNat
  rw [← hfold] at hb ha
  have hpos : 0 < primcount →
      (∀ prim : Nat, (prim : Int) < primcount → p prim ≤ multiMax p primcount) ∧
      ∃ prim : Nat, (prim : Int) < primcount ∧ multiMax p primcount = p prim := by
    intro h
    refine ⟨fun prim hprim => hb prim (by omega), ?_⟩
    obtain ⟨i, hi, e⟩ := ha (by omega)
    exact ⟨i, by omega, e.symm⟩
  refine ⟨?_, hpos, ?_⟩
  · intro h
    have h0 : primcount.toNat = 0 := by omega
    rw [hfold, h0]
    rfl
  · intro hlt
    by_cases h : 0 < primcount
    · obtain ⟨_, i, _, e⟩ := hpos h
      rw [e]
      exact hlt i
    · have h0 : primcount.toNat = 0 := by omega
      rw [hfold, h0]
      exact Nat.two_pow_pos 32

theorem drawArrays_lt (first count : Int) : __glDrawArrays_maxindex first count < 2 ^ 32 := by
  unfold __glDrawArrays_maxindex toUnsigned
  split_ifs
  · exact Nat.two_pow_pos 32
  · omega

theorem drawElements_ret_lt (env : IndexEnv) (count : Int) (type indices : Nat)
    (basevertex : Int) :
    (__glDrawElementsBaseVertex_maxindex env count type indices basevertex).ret < 2 ^ 32 := by
  unfold __glDrawElementsBaseVertex_maxindex
  simp only []
  split_ifs <;> first | exact Nat.two_pow_pos 32 | exact Nat.mod_lt _ (Nat.two_pow_pos 32)

/-- C12: `__glDrawArrays_maxindex(first, count)` is 0 when `count` is 0 and
    `first + count - 1` (as a `GLuint`, that is modulo `2^32`) otherwise; each of the three
    multi-draw resolvers returns the maximum, an unsigned 32-bit value, of the
    per-primitive max-index over the `primcount` primitives: 0 when `primcount <= 0`, and
    otherwise a value at or above every per-primitive max-index and equal to one. -/
theorem draw_maxindex_spec :
    (∀ first : Int, __glDrawArrays_maxindex first 0 = 0) ∧
    (∀ first count : Int, count ≠ 0 →
      ((__glDrawArrays_maxindex first count : Nat) : Int) = (first + count - 1) % 2 ^ 32 ∧
      (0 ≤ first + count - 1 → first + count - 1 < 2 ^ 32 →
        ((__glDrawArrays_maxindex first count : Nat) : Int) = first + count - 1)) ∧
    (∀ (first count : Nat → Int) (primcount : Int),
      __glMultiDrawArrays_maxindex first count primcount < 2 ^ 32 ∧
      (primcount ≤ 0 → __glMultiDrawArrays_maxindex first count primcount = 0) ∧
      (0 < primcount →
        (∀ prim : Nat, (prim : Int) < primcount →
          __glDrawArrays_maxindex (first prim) (count prim)
            ≤ __glMultiDrawArrays_maxindex first count primcount) ∧
        ∃ prim : Nat, (prim : Int) < primcount ∧
          __glMultiDrawArrays_maxindex first count primcount
            = __glDrawArrays_maxindex (first prim) (count prim))) ∧
    (∀ (env : IndexEnv) (count : Nat → Int) (type : Nat) (indices : Nat → Nat)
        (primcount : Int),
      __glMultiDrawElements_maxindex env count type indices primcount < 2 ^ 32 ∧
      (primcount ≤ 0 → __glMultiDrawElements_maxindex env count type indices primcount = 0) ∧
      (0 < primcount →
        (∀ prim : Nat, (prim : Int) < primcount →
          (__glDrawElementsBaseVertex_maxindex env (count prim) type (indices prim) 0).ret
            ≤ __glMultiDrawElements_maxindex env count type indices primcount) ∧
        ∃ prim : Nat, (prim : Int) < primcount ∧
          __glMultiDrawElements_maxindex env count type indices primcount
            = (__glDrawElementsBaseVertex_maxindex env (count prim) type
                (indices prim) 0).ret)) ∧
    (∀ (env : IndexEnv) (count : Nat → Int) (type : Nat) (indices : Nat → Nat)
        (primcount : Int) (basevertex : Nat → Int),
      __glMultiDrawElementsBaseVertex_maxindex env count type indices primcount basevertex
        < 2 ^ 32 ∧
      (primcount ≤ 0 →
        __glMultiDrawElementsBaseVertex_maxindex env count type indices primcount basevertex
          = 0) ∧
      (0 < primcount →
        (∀ prim : Nat, (prim : Int) < primcount →
          (__glDrawElementsBaseVertex_maxindex env (count prim) type (indices prim)
              (basevertex prim)).ret
            ≤ __glMultiDrawElementsBaseVertex_maxindex env count type indices primcount
                basevertex) ∧
        ∃ prim : Nat, (prim : Int) < primcount ∧
          __glMultiDrawElementsBaseVertex_maxindex env count type indices primcount
              basevertex
            = (__glDrawElementsBaseVertex_maxindex env (count prim) type (indices prim)
                (basevertex prim)).ret)) := by
  refine ⟨fun _ => rfl, ?_, ?_, ?_, ?_⟩
  · intro first count hc
    have h : ((__glDrawArrays_maxindex first count : Nat) : Int)
        = (first + count - 1) % 2 ^ 32 := by
      unfold __glDrawArrays_maxindex
      rw [if_neg hc, toUnsigned_cast]
      unfold wrapInt
      omega
    exact ⟨h, fun h0 h1 => by rw [h]; exact Int.emod_eq_of_lt h0 h1⟩
  · intro first count primcount
    obtain ⟨h1, h2, h3⟩ := multiMax_spec
      (fun prim => __glDrawArrays_maxindex (first prim) (count prim)) primcount
    exact ⟨h3 (fun prim => drawArrays_lt _ _), h1, h2⟩
  · intro env count type indices primcount
    obtain ⟨h1, h2, h3⟩ := multiMax_spec (fun prim =>
      (__glDrawElementsBaseVertex_maxindex env (count prim) type (indices prim) 0).ret)
      primcount
    exact ⟨h3 (fun prim => drawElements_ret_lt _ _ _ _ _), h1, h2⟩
  · intro env count type indices primcount basevertex
    obtain ⟨h1, h2, h3⟩ := multiMax_spec (fun prim =>
      (__glDrawElementsBaseVertex_maxindex env (count prim) type (indices prim)
        (basevertex prim)).ret) primcount
    exact ⟨h3 (fun prim => drawElements_ret_lt _ _ _ _ _), h1, h2⟩

/-- Witness of C12: a batch of three non-indexed draws (first 0, 10, 4; count 3, 0, 5)
    has max-index 8, the one of the third draw. -/
theorem draw_maxindex_spec_witness :
    ((__glDrawArrays_maxindex 4 5 : Nat) : Int) = 4 + 5 - 1 ∧
    __glDrawArrays_maxindex 4 5
      ≤ __glMultiDrawArrays_maxindex (fun i => [0, 10, 4].getD i 0)
          (fun i => [3, 0, 5].getD i 0) 3 ∧
    __glMultiDrawArrays_maxindex (fun i => [0, 10, 4].getD i 0)
      (fun i => [3, 0, 5].getD i 0) 3 = 8 :=
  ⟨(draw_maxindex_spec.2.1 4 5 (by decide)).2 (by decide) (by decide),
   ((draw_maxindex_spec.2.2.1 (fun i => [0, 10, 4].getD i 0) (fun i => [3, 0, 5].getD i 0)
      3).2.2 (by decide)).1 2 (by decide),
   by decide⟩

/-! ## Theorems: packed-image sizing, capability flag and unknown constants -/

/-- C13: with the capability flag `has_unpack_subimage` unset, `__gl_image_size` does not
    depend on `UNPACK_ROW_LENGTH`, `UNPACK_IMAGE_HEIGHT`, `UNPACK_SKIP_ROWS`,
    `UNPACK_SKIP_PIXELS` or `UNPACK_SKIP_IMAGES`: two context states that agree on
    `UNPACK_ALIGNMENT` give the same result, which is the result with the flag set and
    the five parameters zero. -/
theorem image_size_ignores_subimage_state (st1 st2 : UnpackState) (format type : Nat)
    (width height depth : Int) (ha : st1.alignment = st2.alignment) :
    __gl_image_size st1 format type width height depth false
      = __gl_image_size st2 format type width height depth false ∧
    __gl_image_size st1 format type width height depth false
      = __gl_image_size
          { alignment := st1.alignment, row_length := 0, image_height := 0, skip_rows := 0,
            skip_pixels := 0, skip_images := 0 } format type width height depth true := by
  unfold __gl_image_size
  simp [ha]

/-- Witness of C13: a 3 x 2 RGBA image under the default state and under a state with a
    row length of 5, one skipped row and two skipped pixels. -/
theorem image_size_ignores_subimage_state_witness :
    __gl_image_size defaultUnpack GL_RGBA GL_UNSIGNED_BYTE 3 2 1 false
      = __gl_image_size subImageUnpack GL_RGBA GL_UNSIGNED_BYTE 3 2 1 false ∧
    __gl_image_size subImageUnpack GL_RGBA GL_UNSIGNED_BYTE 3 2 1 true
      ≠ __gl_image_size subImageUnpack GL_RGBA GL_UNSIGNED_BYTE 3 2 1 false :=
  ⟨(image_size_ignores_subimage_state defaultUnpack subImageUnpack GL_RGBA GL_UNSIGNED_BYTE
      3 2 1 rfl).1, by decide⟩

/-! ## Theorems: attribute lists -/

/-- The pair loop started at index `i` on a list whose first terminator at an even offset
    is at offset `2k`. -/
theorem attribPairLoop_spec (t : Int) (k : Nat) :
    ∀ (l : List Int) (i : Nat), l.get? (2 * k) = some t →
      (∀ j, j < k → l.get? (2 * j) ≠ some t) →
      attribPairLoop t l i
        = { size := some (i + 2 * k + 1),
            reads := (List.range (k + 1)).map (fun j => i + 2 * j) } := by
  induction k with
  | zero =>
    intro l i h0 _
    match l, h0 with
    | [v], h0 =>
      simp at h0
      simp [attribPairLoop, h0, List.range_succ]
    | v :: _ :: rest, h0 =>
      simp at h0
      simp [attribPairLoop, h0, List.range_succ]
  | succ k ih =>
    intro l i hk hlt
    match l, hk, hlt with
    | [], hk, _ => simp at hk
    | [v], hk, _ =>
      have : 2 * (k + 1) = (2 * k + 1) + 1 := by ring
      rw [this] at hk
      simp at hk
    | v :: w :: rest, hk, hlt =>
      have e : 2 * (k + 1) = (2 * k + 1) + 1 := by ring
      rw [e] at hk
      simp only [List.get?_cons_succ] at hk
      have hv : v ≠ t := by
        have := hlt 0 (Nat.succ_pos k)
        simpa using this
      have hrest : ∀ j, j < k → rest.get? (2 * j) ≠ some t := by
        intro j hj
        have := hlt (j + 1) (Nat.succ_lt_succ hj)
        have e2 : 2 * (j + 1) = (2 * j + 1) + 1 := by ring
        rw [e2] at this
        simpa using this
      simp only [attribPairLoop, if_pos hv]
      rw [ih rest (i + 2) hk hrest]
      have hr : (List.range (k + 1 + 1)).map (fun j => i + 2 * j)
          = i :: (List.range (k + 1)).map (fun j => i + 2 + 2 * j) := by
        rw [List.range_succ_eq_map (k + 1), List.map_cons, List.map_map]
        congr 1
        apply List.map_congr_left
        intro a _
        simp only [Function.comp, Nat.succ_eq_add_one]
        omega
      have hsz : i + 2 + 2 * k + 1 = i + 2 * (k + 1) + 1 := by omega
      rw [hr, hsz]

/-- The 0-terminated loop started at index `i`: the size is `i`, plus the number of
    leading non-zero elements, plus one. -/
theorem attribLoop_spec :
    ∀ (l : List Int) (i : Nat), (0 : Int) ∈ l →
      (attribLoop l i).size = some (i + (l.takeWhile (fun v => decide (v ≠ 0))).length + 1) := by
  intro l
  induction l with
  | nil => intro i h; simp at h
  | cons v rest ih =>
    intro i h
    by_cases hv : v = 0
    · simp [attribLoop, hv]
    · have hmem : (0 : Int) ∈ rest := by
        rcases List.mem_cons.mp h with h1 | h1
        · exact absurd h1.symm hv
        · exact h1
      simp only [attribLoop, if_pos hv]
      rw [ih (i + 1) hmem]
      simp [List.takeWhile, hv]
      omega

/-- C14: for a non-null key/value attribute list whose terminator first occurs, among the
    even indices, at index `2k`, `__AttribList_size(list, terminator)` returns `2k+1` and
    reads exactly the indices 0, 2, ..., 2k, so none above `2k`, whatever the odd indices
    hold (a terminator value at an odd index does not end the list); the 0-terminated form
    returns the number of leading non-zero elements plus one; both forms return 0 for a
    null list, reading nothing. -/
theorem attrib_list_size_spec :
    (∀ (l : List Int) (t : Int) (k : Nat), l.get? (2 * k) = some t →
      (∀ j, j < k → l.get? (2 * j) ≠ some t) →
      __AttribList_size2 (some l) t
        = { size := some (2 * k + 1), reads := (List.range (k + 1)).map (fun j => 2 * j) } ∧
      ∀ r, r ∈ (__AttribList_size2 (some l) t).reads → r ≤ 2 * k) ∧
    __AttribList_size2 (some [4, 0, 6, 0, 0, 9]) 0 = { size := some 5, reads := [0, 2, 4] } ∧
    (∀ l : List Int, (0 : Int) ∈ l →
      (__AttribList_size (some l)).size
        = some ((l.takeWhile (fun v => decide (v ≠ 0))).length + 1)) ∧
    __AttribList_size none = { size := some 0, reads := [] } ∧
    (∀ t : Int, __AttribList_size2 none t = { size := some 0, reads := [] }) := by
  refine ⟨?_, by decide, ?_, rfl, fun _ => rfl⟩
  · intro l t k hk hlt
    have h := attribPairLoop_spec t k l 0 hk hlt
    have e : __AttribList_size2 (some l) t
        = { size := some (2 * k + 1),
            reads := (List.range (k + 1)).map (fun j => 2 * j) } := by
      unfold __AttribList_size2
      simp only []
      rw [h]
      simp
    refine ⟨e, ?_⟩
    intro r hr
    rw [e] at hr
    obtain ⟨j, hj, rfl⟩ := List.mem_map.mp hr
    have := List.mem_range.mp hj
    omega
  · intro l h0
    have h := attribLoop_spec l 0 h0
    unfold __AttribList_size
    simp only []
    rw [h]
    simp

/-- Witness of C14: in the list 4 0 6 1 0 5 with terminator 0 the first terminator at an
    even index is at index 4 (the 0 at index 1 is a value), so the size is 5. -/
theorem attrib_list_size_spec_witness :
    __AttribList_size2 (some [4, 0, 6, 1, 0, 5]) 0 = { size := some 5, reads := [0, 2, 4] } ∧
    (__AttribList_size (some [4, 7, 0, 9])).size = some 3 :=
  ⟨((attrib_list_size_spec.1 [4, 0, 6, 1, 0, 5] 0 2 (by decide)
      (fun j hj => by interval_cases j <;> decide)).1).trans (by decide),
   (attrib_list_size_spec.2.2.1 [4, 7, 0, 9] (by decide)).trans (by decide)⟩

/-! ## Theorems: evaluator maps -/

theorem map1Channels_bounds (target : Nat) (c : Int) (h : map1Channels target = some c) :
    1 ≤ c ∧ c ≤ 4 := by
  unfold map1Channels at h
  split_ifs at h <;> simp at h <;> omega

theorem map2Channels_bounds (target : Nat) (c : Int) (h : map2Channels target = some c) :
    1 ≤ c ∧ c ≤ 4 := by
  unfold map2Channels at h
  split_ifs at h <;> simp at h <;> omega

/-- A `GLint` product `stride * (order - 1)` that does not overflow. -/
theorem strided_term (c stride order : Int) (hc : 1 ≤ c) (ho : 1 ≤ order) (hs : c ≤ stride)
    (hfit : stride * (order - 1) < 2 ^ 31) :
    wrapInt (stride * wrapInt (order - 1)) = stride * (order - 1) ∧
    0 ≤ stride * (order - 1) := by
  have h0 : 0 ≤ stride * (order - 1) := Int.mul_nonneg (by omega) (by omega)
  have h1 : order - 1 ≤ stride * (order - 1) := by nlinarith
  have e1 : wrapInt (order - 1) = order - 1 := wrapInt_of_fits _ ⟨by omega, by omega⟩
  rw [e1]
  exact ⟨wrapInt_of_fits _ ⟨by omega, hfit⟩, h0⟩

theorem map1Channels_none (target : Nat) (h : target ∉ map1Targets) :
    map1Channels target = none := by
  unfold map1Targets at h
  simp only [List.mem_cons, List.mem_singleton, not_or, List.not_mem_nil, not_false_eq_true,
    and_true] at h
  unfold map1Channels
  simp [h]

theorem map2Channels_none (target : Nat) (h : target ∉ map2Targets) :
    map2Channels target = none := by
  unfold map2Targets at h
  simp only [List.mem_cons, List.mem_singleton, not_or, List.not_mem_nil, not_false_eq_true,
    and_true] at h
  unfold map2Channels
  simp [h]

/-- C15 (as amended): `__glMap1d_size(target, stride, order)` returns 0 if `order < 1`,
    if `target` is not a recognised 1-D map target, or if `stride < channels(target)`, and
    otherwise `channels + stride*(order-1)` provided that sum fits a 32-bit signed
    integer; `__glMap2d_size` returns 0 if `uorder < 1` or `vorder < 1`, if `target` is
    not a recognised 2-D map target, or if `ustride < channels` or `vstride < channels`,
    and otherwise `channels + ustride*(uorder-1) + vstride*(vorder-1)` provided that sum
    fits a 32-bit signed integer; `channels` is 1 for INDEX and TEXTURE_COORD_1, 2 for
    TEXTURE_COORD_2, 3 for NORMAL, TEXTURE_COORD_3 and VERTEX_3, 4 for COLOR_4,
    TEXTURE_COORD_4 and VERTEX_4. -/
theorem map_size_spec :
    (map1Channels GL_MAP1_INDEX = some 1 ∧ map1Channels GL_MAP1_TEXTURE_COORD_1 = some 1 ∧
      map1Channels GL_MAP1_TEXTURE_COORD_2 = some 2 ∧ map1Channels GL_MAP1_NORMAL = some 3 ∧
      map1Channels GL_MAP1_TEXTURE_COORD_3 = some 3 ∧ map1Channels GL_MAP1_VERTEX_3 = some 3 ∧
      map1Channels GL_MAP1_COLOR_4 = some 4 ∧ map1Channels GL_MAP1_TEXTURE_COORD_4 = some 4 ∧
      map1Channels GL_MAP1_VERTEX_4 = some 4 ∧
      ∀ target, target ∉ map1Targets → map1Channels target = none) ∧
    (map2Channels GL_MAP2_INDEX = some 1 ∧ map2Channels GL_MAP2_TEXTURE_COORD_1 = some 1 ∧
      map2Channels GL_MAP2_TEXTURE_COORD_2 = some 2 ∧ map2Channels GL_MAP2_NORMAL = some 3 ∧
      map2Channels GL_MAP2_TEXTURE_COORD_3 = some 3 ∧ map2Channels GL_MAP2_VERTEX_3 = some 3 ∧
      map2Channels GL_MAP2_COLOR_4 = some 4 ∧ map2Channels GL_MAP2_TEXTURE_COORD_4 = some 4 ∧
      map2Channels GL_MAP2_VERTEX_4 = some 4 ∧
      ∀ target, target ∉ map2Targets → map2Channels target = none) ∧
    (∀ (target : Nat) (stride order : Int),
      (order < 1 → __glMap1d_size target stride order = 0) ∧
      (map1Channels target = none → __glMap1d_size target stride order = 0) ∧
      (∀ c, map1Channels target = some c →
        (stride < c → __glMap1d_size target stride order = 0) ∧
        (1 ≤ order → c ≤ stride → c + stride * (order - 1) < 2 ^ 31 →
          ((__glMap1d_size target stride order : Nat) : Int) = c + stride * (order - 1)))) ∧
    (∀ (target : Nat) (ustride uorder vstride vorder : Int),
      (uorder < 1 ∨ vorder < 1 → __glMap2d_size target ustride uorder vstride vorder = 0) ∧
      (map2Channels target = none →
        __glMap2d_size target ustride uorder vstride vorder = 0) ∧
      (∀ c, map2Channels target = some c →
        (ustride < c ∨ vstride < c →
          __glMap2d_size target ustride uorder vstride vorder = 0) ∧
        (1 ≤ uorder → 1 ≤ vorder → c ≤ ustride → c ≤ vstride →
          c + ustride * (uorder - 1) + vstride * (vorder - 1) < 2 ^ 31 →
          ((__glMap2d_size target ustride uorder vstride vorder : Nat) : Int)
            = c + ustride * (uorder - 1) + vstride * (vorder - 1)))) := by
  refine ⟨⟨by decide, by decide, by decide, by decide, by decide, by decide, by decide,
    by decide, by decide, map1Channels_none⟩,
    ⟨by decide, by decide, by decide, by decide, by decide, by decide, by decide,
    by decide, by decide, map2Channels_none⟩, ?_, ?_⟩
  · intro target stride order
    refine ⟨?_, ?_, ?_⟩
    · intro h
      unfold __glMap1d_size
      rw [if_pos h]
    · intro h
      unfold __glMap1d_size
      rw [h]
      split_ifs <;> rfl
    · intro c hc
      obtain ⟨hc1, _⟩ := map1Channels_bounds target c hc
      constructor
      · intro h
        unfold __glMap1d_size
        rw [hc]
        simp only [if_pos h]
        split_ifs <;> rfl
      · intro ho hs hfit
        have hpos : 0 ≤ stride * (order - 1) := Int.mul_nonneg (by omega) (by omega)
        obtain ⟨e1, _⟩ := strided_term c stride order hc1 ho hs (by omega)
        unfold __glMap1d_size
        rw [hc]
        simp only [if_neg (not_lt.mpr ho), if_neg (not_lt.mpr hs), e1]
        rw [wrapInt_of_fits _ ⟨by omega, hfit⟩, toSizeT_cast]
        exact Int.emod_eq_of_lt (by omega) (by omega)
  · intro target ustride uorder vstride vorder
    refine ⟨?_, ?_, ?_⟩
    · intro h
      unfold __glMap2d_size
      rw [if_pos h]
    · intro h
      unfold __glMap2d_size
      rw [h]
      split_ifs <;> rfl
    · intro c hc
      obtain ⟨hc1, _⟩ := map2Channels_bounds target c hc
      constructor
      · intro h
        unfold __glMap2d_size
        rw [hc]
        simp only [if_pos h]
        split_ifs <;> rfl
      · intro hu hv hsu hsv hfit
        have hpu : 0 ≤ ustride * (uorder - 1) := Int.mul_nonneg (by omega) (by omega)
        have hpv : 0 ≤ vstride * (vorder - 1) := Int.mul_nonneg (by omega) (by omega)
        obtain ⟨e1, _⟩ := strided_term c ustride uorder hc1 hu hsu (by omega)
        obtain ⟨e2, _⟩ := strided_term c vstride vorder hc1 hv hsv (by omega)
        have hn1 : ¬ (uorder < 1 ∨ vorder < 1) := by omega
        have hn2 : ¬ (ustride < c ∨ vstride < c) := by omega
        unfold __glMap2d_size
        rw [hc]
        simp only [if_neg hn1, if_neg hn2, e1, e2]
        rw [wrapInt_of_fits (c + ustride * (uorder - 1)) ⟨by omega, by omega⟩,
          wrapInt_of_fits _ ⟨by omega, hfit⟩, toSizeT_cast]
        exact Int.emod_eq_of_lt (by omega) (by omega)

/-- Witness of C15 (as amended): a cubic 1-D vertex map with stride 3 takes 12 values, a
    3 x 2 patch of 4-component vertices with strides 4 and 12 takes 24. -/
theorem map_size_spec_witness :
    ((__glMap1d_size GL_MAP1_VERTEX_3 3 4 : Nat) : Int) = 3 + 3 * (4 - 1) ∧
    ((__glMap2d_size GL_MAP2_VERTEX_4 4 3 12 2 : Nat) : Int) = 4 + 4 * (3 - 1) + 12 * (2 - 1) :=
  ⟨((map_size_spec.2.2.1 GL_MAP1_VERTEX_3 3 4).2.2 3 (by decide)).2 (by decide) (by decide)
      (by decide),
   ((map_size_spec.2.2.2 GL_MAP2_VERTEX_4 4 3 12 2).2.2 4 (by decide)).2 (by decide)
      (by decide) (by decide) (by decide) (by decide)⟩

/-- Counterexample to C15 as worded: for a 1-D vertex map with 3 channels, stride 65536
    and order 65537 (neither `order < 1` nor `stride < channels`) the formula gives
    `3 + 65536 * 65536 = 4294967299` while the code, computing in `GLint`, returns 3. -/
theorem map_size_product_wraps :
    map1Channels GL_MAP1_VERTEX_3 = some 3 ∧
    (3 : Int) + 65536 * (65537 - 1) = 4294967299 ∧
    __glMap1d_size GL_MAP1_VERTEX_3 65536 65537 = 3 := by
  decide

/-! ## Theorems: type and format metrics -/

theorem type_size_log_fst (type : Nat) : (__gl_type_size_log type).1 = __gl_type_size type := by
  unfold __gl_type_size_log __gl_type_size
  split_ifs <;> rfl

theorem type_size_log_unknown (type : Nat) (h : type ∉ scalarTypes) :
    __gl_type_size_log type = (0, [{ site := LogSite.gl_type_size, value := type }]) := by
  unfold scalarTypes at h
  simp only [List.mem_cons, List.mem_singleton, not_or, List.not_mem_nil, not_false_eq_true,
    and_true] at h
  unfold __gl_type_size_log
  simp [h]

theorem type_size_log_known (type : Nat) (h : type ∈ scalarTypes) :
    (__gl_type_size_log type).2 = [] := by
  unfold scalarTypes at h
  simp only [List.mem_cons, List.mem_singleton, List.not_mem_nil, or_false] at h
  rcases h with h | h | h | h | h | h | h | h | h | h | h | h | h | h <;> subst h <;> decide

/-- C16: `__gl_type_size` returns 1 for `GL_BOOL`, `GL_BYTE` and `GL_UNSIGNED_BYTE`, 2 for
    `GL_SHORT`, `GL_UNSIGNED_SHORT`, `GL_2_BYTES` and `GL_HALF_FLOAT`, 3 for `GL_3_BYTES`,
    4 for `GL_INT`, `GL_UNSIGNED_INT`, `GL_FLOAT`, `GL_4_BYTES` and `GL_FIXED`, 8 for
    `GL_DOUBLE`, logging nothing for these; for every other enum value it returns 0 and
    logs exactly one diagnostic, which names the function and the value. -/
theorem type_size_table :
    (__gl_type_size_log GL_BOOL = (1, []) ∧ __gl_type_size_log GL_BYTE = (1, []) ∧
      __gl_type_size_log GL_UNSIGNED_BYTE = (1, [])) ∧
    (__gl_type_size_log GL_SHORT = (2, []) ∧ __gl_type_size_log GL_UNSIGNED_SHORT = (2, []) ∧
      __gl_type_size_log GL_2_BYTES = (2, []) ∧ __gl_type_size_log GL_HALF_FLOAT = (2, [])) ∧
    __gl_type_size_log GL_3_BYTES = (3, []) ∧
    (__gl_type_size_log GL_INT = (4, []) ∧ __gl_type_size_log GL_UNSIGNED_INT = (4, []) ∧
      __gl_type_size_log GL_FLOAT = (4, []) ∧ __gl_type_size_log GL_4_BYTES = (4, []) ∧
      __gl_type_size_log GL_FIXED = (4, [])) ∧
    __gl_type_size_log GL_DOUBLE = (8, []) ∧
    (∀ type, type ∉ scalarTypes →
      __gl_type_size_log type = (0, [{ site := LogSite.gl_type_size, value := type }]) ∧
      (__gl_type_size_log type).2.length = 1 ∧ __gl_type_size type = 0) ∧
    (∀ type, type ∈ scalarTypes → (__gl_type_size_log type).2 = []) ∧
    (∀ type, (__gl_type_size_log type).1 = __gl_type_size type) := by
  refine ⟨by decide, by decide, by decide, by decide, by decide, ?_, type_size_log_known,
    type_size_log_fst⟩
  intro type h
  have e := type_size_log_unknown type h
  refine ⟨e, by rw [e]; rfl, ?_⟩
  rw [← type_size_log_fst, e]

/-- Witness of C16: the value 0x1234 is no scalar type, so the width is 0 and one line is
    logged. -/
theorem type_size_table_witness :
    __gl_type_size_log 0x1234 = (0, [{ site := LogSite.gl_type_size, value := 0x1234 }]) ∧
    __gl_type_size 0x1234 = 0 :=
  ⟨(type_size_table.2.2.2.2.2.1 0x1234 (by decide)).1,
   (type_size_table.2.2.2.2.2.1 0x1234 (by decide)).2.2⟩

theorem format_channels_unknown (format : Nat) (h : format ∉ pixelFormats) :
    __gl_format_channels format = 0 := by
  unfold pixelFormats at h
  simp only [List.mem_cons, List.mem_singleton, not_or, List.not_mem_nil, not_false_eq_true,
    and_true] at h
  unfold __gl_format_channels
  simp [h]

/-- C18: `__gl_format_channels` returns 1 for COLOR_INDEX, RED, GREEN, BLUE, ALPHA,
    INTENSITY, LUMINANCE, DEPTH_COMPONENT and STENCIL_INDEX; 2 for DEPTH_STENCIL,
    LUMINANCE_ALPHA, RG, HILO_NV and DSDT_NV; 3 for RGB, BGR and DSDT_MAG_NV; 4 for RGBA,
    BGRA, ABGR_EXT, CMYK_EXT and DSDT_MAG_VIB_NV; 5 for CMYKA_EXT; 0 for every other enum
    value; so the result is always between 0 and 5. -/
theorem format_channels_table :
    (__gl_format_channels GL_COLOR_INDEX = 1 ∧ __gl_format_channels GL_RED = 1 ∧
      __gl_format_channels GL_GREEN = 1 ∧ __gl_format_channels GL_BLUE = 1 ∧
      __gl_format_channels GL_ALPHA = 1 ∧ __gl_format_channels GL_INTENSITY = 1 ∧
      __gl_format_channels GL_LUMINANCE = 1 ∧ __gl_format_channels GL_DEPTH_COMPONENT = 1 ∧
      __gl_format_channels GL_STENCIL_INDEX = 1) ∧
    (__gl_format_channels GL_DEPTH_STENCIL = 2 ∧ __gl_format_channels GL_LUMINANCE_ALPHA = 2 ∧
      __gl_format_channels GL_RG = 2 ∧ __gl_format_channels GL_HILO_NV = 2 ∧
      __gl_format_channels GL_DSDT_NV = 2) ∧
    (__gl_format_channels GL_RGB = 3 ∧ __gl_format_channels GL_BGR = 3 ∧
      __gl_format_channels GL_DSDT_MAG_NV = 3) ∧
    (__gl_format_channels GL_RGBA = 4 ∧ __gl_format_channels GL_BGRA = 4 ∧
      __gl_format_channels GL_ABGR_EXT = 4 ∧ __gl_format_channels GL_CMYK_EXT = 4 ∧
      __gl_format_channels GL_DSDT_MAG_VIB_NV = 4) ∧
    __gl_format_channels GL_CMYKA_EXT = 5 ∧
    (∀ format, format ∉ pixelFormats → __gl_format_channels format = 0) ∧
    (∀ format, 0 ≤ __gl_format_channels format ∧ __gl_format_channels format ≤ 5) := by
  refine ⟨by decide, by decide, by decide, by decide, by decide, format_channels_unknown,
    fun format => ⟨Nat.zero_le _, format_channels_le format⟩⟩

/-- Witness of C18: the value 0x1234 is no pixel format, so it has 0 channels. -/
theorem format_channels_table_witness : __gl_format_channels 0x1234 = 0 :=
  format_channels_table.2.2.2.2.2.1 0x1234 (by decide)

/-! ## Theorems: replay engine, actions of make-current -/

/-- C19: when make-current is processed with a resolved pair that differs from the current
    pair, then, if the current drawable and context are both non-null, the actions are one
    flush, then a frame-complete signal if and only if the surface is single-buffered,
    then the live make-current; if either current resource is null, the only action is the
    live make-current; in all cases the live make-current is invoked exactly once, with the
    resolved pair, and it is the last action. -/
theorem make_current_flush_and_frame (s : State) (draw ctx : Nat) (w : Reply)
    (hdiff : ¬ (getDrawable s draw = s.drawable ∧ getContext s ctx = s.context)) :
    (s.drawable ≠ 0 ∧ s.context ≠ 0 → s.double_buffer = false →
      (retrace s (Call.eglMakeCurrent draw ctx) w).effects
        = [Effect.glFlush, Effect.frame_complete,
            Effect.makeCurrent (getDrawable s draw) (getContext s ctx)]) ∧
    (s.drawable ≠ 0 ∧ s.context ≠ 0 → s.double_buffer = true →
      (retrace s (Call.eglMakeCurrent draw ctx) w).effects
        = [Effect.glFlush, Effect.makeCurrent (getDrawable s draw) (getContext s ctx)]) ∧
    (¬ (s.drawable ≠ 0 ∧ s.context ≠ 0) →
      (retrace s (Call.eglMakeCurrent draw ctx) w).effects
        = [Effect.makeCurrent (getDrawable s draw) (getContext s ctx)]) ∧
    ((retrace s (Call.eglMakeCurrent draw ctx) w).effects.count Effect.glFlush
      = if s.drawable ≠ 0 ∧ s.context ≠ 0 then 1 else 0) ∧
    (Effect.frame_complete ∈ (retrace s (Call.eglMakeCurrent draw ctx) w).effects ↔
      (s.drawable ≠ 0 ∧ s.context ≠ 0) ∧ s.double_buffer = false) ∧
    (∀ d c, (retrace s (Call.eglMakeCurrent draw ctx) w).effects.count (Effect.makeCurrent d c)
      = if d = getDrawable s draw ∧ c = getContext s ctx then 1 else 0) ∧
    (retrace s (Call.eglMakeCurrent draw ctx) w).outcome = Outcome.ok := by
  have heff : (retrace s (Call.eglMakeCurrent draw ctx) w).effects
      = (if s.drawable ≠ 0 ∧ s.context ≠ 0 then
          Effect.glFlush :: (if ¬ s.double_buffer then [Effect.frame_complete] else [])
          else [])
        ++ [Effect.makeCurrent (getDrawable s draw) (getContext s ctx)] := by
    simp only [retrace, retrace_eglMakeCurrent, if_neg hdiff]
    split_ifs <;> rfl
  have hout : (retrace s (Call.eglMakeCurrent draw ctx) w).outcome = Outcome.ok := by
    simp only [retrace, retrace_eglMakeCurrent, if_neg hdiff]
    split_ifs <;> rfl
  rw [heff]
  refine ⟨?_, ?_, ?_, ?_, ?_, ?_, hout⟩
  · intro hb hdb
    simp [hb, hdb]
  · intro hb hdb
    simp [hb, hdb]
  · intro hb
    rw [if_neg hb]
    rfl
  · by_cases hb : s.drawable ≠ 0 ∧ s.context ≠ 0
    · cases hdb : s.double_buffer <;> simp [hb, hdb]
    · simp [hb]
  · by_cases hb : s.drawable ≠ 0 ∧ s.context ≠ 0
    · cases hdb : s.double_buffer <;> simp [hb, hdb]
    · simp [hb]
  · intro d c
    by_cases hb : s.drawable ≠ 0 ∧ s.context ≠ 0
    · cases hdb : s.double_buffer <;>
        by_cases hdc : d = getDrawable s draw ∧ c = getContext s ctx <;>
        simp [hb, hdb, hdc, List.count_cons, eq_comm]
    · by_cases hdc : d = getDrawable s draw ∧ c = getContext s ctx <;>
        simp [hb, hdc, List.count_cons, eq_comm]

/-- Witness of C19: with surface 1 and context 2 current on a single-buffered surface, a
    make-current that releases them (handles 0, 0) flushes, signals frame-complete and then
    makes (null, null) current. -/
theorem make_current_flush_and_frame_witness :
    (retrace (boundState false) (Call.eglMakeCurrent 0 0) noReply).effects
      = [Effect.glFlush, Effect.frame_complete, Effect.makeCurrent 0 0] :=
  ((make_current_flush_and_frame (boundState false) 0 0 noReply (by decide)).1 (by decide)
    rfl).trans (by decide)

theorem int_not_eq (v : Int) : ~~~ v = -v - 1 := by
  cases v with
  | ofNat n =>
    show Int.negSucc n = -(n : Int) - 1
    rw [Int.negSucc_eq]
    omega
  | negSucc n =>
    show (n : Int) = -(Int.negSucc n) - 1
    rw [Int.negSucc_eq]
    omega

theorem and_complement (x : Nat) (hx : x < 2 ^ 64) : x &&& (2 ^ 64 - (x + 1)) = 0 := by
  apply Nat.eq_of_testBit_eq
  intro i
  rw [Nat.testBit_and, Nat.testBit_two_pow_sub_succ hx, Nat.zero_testBit]
  cases x.testBit i <;> simp

/-- Aligning 0 gives 0, whatever the alignment. -/
theorem align_zero (a : Int) : _align 0 a = 0 := by
  unfold _align
  generalize wrapInt (a - 1) = v
  have h1 : toSizeT v < 2 ^ 64 := by
    unfold toSizeT
    omega
  have h2 : toSizeT (~~~ v) = 2 ^ 64 - (toSizeT v + 1) := by
    rw [int_not_eq]
    unfold toSizeT
    omega
  rw [h2, Nat.zero_add, Nat.mod_eq_of_lt h1]
  exact and_complement _ h1

theorem row_stride_zero (alignment row_length : Int) : row_stride 0 alignment row_length = 0 := by
  unfold row_stride
  simp only [Nat.mul_zero, Nat.zero_add]
  split_ifs
  · exact align_zero alignment
  · rfl

/-- With 0 bits per pixel the image has 0 bytes. -/
theorem image_size_of_bpp_zero (st : UnpackState) (format type : Nat)
    (width height depth : Int) (flag : Bool) (h : bits_per_pixel format type = 0) :
    __gl_image_size st format type width height depth flag = 0 := by
  unfold __gl_image_size
  simp only [h, row_stride_zero]
  simp

theorem bits_per_pixel_unknown_type (format type : Nat) (h : type ∉ imageTypes) :
    bits_per_pixel format type = 0 := by
  unfold imageTypes componentTypes packedTypes at h
  simp only [List.cons_append, List.nil_append, List.mem_cons, List.mem_singleton, not_or,
    List.not_mem_nil, not_false_eq_true, and_true] at h
  unfold bits_per_pixel
  simp [h]

theorem bits_per_pixel_unknown_format (format type : Nat) (hf : format ∉ pixelFormats)
    (ht : type ∈ componentTypes) : bits_per_pixel format type = 0 := by
  have hc := format_channels_unknown format hf
  unfold componentTypes at ht
  simp only [List.mem_cons, List.mem_singleton, List.not_mem_nil, or_false] at ht
  unfold bits_per_pixel
  rw [hc]
  rcases ht with h | h | h | h | h | h | h | h <;> subst h <;> decide

theorem bits_per_pixel_packed (f1 f2 type : Nat) (ht : type ∈ packedTypes) :
    bits_per_pixel f1 type = bits_per_pixel f2 type := by
  unfold packedTypes at ht
  simp only [List.mem_cons, List.mem_singleton, List.not_mem_nil, or_false] at ht
  unfold bits_per_pixel
  rcases ht with h | h | h | h | h | h | h | h | h | h | h | h | h | h | h | h | h | h | h
    | h | h <;> subst h <;> rfl

/-- C20 (as amended): an unrecognised enumerated constant never aborts packed-image sizing.
    For every pixel type constant that `__gl_image_size` does not recognise it returns 0
    whatever the format, dimensions, flag and unpack state; for every unrecognised format
    constant it returns 0 when the type is a component type (byte, unsigned byte, short,
    unsigned short, half-float, int, unsigned int, float); with `GL_BITMAP` or a packed
    pixel type the result does not depend on the format at all. -/
theorem image_size_unknown_constants :
    (∀ (st : UnpackState) (format type : Nat) (width height depth : Int) (flag : Bool),
      type ∉ imageTypes → __gl_image_size st format type width height depth flag = 0) ∧
    (∀ (st : UnpackState) (format type : Nat) (width height depth : Int) (flag : Bool),
      format ∉ pixelFormats → type ∈ componentTypes →
      __gl_image_size st format type width height depth flag = 0) ∧
    (∀ (st : UnpackState) (f1 f2 type : Nat) (width height depth : Int) (flag : Bool),
      type ∈ packedTypes →
      __gl_image_size st f1 type width height depth flag
        = __gl_image_size st f2 type width height depth flag) := by
  refine ⟨?_, ?_, ?_⟩
  · intro st format type width height depth flag h
    exact image_size_of_bpp_zero st format type width height depth flag
      (bits_per_pixel_unknown_type format type h)
  · intro st format type width height depth flag hf ht
    exact image_size_of_bpp_zero st format type width height depth flag
      (bits_per_pixel_unknown_format format type hf ht)
  · intro st f1 f2 type width height depth flag ht
    unfold __gl_image_size
    rw [bits_per_pixel_packed f1 f2 type ht]

/-- Witness of C20 (as amended): the unknown type 0x1234 and, with unsigned bytes, the
    unknown format 0x1234 both size a 32 x 32 image to 0 bytes. -/
theorem image_size_unknown_constants_witness :
    __gl_image_size defaultUnpack GL_RGBA 0x1234 32 32 1 false = 0 ∧
    __gl_image_size subImageUnpack 0x1234 GL_UNSIGNED_BYTE 32 32 1 true = 0 :=
  ⟨image_size_unknown_constants.1 defaultUnpack GL_RGBA 0x1234 32 32 1 false (by decide),
   image_size_unknown_constants.2.1 subImageUnpack 0x1234 GL_UNSIGNED_BYTE 32 32 1 true
     (by decide) (by decide)⟩

/-- Counterexample to C20 as worded: with the unrecognised format 0x1234 (0 channels) and
    the packed type `GL_UNSIGNED_SHORT_5_6_5` a 1 x 1 x 1 image is sized to 4 bytes, and
    with `GL_BITMAP` a 32 x 32 image to 128 bytes, not 0. -/
theorem image_size_unknown_format_packed_type :
    0x1234 ∉ pixelFormats ∧ __gl_format_channels 0x1234 = 0 ∧
    __gl_image_size defaultUnpack 0x1234 GL_UNSIGNED_SHORT_5_6_5 1 1 1 false = 4 ∧
    __gl_image_size defaultUnpack 0x1234 GL_BITMAP 32 32 1 false = 128 := by
  decide

/-! ## Theorems: shader-uniform types -/

set_option maxRecDepth 100000 in
theorem uniform_size_unknown (type : Nat) (h : type ∉ uniformTypes) :
    __gl_uniform_size type = (GL_NONE, 0) := by
  have hs : type ∉ samplerTypes := fun hm => h (by
    unfold uniformTypes
    exact List.mem_append_right _ hm)
  unfold uniformTypes scalarUniforms vectorUniforms matrixUniforms at h
  simp only [List.map_cons, List.map_nil, List.cons_append, List.nil_append, List.mem_cons,
    List.mem_append, not_or] at h
  unfold __gl_uniform_size
  simp [h, hs]

set_option maxRecDepth 100000 in
/-- C17: `__gl_uniform_size` decomposes every scalar type (float, double, int, unsigned
    int, bool) to (that type, 1), every n-component vector type, n from 2 to 4, to (its
    scalar type, n), every float or double matrix type `MATc` / `MATcxr` to (`GL_FLOAT` or
    `GL_DOUBLE`, `c*c` or `c*r`), for instance `GL_FLOAT_MAT3x4` to (`GL_FLOAT`, 12), every
    sampler type to (`GL_INT`, 1), and every other enum value to (`GL_NONE`, 0). -/
theorem uniform_size_table :
    (∀ t, t ∈ scalarUniforms → __gl_uniform_size t = (t, 1)) ∧
    (∀ v, v ∈ vectorUniforms →
      __gl_uniform_size v.1 = (v.2.1, v.2.2) ∧ v.2.1 ∈ scalarUniforms ∧
      2 ≤ v.2.2 ∧ v.2.2 ≤ 4) ∧
    (∀ m, m ∈ matrixUniforms →
      __gl_uniform_size m.1 = (m.2.1, m.2.2.1 * m.2.2.2) ∧
      (m.2.1 = GL_FLOAT ∨ m.2.1 = GL_DOUBLE)) ∧
    __gl_uniform_size GL_FLOAT_MAT3x4 = (GL_FLOAT, 12) ∧
    (∀ t, t ∈ samplerTypes → __gl_uniform_size t = (GL_INT, 1)) ∧
    (∀ t, t ∉ uniformTypes → __gl_uniform_size t = (GL_NONE, 0)) ∧
    uniformTypes.Nodup := by
  refine ⟨by decide, by decide, by decide, by decide, by decide, uniform_size_unknown,
    by decide⟩

/-- Witness of C17: the value 0x1234 is no uniform type and decomposes to (`GL_NONE`, 0);
    `GL_DOUBLE_MAT4x2` decomposes to eight doubles. -/
theorem uniform_size_table_witness :
    __gl_uniform_size 0x1234 = (GL_NONE, 0) ∧
    __gl_uniform_size GL_DOUBLE_MAT4x2 = (GL_DOUBLE, 4 * 2) :=
  ⟨uniform_size_table.2.2.2.2.2.1 0x1234 (by decide),
   (uniform_size_table.2.2.1 (GL_DOUBLE_MAT4x2, GL_DOUBLE, 4, 2) (by decide)).1⟩

/-! ## Theorems: resource release, frame signals and swaps -/

/-- Replaying a single call is processing it. -/
theorem replay_single (s : State) (c : Call) (w : Reply) :
    replay s [(c, w)] = retrace s c w := by
  simp only [replay]
  split_ifs with h
  · cases hr : retrace s c w with
    | mk st ef oc =>
      rw [hr] at h
      simp only [List.append_nil] at h ⊢
      rw [h]
  · rfl

/-- A replay that ends normally continues with the calls that follow. -/
theorem replay_append (a b : List (Call × Reply)) :
    ∀ s : State, (replay s a).outcome = Outcome.ok →
      replay s (a ++ b)
        = { state := (replay (replay s a).state b).state,
            effects := (replay s a).effects ++ (replay (replay s a).state b).effects,
            outcome := (replay (replay s a).state b).outcome } := by
  induction a with
  | nil => intro s _; simp [replay]
  | cons e rest ih =>
    obtain ⟨c, w⟩ := e
    intro s h
    rw [List.cons_append]
    simp only [replay] at h ⊢
    by_cases hok : (retrace s c w).outcome = Outcome.ok
    · simp only [hok, if_true] at h ⊢
      rw [ih _ h]
      simp only [List.append_assoc]
    · simp only [hok, if_false] at h

/-- No handler writes the double-buffer flag. -/
theorem retrace_double_buffer (s : State) (c : Call) (w : Reply) :
    (retrace s c w).state.double_buffer = s.double_buffer := by
  cases c with
  | eglCreateWindowSurface h => rfl
  | eglDestroySurface h =>
    simp only [retrace, retrace_eglDestroySurface]
    cases mapFind s.drawable_map h <;> rfl
  | eglBindAPI api => rfl
  | eglCreateContext share h =>
    simp only [retrace, retrace_eglCreateContext]
    split_ifs <;> rfl
  | eglDestroyContext h =>
    simp only [retrace, retrace_eglDestroyContext]
    cases mapFind s.context_map h <;> rfl
  | eglMakeCurrent draw ctx =>
    simp only [retrace, makeCurrent_state]
    split_ifs <;> rfl
  | eglSwapBuffers =>
    simp only [retrace, retrace_eglSwapBuffers]
    split_ifs <;> rfl
  | ignored => rfl

/-- Make-current leaves both maps as they are. -/
theorem makeCurrent_maps (s : State) (draw ctx : Nat) (w : Reply) :
    (retrace_eglMakeCurrent s draw ctx w).state.drawable_map = s.drawable_map ∧
    (retrace_eglMakeCurrent s draw ctx w).state.context_map = s.context_map := by
  rw [makeCurrent_state]
  split_ifs <;> exact ⟨rfl, rfl⟩

/-- Make-current deletes nothing. -/
theorem makeCurrent_effects_cases (s : State) (draw ctx : Nat) (w : Reply) (e : Effect)
    (he : e ∈ (retrace_eglMakeCurrent s draw ctx w).effects) :
    e = Effect.glFlush ∨ e = Effect.frame_complete ∨
      e = Effect.makeCurrent (getDrawable s draw) (getContext s ctx) := by
  unfold retrace_eglMakeCurrent at he
  simp only [] at he
  split_ifs at he <;> simp at he <;> tauto

/-- A drawable is deleted only by the destroy-surface call of the handle it is bound under. -/
theorem retrace_deleteDrawable (s : State) (c : Call) (w : Reply) (p : Nat) :
    Effect.deleteDrawable p ∈ (retrace s c w).effects ↔
      ∃ h, c = Call.eglDestroySurface h ∧ mapFind s.drawable_map h = some p := by
  cases c with
  | eglCreateWindowSurface h => simp [retrace, retrace_eglCreateWindowSurface]
  | eglDestroySurface h =>
    simp only [retrace, retrace_eglDestroySurface]
    cases hf : mapFind s.drawable_map h with
    | none => simp [hf]
    | some q => simp [hf, eq_comm]
  | eglBindAPI api => simp [retrace, retrace_eglBindAPI]
  | eglCreateContext share h =>
    simp only [retrace, retrace_eglCreateContext]
    split_ifs <;> simp
  | eglDestroyContext h =>
    simp only [retrace, retrace_eglDestroyContext]
    cases hf : mapFind s.context_map h <;> simp
  | eglMakeCurrent draw ctx =>
    constructor
    · intro he
      rcases makeCurrent_effects_cases s draw ctx w _ he with h1 | h1 | h1 <;> cases h1
    · rintro ⟨h, hc, _⟩
      cases hc
  | eglSwapBuffers =>
    simp only [retrace, retrace_eglSwapBuffers]
    split_ifs <;> simp
  | ignored => simp [retrace]

/-- A context is deleted only by the destroy-context call of the handle it is bound under. -/
theorem retrace_deleteContext (s : State) (c : Call) (w : Reply) (p : Nat) :
    Effect.deleteContext p ∈ (retrace s c w).effects ↔
      ∃ h, c = Call.eglDestroyContext h ∧ mapFind s.context_map h = some p := by
  cases c with
  | eglCreateWindowSurface h => simp [retrace, retrace_eglCreateWindowSurface]
  | eglDestroySurface h =>
    simp only [retrace, retrace_eglDestroySurface]
    cases hf : mapFind s.drawable_map h <;> simp
  | eglBindAPI api => simp [retrace, retrace_eglBindAPI]
  | eglCreateContext share h =>
    simp only [retrace, retrace_eglCreateContext]
    split_ifs <;> simp
  | eglDestroyContext h =>
    simp only [retrace, retrace_eglDestroyContext]
    cases hf : mapFind s.context_map h with
    | none => simp [hf]
    | some q => simp [hf, eq_comm]
  | eglMakeCurrent draw ctx =>
    constructor
    · intro he
      rcases makeCurrent_effects_cases s draw ctx w _ he with h1 | h1 | h1 <;> cases h1
    · rintro ⟨h, hc, _⟩
      cases hc
  | eglSwapBuffers =>
    simp only [retrace, retrace_eglSwapBuffers]
    split_ifs <;> simp
  | ignored => simp [retrace]

/-- Across a call that returns no bound handle, a drawable stays bound under its handle
    unless that very call deletes it. -/
theorem retrace_keeps_drawable (s : State) (c : Call) (w : Reply) (h p : Nat)
    (hf : FreshHandle s c) (hb : mapFind s.drawable_map h = some p) :
    Effect.deleteDrawable p ∈ (retrace s c w).effects ∨
      mapFind (retrace s c w).state.drawable_map h = some p := by
  cases c with
  | eglCreateWindowSurface ret =>
    right
    have hne : h ≠ ret := by
      intro he
      subst he
      simp only [FreshHandle] at hf
      rw [hf] at hb
      cases hb
    simp only [retrace, retrace_eglCreateWindowSurface]
    rw [mapFind_mapSet_ne _ _ _ _ hne]
    exact hb
  | eglDestroySurface h2 =>
    by_cases he : h2 = h
    · left
      exact (retrace_deleteDrawable s _ w p).2 ⟨h2, rfl, he ▸ hb⟩
    · right
      simp only [retrace, retrace_eglDestroySurface]
      cases hf2 : mapFind s.drawable_map h2 with
      | none => exact hb
      | some q =>
        simp only []
        rw [mapFind_mapErase_ne _ _ _ (Ne.symm he)]
        exact hb
  | eglBindAPI api => right; exact hb
  | eglCreateContext share ret =>
    right
    simp only [retrace, retrace_eglCreateContext]
    split_ifs <;> exact hb
  | eglDestroyContext h2 =>
    right
    simp only [retrace, retrace_eglDestroyContext]
    cases mapFind s.context_map h2 <;> exact hb
  | eglMakeCurrent draw ctx =>
    right
    simp only [retrace]
    rw [(makeCurrent_maps s draw ctx w).1]
    exact hb
  | eglSwapBuffers =>
    right
    simp only [retrace, retrace_eglSwapBuffers]
    split_ifs <;> exact hb
  | ignored => right; exact hb

/-- Across a call that returns no bound handle, a context stays bound under its handle
    unless that very call deletes it. -/
theorem retrace_keeps_context (s : State) (c : Call) (w : Reply) (h p : Nat)
    (hf : FreshHandle s c) (hb : mapFind s.context_map h = some p) :
    Effect.deleteContext p ∈ (retrace s c w).effects ∨
      mapFind (retrace s c w).state.context_map h = some p := by
  cases c with
  | eglCreateWindowSurface ret => right; exact hb
  | eglDestroySurface h2 =>
    right
    simp only [retrace, retrace_eglDestroySurface]
    cases mapFind s.drawable_map h2 <;> exact hb
  | eglBindAPI api => right; exact hb
  | eglCreateContext share ret =>
    right
    have hne : h ≠ ret := by
      intro he
      subst he
      simp only [FreshHandle] at hf
      rw [hf] at hb
      cases hb
    simp only [retrace, retrace_eglCreateContext]
    split_ifs
    · exact hb
    · simp only []
      rw [mapFind_mapSet_ne _ _ _ _ hne]
      exact hb
  | eglDestroyContext h2 =>
    by_cases he : h2 = h
    · left
      exact (retrace_deleteContext s _ w p).2 ⟨h2, rfl, he ▸ hb⟩
    · right
      simp only [retrace, retrace_eglDestroyContext]
      cases hf2 : mapFind s.context_map h2 with
      | none => exact hb
      | some q =>
        simp only []
        rw [mapFind_mapErase_ne _ _ _ (Ne.symm he)]
        exact hb
  | eglMakeCurrent draw ctx =>
    right
    simp only [retrace]
    rw [(makeCurrent_maps s draw ctx w).2]
    exact hb
  | eglSwapBuffers =>
    right
    simp only [retrace, retrace_eglSwapBuffers]
    split_ifs <;> exact hb
  | ignored => right; exact hb

/-- Along a replay with 1:1 handles, a bound drawable is deleted or still bound. -/
theorem replay_keeps_drawable (h p : Nat) (calls : List (Call × Reply)) :
    ∀ s : State, FreshCreates s calls → mapFind s.drawable_map h = some p →
      Effect.deleteDrawable p ∈ (replay s calls).effects ∨
        mapFind (replay s calls).state.drawable_map h = some p := by
  induction calls with
  | nil => intro s _ hb; exact Or.inr hb
  | cons e rest ih =>
    obtain ⟨c, w⟩ := e
    intro s hf hb
    obtain ⟨hf1, hf2⟩ := hf
    simp only [replay]
    split_ifs with hok
    · rcases retrace_keeps_drawable s c w h p hf1 hb with h1 | h1
      · exact Or.inl (List.mem_append.2 (Or.inl h1))
      · rcases ih _ hf2 h1 with h2 | h2
        · exact Or.inl (List.mem_append.2 (Or.inr h2))
        · exact Or.inr h2
    · exact retrace_keeps_drawable s c w h p hf1 hb

/-- Along a replay with 1:1 handles, a bound context is deleted or still bound. -/
theorem replay_keeps_context (h p : Nat) (calls : List (Call × Reply)) :
    ∀ s : State, FreshCreates s calls → mapFind s.context_map h = some p →
      Effect.deleteContext p ∈ (replay s calls).effects ∨
        mapFind (replay s calls).state.context_map h = some p := by
  induction calls with
  | nil => intro s _ hb; exact Or.inr hb
  | cons e rest ih =>
    obtain ⟨c, w⟩ := e
    intro s hf hb
    obtain ⟨hf1, hf2⟩ := hf
    simp only [replay]
    split_ifs with hok
    · rcases retrace_keeps_context s c w h p hf1 hb with h1 | h1
      · exact Or.inl (List.mem_append.2 (Or.inl h1))
      · rcases ih _ hf2 h1 with h2 | h2
        · exact Or.inl (List.mem_append.2 (Or.inr h2))
        · exact Or.inr h2
    · exact retrace_keeps_context s c w h p hf1 hb

/-- The first call of a replay that ends normally ends normally, and so does the rest. -/
theorem replay_cons_ok (s : State) (c : Call) (w : Reply) (rest : List (Call × Reply))
    (h : (replay s ((c, w) :: rest)).outcome = Outcome.ok) :
    (retrace s c w).outcome = Outcome.ok ∧
      (replay (retrace s c w).state rest).outcome = Outcome.ok := by
  simp only [replay] at h
  by_cases hok : (retrace s c w).outcome = Outcome.ok
  · simp only [hok, if_true] at h
    exact ⟨hok, h⟩
  · simp only [hok, if_false] at h

/-- Effects and state of a replay whose first call ends normally. -/
theorem replay_cons_of_ok (s : State) (c : Call) (w : Reply) (rest : List (Call × Reply))
    (hok : (retrace s c w).outcome = Outcome.ok) :
    (replay s ((c, w) :: rest)).effects
      = (retrace s c w).effects ++ (replay (retrace s c w).state rest).effects ∧
    (replay s ((c, w) :: rest)).state = (replay (retrace s c w).state rest).state ∧
    (replay s ((c, w) :: rest)).outcome = (replay (retrace s c w).state rest).outcome := by
  simp only [replay, hok, if_true]
  exact ⟨trivial, trivial, trivial⟩

/-- Along a replay with 1:1 handles that ends normally, every drawable a create call bound
    under `h` is deleted or still bound under `h`. -/
theorem replay_bound_drawables (h : Nat) (calls : List (Call × Reply)) :
    ∀ s : State, FreshCreates s calls → (replay s calls).outcome = Outcome.ok →
      ∀ p ∈ drawablesBoundUnder h calls,
        Effect.deleteDrawable p ∈ (replay s calls).effects ∨
          mapFind (replay s calls).state.drawable_map h = some p := by
  induction calls with
  | nil => intro s _ _ p hp; simp [drawablesBoundUnder] at hp
  | cons e rest ih =>
    obtain ⟨c, w⟩ := e
    intro s hf hok p hp
    obtain ⟨hf1, hf2⟩ := hf
    obtain ⟨hok1, hok2⟩ := replay_cons_ok s c w rest hok
    obtain ⟨he, hs, _⟩ := replay_cons_of_ok s c w rest hok1
    rw [he, hs]
    have hrest : p ∈ drawablesBoundUnder h rest →
        Effect.deleteDrawable p ∈ (retrace s c w).effects
            ++ (replay (retrace s c w).state rest).effects ∨
          mapFind (replay (retrace s c w).state rest).state.drawable_map h = some p := by
      intro hp1
      rcases ih _ hf2 hok2 p hp1 with h1 | h1
      · exact Or.inl (List.mem_append.2 (Or.inr h1))
      · exact Or.inr h1
    cases c with
    | eglCreateWindowSurface ret =>
      simp only [drawablesBoundUnder] at hp
      by_cases hr : ret = h
      · simp only [hr, if_true, List.mem_cons] at hp
        rcases hp with hp | hp
        · have hb : mapFind (retrace s (Call.eglCreateWindowSurface ret) w).state.drawable_map h
              = some p := by
            simp only [retrace, retrace_eglCreateWindowSurface]
            rw [hr, hp]
            exact mapFind_mapSet_self _ _ _
          rcases replay_keeps_drawable h p rest _ hf2 hb with h1 | h1
          · exact Or.inl (List.mem_append.2 (Or.inr h1))
          · exact Or.inr h1
        · exact hrest hp
      · simp only [hr, if_false] at hp
        exact hrest hp
    | eglDestroySurface h2 => exact hrest (by simpa only [drawablesBoundUnder] using hp)
    | eglBindAPI api => exact hrest (by simpa only [drawablesBoundUnder] using hp)
    | eglCreateContext share ret => exact hrest (by simpa only [drawablesBoundUnder] using hp)
    | eglDestroyContext h2 => exact hrest (by simpa only [drawablesBoundUnder] using hp)
    | eglMakeCurrent draw ctx => exact hrest (by simpa only [drawablesBoundUnder] using hp)
    | eglSwapBuffers => exact hrest (by simpa only [drawablesBoundUnder] using hp)
    | ignored => exact hrest (by simpa only [drawablesBoundUnder] using hp)

/-- Along a replay with 1:1 handles that ends normally, every context a create call bound
    under `h` is deleted or still bound under `h`. -/
theorem replay_bound_contexts (h : Nat) (calls : List (Call × Reply)) :
    ∀ s : State, FreshCreates s calls → (replay s calls).outcome = Outcome.ok →
      ∀ p ∈ contextsBoundUnder h calls,
        Effect.deleteContext p ∈ (replay s calls).effects ∨
          mapFind (replay s calls).state.context_map h = some p := by
  induction calls with
  | nil => intro s _ _ p hp; simp [contextsBoundUnder] at hp
  | cons e rest ih =>
    obtain ⟨c, w⟩ := e
    intro s hf hok p hp
    obtain ⟨hf1, hf2⟩ := hf
    obtain ⟨hok1, hok2⟩ := replay_cons_ok s c w rest hok
    obtain ⟨he, hs, _⟩ := replay_cons_of_ok s c w rest hok1
    rw [he, hs]
    have hrest : p ∈ contextsBoundUnder h rest →
        Effect.deleteContext p ∈ (retrace s c w).effects
            ++ (replay (retrace s c w).state rest).effects ∨
          mapFind (replay (retrace s c w).state rest).state.context_map h = some p := by
      intro hp1
      rcases ih _ hf2 hok2 p hp1 with h1 | h1
      · exact Or.inl (List.mem_append.2 (Or.inr h1))
      · exact Or.inr h1
    cases c with
    | eglCreateContext share ret =>
      simp only [contextsBoundUnder] at hp
      by_cases hr : ret = h
      · simp only [hr, if_true, List.mem_cons] at hp
        rcases hp with hp | hp
        · have hapi : ¬ s.current_api ≠ EGL_OPENGL_API := by
            intro hne
            simp [retrace, retrace_eglCreateContext, hne] at hok1
          have hb : mapFind (retrace s (Call.eglCreateContext share ret) w).state.context_map h
              = some p := by
            simp only [retrace, retrace_eglCreateContext, hapi, if_false]
            rw [hr, hp]
            exact mapFind_mapSet_self _ _ _
          rcases replay_keeps_context h p rest _ hf2 hb with h1 | h1
          · exact Or.inl (List.mem_append.2 (Or.inr h1))
          · exact Or.inr h1
        · exact hrest hp
      · simp only [hr, if_false] at hp
        exact hrest hp
    | eglDestroySurface h2 => exact hrest (by simpa only [contextsBoundUnder] using hp)
    | eglBindAPI api => exact hrest (by simpa only [contextsBoundUnder] using hp)
    | eglCreateWindowSurface ret => exact hrest (by simpa only [contextsBoundUnder] using hp)
    | eglDestroyContext h2 => exact hrest (by simpa only [contextsBoundUnder] using hp)
    | eglMakeCurrent draw ctx => exact hrest (by simpa only [contextsBoundUnder] using hp)
    | eglSwapBuffers => exact hrest (by simpa only [contextsBoundUnder] using hp)
    | ignored => exact hrest (by simpa only [contextsBoundUnder] using hp)

/-- C21 (as worded, refuted): two create-window-surface calls return the same handle 1
    (live drawables 100 and 101); the replay ends normally, the destroy call for handle 1
    deletes drawable 101 only, and drawable 100, which an earlier create call bound under
    handle 1, is never deleted. -/
theorem rebound_drawable_never_released :
    (replay (initial true) reboundCalls).outcome = Outcome.ok ∧
    reboundCalls = reboundCalls.take 2 ++ [(Call.eglDestroySurface 1, noReply)] ∧
    100 ∈ drawablesBoundUnder 1 (reboundCalls.take 2) ∧
    Effect.deleteDrawable 100 ∉ (replay (initial true) reboundCalls).effects ∧
    (replay (initial true) reboundCalls).effects
      = [Effect.createDrawable 100, Effect.createDrawable 101, Effect.deleteDrawable 101] := by
  decide

/-- C21 (amended): in a replay, from any state, of a sequence of recorded calls that keeps
    handles and live resources 1:1 (no create call returns a handle that still has a map
    entry) and ends normally, once a destroy call for handle `h` has been processed every
    live drawable, respectively context, that an earlier create call bound under `h` has
    been deleted; and, for every call in every state, a live resource is deleted only by
    the destroy call for the handle whose map entry holds it. -/
theorem destroy_releases_bound_resources (s : State) (calls : List (Call × Reply))
    (h : Nat) (w : Reply) (hfresh : FreshCreates s calls)
    (hok : (replay s calls).outcome = Outcome.ok) :
    (∀ p ∈ drawablesBoundUnder h calls,
      Effect.deleteDrawable p
        ∈ (replay s (calls ++ [(Call.eglDestroySurface h, w)])).effects) ∧
    (∀ p ∈ contextsBoundUnder h calls,
      Effect.deleteContext p
        ∈ (replay s (calls ++ [(Call.eglDestroyContext h, w)])).effects) ∧
    (∀ (s1 : State) (c : Call) (w1 : Reply) (p : Nat),
      (Effect.deleteDrawable p ∈ (retrace s1 c w1).effects ↔
        ∃ k, c = Call.eglDestroySurface k ∧ mapFind s1.drawable_map k = some p) ∧
      (Effect.deleteContext p ∈ (retrace s1 c w1).effects ↔
        ∃ k, c = Call.eglDestroyContext k ∧ mapFind s1.context_map k = some p)) := by
  refine ⟨?_, ?_, fun s1 c w1 p => ⟨retrace_deleteDrawable s1 c w1 p,
    retrace_deleteContext s1 c w1 p⟩⟩
  · intro p hp
    rw [replay_append _ _ s hok, replay_single]
    simp only [List.mem_append]
    rcases replay_bound_drawables h calls s hfresh hok p hp with h1 | h1
    · exact Or.inl h1
    · exact Or.inr ((retrace_deleteDrawable _ _ w p).2 ⟨h, rfl, h1⟩)
  · intro p hp
    rw [replay_append _ _ s hok, replay_single]
    simp only [List.mem_append]
    rcases replay_bound_contexts h calls s hfresh hok p hp with h1 | h1
    · exact Or.inl h1
    · exact Or.inr ((retrace_deleteContext _ _ w p).2 ⟨h, rfl, h1⟩)

/-- C21 witness: after the set-up calls, destroying surface 1 deletes drawable 100 and
    destroying context 2 deletes context 200. -/
theorem destroy_releases_bound_resources_witness :
    FreshCreates (initial true) setupCalls ∧
    (replay (initial true) setupCalls).outcome = Outcome.ok ∧
    100 ∈ drawablesBoundUnder 1 setupCalls ∧
    Effect.deleteDrawable 100
      ∈ (replay (initial true) (setupCalls ++ [(Call.eglDestroySurface 1, noReply)])).effects :=
  ⟨by decide, by decide, by decide,
    (destroy_releases_bound_resources (initial true) setupCalls 1 noReply (by decide)
      (by decide)).1 100 (by decide)⟩

/-- Frame-complete signals of a make-current: one, at the switch away from a fully bound
    pair on a single-buffered surface, and none otherwise. -/
theorem makeCurrent_frameSignals (s : State) (draw ctx : Nat) (w : Reply) :
    frameSignals (retrace_eglMakeCurrent s draw ctx w).effects
      = if ¬ (getDrawable s draw = s.drawable ∧ getContext s ctx = s.context) ∧
          s.drawable ≠ 0 ∧ s.context ≠ 0 ∧ s.double_buffer = false then 1 else 0 := by
  unfold retrace_eglMakeCurrent frameSignals
  simp only []
  by_cases hsame : getDrawable s draw = s.drawable ∧ getContext s ctx = s.context
  · simp [hsame]
  · by_cases hb : s.drawable ≠ 0 ∧ s.context ≠ 0
    · cases hdb : s.double_buffer <;> split_ifs <;> simp_all [List.count_cons]
    · split_ifs <;> simp_all [List.count_cons]

/-- Frame-complete signals of one call. -/
theorem retrace_frameSignals (s : State) (c : Call) (w : Reply) :
    frameSignals (retrace s c w).effects
      = if SignalsFrame s c then 1 else 0 := by
  cases c with
  | eglCreateWindowSurface h =>
    simp [retrace, retrace_eglCreateWindowSurface, frameSignals, SignalsFrame]
  | eglDestroySurface h =>
    simp only [retrace, retrace_eglDestroySurface]
    cases mapFind s.drawable_map h <;> simp [frameSignals, SignalsFrame]
  | eglBindAPI api => simp [retrace, retrace_eglBindAPI, frameSignals, SignalsFrame]
  | eglCreateContext share h =>
    simp only [retrace, retrace_eglCreateContext, SignalsFrame, if_false]
    split_ifs <;> simp [frameSignals]
  | eglDestroyContext h =>
    simp only [retrace, retrace_eglDestroyContext]
    cases mapFind s.context_map h <;> simp [frameSignals, SignalsFrame]
  | eglMakeCurrent draw ctx =>
    simp only [retrace, makeCurrent_frameSignals, SignalsFrame]
  | eglSwapBuffers =>
    simp only [retrace, retrace_eglSwapBuffers, SignalsFrame, if_true]
    split_ifs <;> simp [frameSignals]
  | ignored => simp [retrace, frameSignals, SignalsFrame]

/-- On a double-buffered surface a call signals frame-complete once if it is a swap and not
    at all otherwise. -/
theorem retrace_frameSignals_double (s : State) (c : Call) (w : Reply)
    (hdb : s.double_buffer = true) :
    frameSignals (retrace s c w).effects = if isSwap c = true then 1 else 0 := by
  rw [retrace_frameSignals]
  cases c <;> simp [isSwap, SignalsFrame, hdb]

/-- On a double-buffered surface the frame-complete signals of a replay are as many as the
    swap-buffers calls it processes. -/
theorem replay_frameSignals_double (calls : List (Call × Reply)) :
    ∀ s : State, s.double_buffer = true →
      frameSignals (replay s calls).effects = swapsProcessed s calls := by
  induction calls with
  | nil => intro s _; rfl
  | cons e rest ih =>
    obtain ⟨c, w⟩ := e
    intro s hdb
    have hstep := retrace_frameSignals_double s c w hdb
    have hdb1 : (retrace s c w).state.double_buffer = true := by
      rw [retrace_double_buffer]; exact hdb
    have hrest := ih _ hdb1
    simp only [frameSignals, swapsProcessed] at hstep hrest ⊢
    simp only [replay, processedCalls]
    by_cases hok : (retrace s c w).outcome = Outcome.ok
    · simp only [hok, if_true, List.count_append, List.countP_cons, hstep, hrest]
      omega
    · simp only [hok, if_false, List.countP_cons, List.countP_nil, hstep]
      omega

/-- A replay that ends normally processes every call of the sequence. -/
theorem processedCalls_of_ok (calls : List (Call × Reply)) :
    ∀ s : State, (replay s calls).outcome = Outcome.ok → processedCalls s calls = calls := by
  induction calls with
  | nil => intro s _; rfl
  | cons e rest ih =>
    obtain ⟨c, w⟩ := e
    intro s hok
    obtain ⟨hok1, hok2⟩ := replay_cons_ok s c w rest hok
    simp only [processedCalls, hok1, if_true, ih _ hok2]

/-- C22: a call signals frame-complete exactly once when it is a swap-buffers call or a
    make-current that switches away from a fully bound pair on a single-buffered surface,
    and not at all otherwise, whatever the handler; hence on a double-buffered surface the
    number of frame-complete signals of any replay equals the number of swap-buffers calls
    it processes (all swap-buffers calls of the sequence when the replay ends normally). -/
theorem frame_complete_only_at_swap_and_switch :
    (∀ (s : State) (c : Call) (w : Reply),
      frameSignals (retrace s c w).effects = if SignalsFrame s c then 1 else 0) ∧
    (∀ (s : State) (c : Call) (w : Reply),
      Effect.frame_complete ∈ (retrace s c w).effects ↔ SignalsFrame s c) ∧
    (∀ (s : State) (calls : List (Call × Reply)), s.double_buffer = true →
      frameSignals (replay s calls).effects = swapsProcessed s calls) ∧
    (∀ (s : State) (calls : List (Call × Reply)), s.double_buffer = true →
      (replay s calls).outcome = Outcome.ok →
      frameSignals (replay s calls).effects = calls.countP (fun e => isSwap e.1)) := by
  refine ⟨retrace_frameSignals, ?_, fun s calls h => replay_frameSignals_double calls s h, ?_⟩
  · intro s c w
    have h := retrace_frameSignals s c w
    unfold frameSignals at h
    rw [← List.count_pos_iff, h]
    by_cases hs : SignalsFrame s c <;> simp [hs]
  · intro s calls hdb hok
    rw [replay_frameSignals_double calls s hdb, swapsProcessed, processedCalls_of_ok calls s hok]

/-- C22 witness: a double-buffered replay of the set-up calls followed by two swaps signals
    frame-complete twice. -/
theorem frame_complete_only_at_swap_and_switch_witness :
    (initial true).double_buffer = true ∧
    frameSignals (replay (initial true)
      (setupCalls ++ [(Call.eglSwapBuffers, noReply), (Call.eglSwapBuffers, noReply)])).effects
      = swapsProcessed (initial true)
          (setupCalls ++ [(Call.eglSwapBuffers, noReply), (Call.eglSwapBuffers, noReply)]) ∧
    swapsProcessed (initial true)
      (setupCalls ++ [(Call.eglSwapBuffers, noReply), (Call.eglSwapBuffers, noReply)]) = 2 :=
  ⟨rfl, frame_complete_only_at_swap_and_switch.2.2.1 (initial true) _ rfl, by decide⟩

/-- A call that is no successful make-current leaves a null current drawable null. -/
theorem retrace_no_binding (s : State) (c : Call) (w : Reply) (hd : s.drawable = 0)
    (hn : ¬ Succeeds s c w) : (retrace s c w).state.drawable = 0 := by
  by_cases hc : ∃ draw ctx, c = Call.eglMakeCurrent draw ctx
  · obtain ⟨draw, ctx, rfl⟩ := hc
    simp only [Succeeds] at hn
    simp only [retrace, makeCurrent_state]
    split_ifs
    · exact hd
    · rfl
  · rw [(retrace_pair_unchanged s c w (fun draw ctx he => hc ⟨draw, ctx, he⟩)).1]
    exact hd

/-- While no make-current succeeds, the current drawable stays null. -/
theorem replay_no_binding (calls : List (Call × Reply)) :
    ∀ s : State, s.drawable = 0 → NoneSucceeds s calls → (replay s calls).state.drawable = 0 := by
  induction calls with
  | nil => intro s hd _; exact hd
  | cons e rest ih =>
    obtain ⟨c, w⟩ := e
    intro s hd hn
    obtain ⟨hn1, hn2⟩ := hn
    have h1 := retrace_no_binding s c w hd hn1
    simp only [replay]
    split_ifs
    · exact ih _ h1 hn2
    · exact h1

/-- Swap-buffers on a double-buffered surface with a null current drawable. -/
theorem swap_null_drawable (s : State) (w : Reply) (hdb : s.double_buffer = true)
    (hd : s.drawable = 0) :
    retrace s Call.eglSwapBuffers w
      = { state := s, effects := [Effect.frame_complete, Effect.swapBuffers 0],
          outcome := Outcome.fault } := by
  simp [retrace, retrace_eglSwapBuffers, hdb, hd]

/-- No object lives at a deleted address. -/
theorem not_mem_heapDelete (heap : List Nat) (p : Nat) : p ∉ heapDelete heap p := by
  unfold heapDelete
  simp

/-- Swap-buffers on a double-buffered surface through a pointer at which no drawable
    lives. -/
theorem swap_dangling_drawable (s : State) (w : Reply) (hdb : s.double_buffer = true)
    (hd : s.drawable ∉ s.live_drawables) :
    retrace s Call.eglSwapBuffers w
      = { state := s, effects := [Effect.frame_complete, Effect.swapBuffers s.drawable],
          outcome := Outcome.fault } := by
  simp [retrace, retrace_eglSwapBuffers, hdb, hd]

/-- C24 (as worded, refuted): after surface 1 and context 2 are made current on a
    double-buffered surface and surface 1 is destroyed, the current drawable is the
    non-null pointer 100, at which no drawable lives any more; the swap signals
    frame-complete, calls through that pointer and faults. -/
theorem swap_faults_on_deleted_drawable :
    (replay (initial true) (setupCalls ++ [(Call.eglDestroySurface 1, noReply)])).outcome
      = Outcome.ok ∧
    (replay (initial true)
      (setupCalls ++ [(Call.eglDestroySurface 1, noReply)])).state.double_buffer = true ∧
    (replay (initial true)
      (setupCalls ++ [(Call.eglDestroySurface 1, noReply)])).state.drawable = 100 ∧
    (replay (initial true)
      (setupCalls ++ [(Call.eglDestroySurface 1, noReply)])).effects
      = [Effect.createDrawable 100, Effect.createContext 0 200, Effect.makeCurrent 100 200,
          Effect.deleteDrawable 100] ∧
    (retrace (replay (initial true)
      (setupCalls ++ [(Call.eglDestroySurface 1, noReply)])).state
        Call.eglSwapBuffers noReply).effects
      = [Effect.frame_complete, Effect.swapBuffers 100] ∧
    (retrace (replay (initial true)
      (setupCalls ++ [(Call.eglDestroySurface 1, noReply)])).state
        Call.eglSwapBuffers noReply).outcome = Outcome.fault := by
  decide

/-- C24 (amended): swap-buffers calls through the current drawable unchecked. On a
    double-buffered surface it ends normally exactly when the current drawable is non-null
    and a drawable lives at it (created and not deleted since); through a null pointer, and
    through a pointer at which no drawable lives, it signals frame-complete and then faults
    in the call; on a single-buffered surface it always ends normally. Hence on a
    double-buffered surface a swap faults when it is processed from the initial state
    after calls that end normally and among which no make-current succeeds, when it follows
    a make-current that switches the pair and fails or resolves a null resource, and when
    it follows the destroy-surface call for the handle whose entry holds the current
    drawable. -/
theorem swap_ok_iff_live_drawable :
    (∀ (s : State) (w : Reply), s.double_buffer = true →
      ((retrace s Call.eglSwapBuffers w).outcome = Outcome.ok ↔
        (s.drawable ≠ 0 ∧ s.drawable ∈ s.live_drawables))) ∧
    (∀ (s : State) (w : Reply), s.double_buffer = true → s.drawable = 0 →
      (retrace s Call.eglSwapBuffers w).outcome = Outcome.fault ∧
      (retrace s Call.eglSwapBuffers w).effects
        = [Effect.frame_complete, Effect.swapBuffers 0]) ∧
    (∀ (s : State) (w : Reply), s.double_buffer = true → s.drawable ∉ s.live_drawables →
      (retrace s Call.eglSwapBuffers w).outcome = Outcome.fault ∧
      (retrace s Call.eglSwapBuffers w).effects
        = [Effect.frame_complete, Effect.swapBuffers s.drawable]) ∧
    (∀ (s : State) (w : Reply), s.double_buffer = false →
      (retrace s Call.eglSwapBuffers w).outcome = Outcome.ok) ∧
    (∀ (calls : List (Call × Reply)) (w : Reply), NoneSucceeds (initial true) calls →
      (replay (initial true) calls).outcome = Outcome.ok →
      (replay (initial true) (calls ++ [(Call.eglSwapBuffers, w)])).outcome = Outcome.fault ∧
      (replay (initial true) (calls ++ [(Call.eglSwapBuffers, w)])).effects
        = (replay (initial true) calls).effects
            ++ [Effect.frame_complete, Effect.swapBuffers 0]) ∧
    (∀ (s : State) (draw ctx : Nat) (w w2 : Reply), s.double_buffer = true →
      ¬ (getDrawable s draw = s.drawable ∧ getContext s ctx = s.context) →
      (getDrawable s draw = 0 ∨ getContext s ctx = 0 ∨ w.result = false) →
      (replay s [(Call.eglMakeCurrent draw ctx, w), (Call.eglSwapBuffers, w2)]).outcome
        = Outcome.fault ∧
      (replay s [(Call.eglMakeCurrent draw ctx, w), (Call.eglSwapBuffers, w2)]).effects
        = (retrace s (Call.eglMakeCurrent draw ctx) w).effects
            ++ [Effect.frame_complete, Effect.swapBuffers 0]) ∧
    (∀ (s : State) (h : Nat) (w w2 : Reply), s.double_buffer = true →
      mapFind s.drawable_map h = some s.drawable →
      (replay s [(Call.eglDestroySurface h, w), (Call.eglSwapBuffers, w2)]).outcome
        = Outcome.fault ∧
      (replay s [(Call.eglDestroySurface h, w), (Call.eglSwapBuffers, w2)]).effects
        = [Effect.deleteDrawable s.drawable, Effect.frame_complete,
            Effect.swapBuffers s.drawable]) := by
  refine ⟨?_, ?_, ?_, ?_, ?_, ?_, ?_⟩
  · intro s w hdb
    simp only [retrace, retrace_eglSwapBuffers, hdb, if_true]
    by_cases hd : s.drawable = 0
    · simp [hd]
    · by_cases hl : s.drawable ∈ s.live_drawables <;> simp [hd, hl]
  · intro s w hdb hd
    rw [swap_null_drawable s w hdb hd]
    exact ⟨rfl, rfl⟩
  · intro s w hdb hd
    rw [swap_dangling_drawable s w hdb hd]
    exact ⟨rfl, rfl⟩
  · intro s w hdb
    simp [retrace, retrace_eglSwapBuffers, hdb]
  · intro calls w hn hok
    have hd : (replay (initial true) calls).state.drawable = 0 :=
      replay_no_binding calls (initial true) rfl hn
    have hdb : (replay (initial true) calls).state.double_buffer = true :=
      replay_invariant (fun s => s.double_buffer = true)
        (fun s c w h => by
          show (retrace s c w).state.double_buffer = true
          rw [retrace_double_buffer]
          exact h) calls (initial true) rfl
    rw [replay_append _ _ _ hok, replay_single, swap_null_drawable _ w hdb hd]
    exact ⟨rfl, rfl⟩
  · intro s draw ctx w w2 hdb hsame hfail
    have hok : (retrace s (Call.eglMakeCurrent draw ctx) w).outcome = Outcome.ok := by
      simp only [retrace, retrace_eglMakeCurrent]
      split_ifs <;> rfl
    have hns : ¬ (getDrawable s draw ≠ 0 ∧ getContext s ctx ≠ 0 ∧ w.result = true) := by
      rintro ⟨h1, h2, h3⟩
      rcases hfail with h | h | h
      · exact h1 h
      · exact h2 h
      · rw [h3] at h; cases h
    have hst : (retrace s (Call.eglMakeCurrent draw ctx) w).state
        = { s with drawable := 0, context := 0 } := by
      simp only [retrace, makeCurrent_state, hsame, hns, if_false]
    obtain ⟨he, _, ho⟩ := replay_cons_of_ok s _ w [(Call.eglSwapBuffers, w2)] hok
    have hsw := swap_null_drawable { s with drawable := 0, context := 0 } w2 hdb rfl
    rw [he, ho, replay_single, hst, hsw]
    exact ⟨rfl, rfl⟩
  · intro s h w w2 hdb hf
    have hstep : retrace s (Call.eglDestroySurface h) w
        = { state := { s with drawable_map := mapErase s.drawable_map h,
                              live_drawables := heapDelete s.live_drawables s.drawable },
            effects := [Effect.deleteDrawable s.drawable], outcome := Outcome.ok } := by
      simp only [retrace, retrace_eglDestroySurface, hf]
    obtain ⟨he, _, ho⟩ := replay_cons_of_ok s _ w [(Call.eglSwapBuffers, w2)]
      (by rw [hstep])
    have hsw := swap_dangling_drawable
      { s with drawable_map := mapErase s.drawable_map h,
               live_drawables := heapDelete s.live_drawables s.drawable } w2 hdb
      (not_mem_heapDelete _ _)
    rw [he, ho, replay_single, hstep, hsw]
    exact ⟨rfl, rfl⟩

/-- C24 witness: on a double-buffered surface a swap right after creating the surface and
    the context, with nothing made current, faults after signalling frame-complete; a swap
    with surface 1 current ends normally, and after the destroy of surface 1 it faults. -/
theorem swap_ok_iff_live_drawable_witness :
    NoneSucceeds (initial true) (setupCalls.take 3) ∧
    (replay (initial true) (setupCalls.take 3)).outcome = Outcome.ok ∧
    (replay (initial true) (setupCalls.take 3 ++ [(Call.eglSwapBuffers, noReply)])).outcome
      = Outcome.fault ∧
    (retrace (boundState true) Call.eglSwapBuffers noReply).outcome = Outcome.ok ∧
    (replay (boundState true)
      [(Call.eglDestroySurface 1, noReply), (Call.eglSwapBuffers, noReply)]).outcome
      = Outcome.fault :=
  ⟨by decide, by decide,
    (swap_ok_iff_live_drawable.2.2.2.2.1 (setupCalls.take 3) noReply (by decide)
      (by decide)).1,
    (swap_ok_iff_live_drawable.1 (boundState true) noReply rfl).2 (by decide),
    (swap_ok_iff_live_drawable.2.2.2.2.2.2 (boundState true) 1 noReply noReply rfl
      (by decide)).1⟩

/-! ## Theorems: read-back buffer and unsupported index types -/

set_option maxRecDepth 100000 in
/-- C23 (the code at the failing input): with an element-array buffer bound, 8 unsigned-byte
    indices and a successful allocation returning pointer 128, the resolver allocates the
    read-back buffer 128 and the pointer it passes to `free` is the outer `temp`, which is
    null; and whenever a call allocates a buffer `p`, `p` is non-null and the pointer freed
    is null, not `p`, so the allocation outlives the call. -/
theorem maxindex_readback_buffer_not_freed :
    (__glDrawElementsBaseVertex_maxindex bufferEnv 8 GL_UNSIGNED_BYTE 0 0).allocated
      = some 128 ∧
    (__glDrawElementsBaseVertex_maxindex bufferEnv 8 GL_UNSIGNED_BYTE 0 0).freed = some 0 ∧
    (∀ (env : IndexEnv) (count : Int) (type indices : Nat) (basevertex : Int) (p : Nat),
      (__glDrawElementsBaseVertex_maxindex env count type indices basevertex).allocated
        = some p →
      p ≠ 0 ∧
      (__glDrawElementsBaseVertex_maxindex env count type indices basevertex).freed
        = some 0 ∧
      (__glDrawElementsBaseVertex_maxindex env count type indices basevertex).freed
        ≠ some p) := by
  refine ⟨by decide, by decide, ?_⟩
  intro env count type indices basevertex p h
  unfold __glDrawElementsBaseVertex_maxindex at h ⊢
  simp only [] at h ⊢
  split_ifs at h ⊢ <;> simp_all <;> omega

/-- An index type other than the three supported ones is not scanned. -/
theorem scanIndices_unknown (type : Nat) (bytes : Nat → Nat) (count : Int)
    (ht : type ≠ GL_UNSIGNED_BYTE ∧ type ≠ GL_UNSIGNED_SHORT ∧ type ≠ GL_UNSIGNED_INT) :
    scanIndices type bytes count = 0 := by
  unfold scanIndices
  rw [if_neg ht.1, if_neg ht.2.1, if_neg ht.2.2]

/-- Under the hypotheses of a readable draw call with an unsupported index type the value
    returned is `basevertex` as an unsigned 32-bit number. -/
theorem maxindex_ret_unknown (env : IndexEnv) (count : Int) (type indices : Nat)
    (basevertex : Int) (hc : 0 < count) (hc1 : count < 2 ^ 31)
    (ht : type ≠ GL_UNSIGNED_BYTE ∧ type ≠ GL_UNSIGNED_SHORT ∧ type ≠ GL_UNSIGNED_INT)
    (hr : Readable env count type indices) :
    (__glDrawElementsBaseVertex_maxindex env count type indices basevertex).ret
      = (0 + toUnsigned basevertex) % 2 ^ 32 := by
  have hc0 : count ≠ 0 := by omega
  have hts := type_size_le type
  have hsz : (toSizeT count * __gl_type_size type) % 2 ^ 64
      = count.toNat * __gl_type_size type := by
    rw [toSizeT_of_nonneg count (by omega) (by omega)]
    have : count.toNat < 2 ^ 31 := by omega
    apply Nat.mod_eq_of_lt
    calc count.toNat * __gl_type_size type ≤ 2 ^ 31 * 8 :=
          Nat.mul_le_mul (by omega) hts
      _ < 2 ^ 64 := by norm_num
  unfold __glDrawElementsBaseVertex_maxindex Readable at *
  simp only [hsz]
  rw [if_neg hc0]
  by_cases hb : env.element_array_buffer ≠ 0
  · rw [if_pos hb] at hr ⊢
    obtain ⟨hm, hlen⟩ := hr
    rw [if_neg hm]
    simp only []
    rw [scanIndices_unknown type _ count ht]
  · rw [if_neg hb] at hr ⊢
    rw [if_neg hr]
    simp only []
    rw [scanIndices_unknown type _ count ht]

/-- C25: for `count > 0`, readable indices and an index type other than unsigned byte,
    unsigned short and unsigned int, `__glDrawElementsBaseVertex_maxindex` scans no index
    (the scanned maximum is 0 whatever the bytes) and returns `basevertex` modulo `2^32`,
    the same in every environment in which the indices are readable; so it returns 0 for
    `basevertex` 0 and a non-zero value for a non-zero `GLint` `basevertex`. -/
theorem maxindex_unknown_type_is_basevertex (env : IndexEnv) (count : Int)
    (type indices : Nat) (basevertex : Int) (hc : 0 < count) (hc1 : count < 2 ^ 31)
    (ht : type ≠ GL_UNSIGNED_BYTE ∧ type ≠ GL_UNSIGNED_SHORT ∧ type ≠ GL_UNSIGNED_INT)
    (hr : Readable env count type indices) :
    ((__glDrawElementsBaseVertex_maxindex env count type indices basevertex).ret : Int)
      = basevertex % 2 ^ 32 ∧
    (∀ bytes : Nat → Nat, scanIndices type bytes count = 0) ∧
    (∀ (env2 : IndexEnv) (indices2 : Nat), Readable env2 count type indices2 →
      (__glDrawElementsBaseVertex_maxindex env2 count type indices2 basevertex).ret
        = (__glDrawElementsBaseVertex_maxindex env count type indices basevertex).ret) ∧
    (basevertex = 0 →
      (__glDrawElementsBaseVertex_maxindex env count type indices basevertex).ret = 0) ∧
    (basevertex ≠ 0 → FitsInt basevertex →
      (__glDrawElementsBaseVertex_maxindex env count type indices basevertex).ret ≠ 0) := by
  have hret := maxindex_ret_unknown env count type indices basevertex hc hc1 ht hr
  have hint : ((__glDrawElementsBaseVertex_maxindex env count type indices basevertex).ret
      : Int) = basevertex % 2 ^ 32 := by
    rw [hret, unsigned_add_int]
    simp
  refine ⟨hint, fun bytes => scanIndices_unknown type bytes count ht, ?_, ?_, ?_⟩
  · intro env2 indices2 hr2
    rw [hret, maxindex_ret_unknown env2 count type indices2 basevertex hc hc1 ht hr2]
  · intro hb
    have h0 : ((__glDrawElementsBaseVertex_maxindex env count type indices basevertex).ret
        : Int) = 0 := by
      rw [hint, hb]; rfl
    exact_mod_cast h0
  · intro hb hfit h0
    rw [h0] at hint
    obtain ⟨h1, h2⟩ := hfit
    have h3 : basevertex % 2 ^ 32 = 0 := by
      rw [← hint]; rfl
    omega

set_option maxRecDepth 100000 in
/-- C25 witness: 8 indices of type `GL_FLOAT` in client memory with `basevertex` 10 give
    10. -/
theorem maxindex_unknown_type_is_basevertex_witness :
    Readable clientEnv 8 GL_FLOAT 64 ∧
    ((__glDrawElementsBaseVertex_maxindex clientEnv 8 GL_FLOAT 64 10).ret : Int)
      = 10 % 2 ^ 32 ∧
    (__glDrawElementsBaseVertex_maxindex bufferEnv 8 GL_BYTE 0 10).ret = 10 :=
  ⟨by decide,
    (maxindex_unknown_type_is_basevertex clientEnv 8 GL_FLOAT 64 10 (by decide) (by decide)
      (by decide) (by decide)).1,
    by decide⟩

/-! ## Theorems: tight packing and uniform sizes -/

/-- For a component type a pixel takes 8 bits per byte of each channel. -/
theorem bits_per_pixel_component (format type : Nat) (ht : type ∈ componentTypes) :
    bits_per_pixel format type
      = 8 * (__gl_format_channels format * __gl_type_size type) := by
  have hc := format_channels_le format
  unfold componentTypes at ht
  simp only [List.mem_cons, List.mem_singleton, List.not_mem_nil, or_false] at ht
  unfold bits_per_pixel
  simp only []
  generalize __gl_format_channels format = c at hc ⊢
  rcases ht with h | h | h | h | h | h | h | h <;> subst h <;> interval_cases c <;> decide

/-- At alignment 1 the row stride of the specification is the byte count of the row. -/
theorem specRowStride_tight (k : Nat) (l : Int) :
    specRowStride (8 * k) 1 l = l * k := by
  have e : ceilDiv8 (l * ((8 * k : Nat) : Int)) = l * k := by
    unfold ceilDiv8
    have e1 : l * ((8 * k : Nat) : Int) = 8 * (l * k) := by push_cast; ring
    rw [e1]
    omega
  unfold specRowStride roundUpTo
  rw [e]
  split_ifs <;> simp

/-- C26: with unpack alignment 1 and the sub-image parameters out of effect (capability
    flag off), for every format and every component type among byte, unsigned byte, short,
    unsigned short, half-float, int, unsigned int and float, and all non-negative `w`, `h`,
    `d` for which the row bit count fits `unsigned` and the total fits `size_t`,
    `__gl_image_size(format, type, w, h, d, false)` is the tightly packed size
    `w*h*d*__gl_format_channels(format)*__gl_type_size(type)`. -/
theorem image_size_tightly_packed (st : UnpackState) (format type : Nat)
    (w h d : Int) (ha : st.alignment = 1) (ht : type ∈ componentTypes)
    (hw : 0 ≤ w) (hh : 0 ≤ h) (hd : 0 ≤ d)
    (h1 : w * (8 * (__gl_format_channels format * __gl_type_size type)) + 7 < 2 ^ 32)
    (h2 : w * h * d * __gl_format_channels format * __gl_type_size type < 2 ^ 64) :
    (__gl_image_size st format type w h d false : Int)
      = w * h * d * __gl_format_channels format * __gl_type_size type := by
  obtain ⟨l, rfl⟩ := Int.eq_ofNat_of_zero_le hw
  obtain ⟨h, rfl⟩ := Int.eq_ofNat_of_zero_le hh
  obtain ⟨d, rfl⟩ := Int.eq_ofNat_of_zero_le hd
  have hbpp := bits_per_pixel_component format type ht
  have hS : specRowStride (bits_per_pixel format type) st.alignment l
      = (l : Int) * (__gl_format_channels format * __gl_type_size type : Nat) := by
    rw [hbpp, ha]
    exact specRowStride_tight _ _
  have hpx : ceilDiv8 (((0 : Nat) : Int) * bits_per_pixel format type) = 0 := by
    unfold ceilDiv8
    simp
  have key := image_size_core st format type l h d 0 0 0 (Or.inl ha)
    (by rw [hbpp]; exact_mod_cast h1) (by simp)
    (by
      rw [hS, hpx]
      push_cast
      have e : (d : Int) * h * (l * (__gl_format_channels format * __gl_type_size type))
          = l * h * d * __gl_format_channels format * __gl_type_size type := by ring
      rw [e]
      simpa using h2)
  rw [hS, hpx] at key
  unfold __gl_image_size
  simp only [Bool.false_eq_true, if_false, le_refl, if_true]
  have e0 : ((0 : Nat) : Int) = 0 := rfl
  rw [e0] at key
  rw [key]
  push_cast
  ring

/-- C26 witness: at alignment 1 a 3x2 RGB image of unsigned bytes takes 18 bytes. -/
theorem image_size_tightly_packed_witness :
    GL_UNSIGNED_BYTE ∈ componentTypes ∧
    (__gl_image_size { defaultUnpack with alignment := 1 } GL_RGB GL_UNSIGNED_BYTE 3 2 1 false
      : Int) = 3 * 2 * 1 * __gl_format_channels GL_RGB * __gl_type_size GL_UNSIGNED_BYTE ∧
    (3 : Int) * 2 * 1 * __gl_format_channels GL_RGB * __gl_type_size GL_UNSIGNED_BYTE = 18 :=
  ⟨by decide,
    image_size_tightly_packed { defaultUnpack with alignment := 1 } GL_RGB GL_UNSIGNED_BYTE
      3 2 1 rfl (by decide) (by decide) (by decide) (by decide) (by decide) (by decide),
    by decide⟩

set_option maxRecDepth 100000 in
/-- Every recognised uniform type decomposes to one of the five scalar element types, of
    non-zero byte width, and a count from 1 to 16. -/
theorem uniform_size_known (type : Nat) (h : type ∈ uniformTypes) :
    (__gl_uniform_size type).1 ∈ [GL_FLOAT, GL_DOUBLE, GL_INT, GL_UNSIGNED_INT, GL_BOOL] ∧
    __gl_type_size (__gl_uniform_size type).1 ≠ 0 ∧
    1 ≤ (__gl_uniform_size type).2 ∧ (__gl_uniform_size type).2 ≤ 16 := by
  have hall : ∀ t ∈ uniformTypes,
      (__gl_uniform_size t).1 ∈ [GL_FLOAT, GL_DOUBLE, GL_INT, GL_UNSIGNED_INT, GL_BOOL] ∧
      __gl_type_size (__gl_uniform_size t).1 ≠ 0 ∧
      1 ≤ (__gl_uniform_size t).2 ∧ (__gl_uniform_size t).2 ≤ 16 := by
    decide
  exact hall type h

/-- C27: for every enum value `__gl_uniform_size` yields either (`GL_NONE`, 0) or an element
    type among float, double, int, unsigned int and bool, whose `__gl_type_size` is
    non-zero, with a count between 1 and 16; the first happens exactly for the values it
    does not recognise, so the byte size `count * __gl_type_size(elemType)` of a uniform is
    zero exactly when the uniform type is unrecognised. -/
theorem uniform_size_invariant :
    (∀ type : Nat,
      __gl_uniform_size type = (GL_NONE, 0) ∨
      ((__gl_uniform_size type).1 ∈ [GL_FLOAT, GL_DOUBLE, GL_INT, GL_UNSIGNED_INT, GL_BOOL] ∧
        __gl_type_size (__gl_uniform_size type).1 ≠ 0 ∧
        1 ≤ (__gl_uniform_size type).2 ∧ (__gl_uniform_size type).2 ≤ 16)) ∧
    (∀ type : Nat, __gl_uniform_size type = (GL_NONE, 0) ↔ type ∉ uniformTypes) ∧
    (∀ type : Nat,
      (__gl_uniform_size type).2 * (__gl_type_size (__gl_uniform_size type).1 : Int) = 0 ↔
        type ∉ uniformTypes) := by
  refine ⟨?_, ?_, ?_⟩
  · intro type
    by_cases h : type ∈ uniformTypes
    · exact Or.inr (uniform_size_known type h)
    · exact Or.inl (uniform_size_unknown type h)
  · intro type
    constructor
    · intro he h
      have hk := (uniform_size_known type h).2.2.1
      rw [he] at hk
      exact absurd hk (by decide)
    · exact uniform_size_unknown type
  · intro type
    constructor
    · intro he h
      obtain ⟨_, hts, h1, _⟩ := uniform_size_known type h
      rcases mul_eq_zero.1 he with h0 | h0
      · omega
      · exact hts (by exact_mod_cast h0)
    · intro h
      rw [uniform_size_unknown type h]
      rfl

/-- C27 witness: `GL_FLOAT_MAT4` is sixteen floats, 64 bytes; the value 0x1234 is
    unrecognised and has byte size 0. -/
theorem uniform_size_invariant_witness :
    0x1234 ∉ uniformTypes ∧
    (__gl_uniform_size 0x1234).2 * (__gl_type_size (__gl_uniform_size 0x1234).1 : Int) = 0 ∧
    (__gl_uniform_size GL_FLOAT_MAT4).2
      * (__gl_type_size (__gl_uniform_size GL_FLOAT_MAT4).1 : Int) = 64 :=
  ⟨by decide, (uniform_size_invariant.2.2 0x1234).2 (by decide), by decide⟩

end Apitrace
